import Mathlib

/-! # pen renderer, OpenGL back end

A shallow embedding of `pen/source/opengl/renderer.cpp`: the handle-indexed
resource pool, the requested / applied pipeline-state pair with the reconciler
`bind_state`, the shader-program cache and the query table.

Conventions of the embedding.

* The file-scope globals `resource_pool`, `shader_programs`, `g_bound_state` and
  `g_current_state` are the fields of one explicit `renderer` value that every
  operation takes and returns. `query_pool` is passed on its own.
* The union inside `resource_allocation` is the sum type `resource_payload`; what C
  leaves undefined (an index outside an array, a member of the wrong kind, a null
  pointer) is a `fault`, carried by `Except`.
* The OpenGL driver is a recording mock: every call is appended to `gl_calls`, object
  names are generated from the counter `gl_names` (so they are never zero and never
  repeated), and the answers to driver queries are the functions of a `gl_driver`.
* `u32` values are natural numbers; the only narrowing store of the modelled code, the
  `u8` field `asigned_flag`, is written through `u8`.
-/

namespace pen

/-! ## Constants -/

def NUM_QUERY_BUFFERS : Nat := 4
def MAX_QUERIES : Nat := 64
def NUM_CUBEMAP_FACES : Nat := 6
def MAX_VERTEX_ATTRIBUTES : Nat := 16

def QUERY_DISJOINT : Nat := 1
def QUERY_ISSUED : Nat := 2
def QUERY_SO_STATS : Nat := 4

/-- Modelled from the spec: the allocation-domain bit of the direct API, declared in
`renderer.h` (not among the sources); one of two independent domain bits. -/
def DIRECT_RESOURCE : Nat := 1

/-- Modelled from the spec: the allocation-domain bit of the deferred API, declared in
`renderer.h` (not among the sources); the second of two independent domain bits. -/
def DEFER_RESOURCE : Nat := 2

/-! Enumerants of the OpenGL headers used by the modelled functions. -/

def GL_ARRAY_BUFFER : Nat := 0x8892
def GL_VERTEX_SHADER : Nat := 0x8B31
def GL_FRAGMENT_SHADER : Nat := 0x8B30
def GL_LINK_STATUS : Nat := 0x8B82
def GL_INFO_LOG_LENGTH : Nat := 0x8B84
def GL_UNSIGNED_BYTE : Nat := 0x1401
def GL_CW : Nat := 0x0900
def GL_CULL_FACE : Nat := 0x0B44
def GL_DEPTH_CLAMP : Nat := 0x864F
def GL_FRONT_AND_BACK : Nat := 0x0408
def GL_SCISSOR_TEST : Nat := 0x0C11
def GL_ELEMENT_ARRAY_BUFFER : Nat := 0x8893
def GL_UNSIGNED_SHORT : Nat := 0x1403
def GL_TEXTURE0 : Nat := 0x84C0
def GL_TEXTURE_2D : Nat := 0x0DE1
def GL_TEXTURE_MAX_LEVEL : Nat := 0x813D
def GL_TEXTURE_MIN_FILTER : Nat := 0x2801
def GL_TEXTURE_MAG_FILTER : Nat := 0x2800
def GL_LINEAR_MIPMAP_LINEAR : Nat := 0x2703
def GL_NEAREST_MIPMAP_NEAREST : Nat := 0x2700
def GL_LINEAR : Nat := 0x2601
def GL_POINT : Nat := 0x1B00
def GL_TEXTURE_WRAP_S : Nat := 0x2802
def GL_TEXTURE_WRAP_T : Nat := 0x2803
def GL_TEXTURE_WRAP_R : Nat := 0x8072
def GL_TEXTURE_LOD_BIAS : Nat := 0x8501
def GL_TEXTURE_MAX_LOD : Nat := 0x813B
def GL_TEXTURE_MIN_LOD : Nat := 0x813A
def GL_FRAMEBUFFER : Nat := 0x8D40
def GL_COLOR_ATTACHMENT0 : Nat := 0x8CE0
def GL_RGBA8 : Nat := 0x8058
def GL_BGRA : Nat := 0x80E1
def GL_RGBA : Nat := 0x1908

/-! The enumerators of `resource_type` (lines 95-99). -/

def RES_TEXTURE : Nat := 0
def RES_RENDER_TARGET : Nat := 1

/-- Store into a `u8` object. -/
def u8 (n : Nat) : Nat := n % 2 ^ 8

/-- Values of `f32` members; the modelled code copies and compares them only. -/
abbrev f32 := Rat

/-! ## Data model -/

/-- What the C code leaves undefined. -/
inductive fault where
  | out_of_bounds (index : Nat)
  | wrong_kind (index : Nat)
  | null_pointer (index : Nat)
  | exhausted
  | assertion
  | divide_by_zero
  | use_after_scope
  | dangling_pointer (index : Nat)
  deriving DecidableEq, Repr

structure clear_state_internal where
  rgba : List f32
  depth : f32
  flags : Nat
  deriving DecidableEq, Repr

structure vertex_attribute where
  location : Nat
  type : Nat
  stride : Nat
  offset : Nat
  num_elements : Nat
  deriving DecidableEq, Repr

structure input_layout where
  attributes : List vertex_attribute
  vertex_array_handle : Nat
  vb_handle : Nat
  deriving DecidableEq, Repr

structure raster_state where
  cull_face : Nat
  polygon_mode : Nat
  culling_enabled : Bool
  depth_clip_enabled : Bool
  scissor_enabled : Bool
  deriving DecidableEq, Repr

structure texture_info where
  handle : Nat
  max_mip_level : Nat
  deriving DecidableEq, Repr

structure render_target where
  framebuffer : Nat
  texture : texture_info
  deriving DecidableEq, Repr

/-- An entry of `shader_programs`; `gs` is never written by the modelled code. -/
structure shader_program where
  vs : Nat
  ps : Nat
  gs : Option Nat
  program : Nat
  deriving DecidableEq, Repr

/-- The members of `depth_stencil_creation_params` (`renderer.h`) the renderer reads. -/
structure depth_stencil_creation_params where
  depth_enable : Bool
  depth_func : Nat
  depth_write_mask : Nat
  deriving DecidableEq, Repr

/-- The members of `render_target_blend` (`renderer.h`) the renderer reads. -/
structure render_target_blend where
  blend_enable : Bool
  src_blend : Nat
  dest_blend : Nat
  blend_op : Nat
  src_blend_alpha : Nat
  dest_blend_alpha : Nat
  blend_op_alpha : Nat
  deriving DecidableEq, Repr

/-- The members of `blend_creation_params` (`renderer.h`) the renderer reads. -/
structure blend_creation_params where
  independent_blend_enable : Bool
  render_targets : List render_target_blend
  deriving DecidableEq, Repr

/-- The members of `sampler_creation_params` (`renderer.h`) the renderer reads. -/
structure sampler_creation_params where
  filter : Nat
  address_u : Nat
  address_v : Nat
  address_w : Nat
  mip_lod_bias : f32
  max_lod : f32
  min_lod : f32
  deriving DecidableEq, Repr

/-- The anonymous union of `resource_allocation`. `zeroed` is the all-zero bytes left by
`memory_zero`; the pointer members carry the object they point to; `freed` is a pointer
member whose block `memory_free` has released (the pointer stays in the slot and
dangles). The `shader_program*` member is the address `&shader_programs.back()` taken
right after a `push_back`: it carries the position of that entry, and the vector then
held one entry more than the position. -/
inductive resource_payload where
  | zeroed
  | freed
  | clear_state (cs : clear_state_internal)
  | input_layout (il : input_layout)
  | raster_state (rs : raster_state)
  | depth_stencil (p : depth_stencil_creation_params)
  | blend_state (p : blend_creation_params)
  | handle (h : Nat)
  | texture (ti : texture_info)
  | render_target (rt : render_target)
  | sampler_state (p : sampler_creation_params)
  | shader_program (entry : Nat)
  deriving DecidableEq, Repr

structure resource_allocation where
  asigned_flag : Nat
  type : Nat
  payload : resource_payload
  deriving DecidableEq, Repr

structure query_allocation where
  asigned_flag : Nat
  query : List Nat
  flags : List Nat
  last_result : Nat
  deriving DecidableEq, Repr

structure active_state where
  vertex_buffer : Nat
  vertex_buffer_stride : Nat
  index_buffer : Nat
  input_layout : Nat
  vertex_shader : Nat
  pixel_shader : Nat
  raster_state : Nat
  enabled_vertex_attributes : List Bool
  deriving DecidableEq, Repr

/-- The driver calls the modelled functions issue, with their arguments; a call that
returns an object name records the name it returned. -/
inductive gl_call where
  | glCreateProgram (name : Nat)
  | glAttachShader (program shader : Nat)
  | glLinkProgram (program : Nat)
  | glGetShaderiv (shader pname : Nat)
  | glGetShaderInfoLog (shader length : Nat)
  | glUseProgram (program : Nat)
  | glGetUniformBlockIndex (program : Nat) (name : String)
  | glUniformBlockBinding (program index binding : Nat)
  | glGetUniformLocation (program : Nat) (name : String)
  | glUniform1i (location value : Nat)
  | glBindBuffer (target buffer : Nat)
  | glGenVertexArrays (n name : Nat)
  | glBindVertexArray (array : Nat)
  | glVertexAttribPointer (index size type : Nat) (normalized : Bool) (stride pointer : Nat)
  | glEnableVertexAttribArray (index : Nat)
  | glDisableVertexAttribArray (index : Nat)
  | glFrontFace (mode : Nat)
  | glEnable (cap : Nat)
  | glDisable (cap : Nat)
  | glCullFace (mode : Nat)
  | glPolygonMode (face mode : Nat)
  | glDrawArrays (mode first count : Nat)
  | glDrawElementsBaseVertex (mode count type indices basevertex : Nat)
  | glCreateShader (type name : Nat)
  | glShaderSource (shader count : Nat)
  | glCompileShader (shader : Nat)
  | glGenBuffers (n name : Nat)
  | glBufferData (target size usage : Nat)
  | glGenTextures (n name : Nat)
  | glBindTexture (target texture : Nat)
  | glTexImage2D (target level internalformat width height border format type pixels : Nat)
  | glActiveTexture (texture : Nat)
  | glTexParameteri (target pname param : Nat)
  | glTexParameterf (target pname : Nat) (param : f32)
  | glGenFramebuffers (n name : Nat)
  | glBindFramebuffer (target framebuffer : Nat)
  | glFramebufferTexture (target attachment texture level : Nat)
  | glDrawBuffers (n : Nat) (bufs : List Nat)
  | glDeleteShader (shader : Nat)
  | glDeleteBuffers (n name : Nat)
  | glDeleteTextures (n name : Nat)
  | glDeleteFramebuffers (n name : Nat)
  | glDeleteProgram (program : Nat)
  deriving DecidableEq, Repr

/-- What the renderer gets from outside: the answers of the driver to its queries, and
from the library the capacity `std::vector` asks for when a `push_back` finds the storage
of `n` entries full (`vector_growth n`). -/
structure gl_driver where
  info_log_length : Nat → Nat
  uniform_block_index : Nat → String → Nat
  uniform_location : Nat → String → Nat
  vector_growth : Nat → Nat

/-- The renderer's globals together with the recording mock driver. -/
structure renderer where
  resource_pool : List resource_allocation
  shader_programs : List shader_program
  g_bound_state : active_state
  g_current_state : active_state
  gl_calls : List gl_call
  gl_names : Nat
  deriving DecidableEq, Repr

/-- Issue one driver call. -/
def gl (c : gl_call) (s : renderer) : renderer :=
  { s with gl_calls := s.gl_calls ++ [c] }

/-- The mock generates the next object name. -/
def gl_gen (s : renderer) : Nat × renderer :=
  (s.gl_names + 1, { s with gl_names := s.gl_names + 1 })

/-! ## Access to the resource pool -/

/-- The expression `resource_pool[ i ]`. -/
def pool_slot (pool : List resource_allocation) (i : Nat) : Except fault resource_allocation :=
  match pool[i]? with
  | some r => .ok r
  | none => .error (.out_of_bounds i)

/-- The expression `resource_pool[ i ].handle`. The members `handle`, `texture.handle` and
`render_target.framebuffer` are the `GLuint` the union starts with, and
`renderer_release_texture2d` reads the name of a texture through `handle`. -/
def read_handle (pool : List resource_allocation) (i : Nat) : Except fault Nat :=
  match pool_slot pool i with
  | .error e => .error e
  | .ok r =>
    match r.payload with
    | .zeroed => .ok 0
    | .handle h => .ok h
    | .texture ti => .ok ti.handle
    | .render_target rt => .ok rt.framebuffer
    | _ => .error (.wrong_kind i)

/-- The object behind `resource_pool[ i ].input_layout`, as `bind_state` dereferences it. -/
def read_input_layout (pool : List resource_allocation) (i : Nat) : Except fault input_layout :=
  match pool_slot pool i with
  | .error e => .error e
  | .ok r =>
    match r.payload with
    | .input_layout il => .ok il
    | .zeroed => .error (.null_pointer i)
    | .freed => .error (.dangling_pointer i)
    | _ => .error (.wrong_kind i)

/-- The expression `resource_pool[ i ].raster_state`. -/
def read_raster_state (pool : List resource_allocation) (i : Nat) : Except fault raster_state :=
  match pool_slot pool i with
  | .error e => .error e
  | .ok r =>
    match r.payload with
    | .raster_state rs => .ok rs
    | .zeroed => .ok ⟨0, 0, false, false, false⟩
    | _ => .error (.wrong_kind i)

/-- The expression `resource_pool[ i ].clear_state`. -/
def read_clear_state (pool : List resource_allocation) (i : Nat) :
    Except fault clear_state_internal :=
  match pool_slot pool i with
  | .error e => .error e
  | .ok r =>
    match r.payload with
    | .clear_state cs => .ok cs
    | .zeroed => .ok ⟨[0, 0, 0, 0], 0, 0⟩
    | _ => .error (.wrong_kind i)

/-- The member `texture` of a slot. -/
def read_texture (i : Nat) (r : resource_allocation) : Except fault texture_info :=
  match r.payload with
  | .texture ti => .ok ti
  | .zeroed => .ok ⟨0, 0⟩
  | _ => .error (.wrong_kind i)

/-- The member `render_target` of a slot. -/
def read_render_target (i : Nat) (r : resource_allocation) : Except fault render_target :=
  match r.payload with
  | .render_target rt => .ok rt
  | .zeroed => .ok ⟨0, ⟨0, 0⟩⟩
  | _ => .error (.wrong_kind i)

/-- The object behind `resource_pool[ i ].sampler_state`. -/
def read_sampler_state (pool : List resource_allocation) (i : Nat) :
    Except fault sampler_creation_params :=
  match pool_slot pool i with
  | .error e => .error e
  | .ok r =>
    match r.payload with
    | .sampler_state scp => .ok scp
    | .zeroed => .error (.null_pointer i)
    | .freed => .error (.dangling_pointer i)
    | _ => .error (.wrong_kind i)

/-- Write through the `input_layout*` of slot `i`. -/
def write_input_layout (pool : List resource_allocation) (i : Nat) (il : input_layout) :
    List resource_allocation :=
  match pool[i]? with
  | some r => pool.set i { r with payload := .input_layout il }
  | none => pool

/-! ## Tables -/

def zero_resource : resource_allocation := ⟨0, 0, .zeroed⟩

/-- `clear_resource_table` (lines 156-162), for a pool of `capacity` slots
(`MAX_RENDERER_RESOURCES` is declared in `renderer.h`). -/
def clear_resource_table (capacity : Nat) : List resource_allocation :=
  match List.replicate capacity zero_resource with
  | [] => []
  | r :: rest => { r with asigned_flag := u8 (r.asigned_flag ||| 0xff) } :: rest

def zero_query : query_allocation :=
  ⟨0, List.replicate NUM_QUERY_BUFFERS 0, List.replicate NUM_QUERY_BUFFERS 0, 0⟩

/-- `clear_query_table` (lines 164-167). -/
def clear_query_table : List query_allocation :=
  List.replicate MAX_QUERIES zero_query

/-- The loop `while (query_pool[i].asigned_flag & domain) ++i;` of
`get_next_query_index`, entered at index `i` with `slots` the table from `i` on. The
source has no bound on `i`: once the slots are used up the next read is outside
`query_pool`. -/
def query_scan (domain : Nat) : List query_allocation → Nat → Except fault Nat
  | [], i => .error (.out_of_bounds i)
  | q :: slots, i =>
    if q.asigned_flag &&& domain ≠ 0 then query_scan domain slots (i + 1) else .ok i

/-- `get_next_query_index` (lines 169-180): the index returned and the table after. -/
def get_next_query_index (query_pool : List query_allocation) (domain : Nat) :
    Except fault (Nat × List query_allocation) :=
  match query_scan domain query_pool 0 with
  | .error e => .error e
  | .ok i =>
    match query_pool[i]? with
    | none => .error (.out_of_bounds i)
    | some q => .ok (i, query_pool.set i { q with asigned_flag := u8 (q.asigned_flag ||| domain) })

/-- A run of `get_next_query_index (domain)` calls, one per element of `domains`, in
order; the table after the last one. -/
def query_allocations (query_pool : List query_allocation) :
    List Nat → Except fault (List query_allocation)
  | [] => .ok query_pool
  | domain :: rest =>
    match get_next_query_index query_pool domain with
    | .error e => .error e
    | .ok (_, query_pool1) => query_allocations query_pool1 rest

/-! ## Shader programs -/

/-- `link_program_internal` (lines 206-239): the entry pushed onto `shader_programs`
and the state after. The info-log text goes to the debug output, which is not part of
the state. -/
def link_program_internal (drv : gl_driver) (s : renderer) (vs ps : Nat) :
    shader_program × renderer :=
  let (program_id, s) := gl_gen s
  let s := gl (.glCreateProgram program_id) s
  let s := gl (.glAttachShader program_id vs) s
  let s := gl (.glAttachShader program_id ps) s
  let s := gl (.glLinkProgram program_id) s
  let s := gl (.glGetShaderiv program_id GL_LINK_STATUS) s
  let s := gl (.glGetShaderiv program_id GL_INFO_LOG_LENGTH) s
  let info_log_length := drv.info_log_length program_id
  let s := if info_log_length > 0 then gl (.glGetShaderInfoLog program_id info_log_length) s else s
  let program : shader_program :=
    { vs := s.g_bound_state.vertex_shader, ps := s.g_bound_state.pixel_shader, gs := none,
      program := program_id }
  (program, { s with shader_programs := s.shader_programs ++ [program] })

/-- `renderer_set_shader` (lines 303-309). -/
def renderer_set_shader (s : renderer) (shader_index shader_type : Nat) : renderer :=
  if shader_type = GL_VERTEX_SHADER then
    { s with g_current_state := { s.g_current_state with vertex_shader := shader_index } }
  else if shader_type = GL_FRAGMENT_SHADER then
    { s with g_current_state := { s.g_current_state with pixel_shader := shader_index } }
  else s

/-! ## Pipeline setters -/

/-- `renderer_set_vertex_buffer` (lines 411-417); `strides` and `offsets` are the arrays
behind the two pointers, and `strides[ 0 ]` is read. -/
def renderer_set_vertex_buffer (s : renderer) (buffer_index start_slot num_buffers : Nat)
    (strides offsets : List Nat) : Except fault renderer :=
  match strides[0]? with
  | none => .error (.out_of_bounds 0)
  | some stride =>
    .ok { s with g_current_state :=
      { s.g_current_state with vertex_buffer := buffer_index, vertex_buffer_stride := stride } }

/-- `renderer_set_input_layout` (lines 419-422). -/
def renderer_set_input_layout (s : renderer) (layout_index : Nat) : renderer :=
  { s with g_current_state := { s.g_current_state with input_layout := layout_index } }

/-- `renderer_set_index_buffer` (lines 424-427). -/
def renderer_set_index_buffer (s : renderer) (buffer_index format offset : Nat) : renderer :=
  { s with g_bound_state := { s.g_bound_state with index_buffer := buffer_index } }

/-- `renderer_set_rasterizer_state` (lines 797-800). -/
def renderer_set_rasterizer_state (s : renderer) (rasterizer_state_index : Nat) : renderer :=
  { s with g_current_state := { s.g_current_state with raster_state := rasterizer_state_index } }

/-! ## The reconciler -/

/-- The cache scan of `bind_state` (lines 440-447): the entry whose copy the loop stops
at. The test of the loop reads `program.vs == g_bound_state.vertex_shader` on both sides
of its `&&`. -/
def find_linked_program (programs : List shader_program) (bound : active_state) :
    Option shader_program :=
  programs.find? (fun program =>
    program.vs == bound.vertex_shader && program.vs == bound.vertex_shader)

/-- The block `//bind shaders` of `bind_state` (lines 432-458). The loop variable
`auto program` is a copy of the entry, local to the loop; on a hit `linked_program` is
the address of that copy, and `linked_program->program` is read after the loop, when the
copy is gone. -/
def bind_shaders (drv : gl_driver) (s : renderer) : Except fault renderer :=
  if s.g_current_state.vertex_shader ≠ s.g_bound_state.vertex_shader ∨
      s.g_current_state.pixel_shader ≠ s.g_bound_state.pixel_shader then
    let s := { s with g_bound_state := { s.g_bound_state with
      vertex_shader := s.g_current_state.vertex_shader,
      pixel_shader := s.g_current_state.pixel_shader } }
    match find_linked_program s.shader_programs s.g_bound_state with
    | some _ => .error .use_after_scope
    | none =>
      match read_handle s.resource_pool s.g_bound_state.vertex_shader with
      | .error e => .error e
      | .ok vs_handle =>
        match read_handle s.resource_pool s.g_bound_state.pixel_shader with
        | .error e => .error e
        | .ok ps_handle =>
          let linked := link_program_internal drv s vs_handle ps_handle
          .ok (gl (.glUseProgram linked.1.program) linked.2)
  else .ok s

/-- The block `//bind vertex buffer` of `bind_state` (lines 460-466). -/
def bind_vertex_buffer (s : renderer) : Except fault renderer :=
  let s := { s with g_bound_state := { s.g_bound_state with
    vertex_buffer := s.g_current_state.vertex_buffer } }
  match read_handle s.resource_pool s.g_bound_state.vertex_buffer with
  | .error e => .error e
  | .ok res => .ok (gl (.glBindBuffer GL_ARRAY_BUFFER res) s)

/-- One turn of the loop over `res->attributes` (lines 495-506). -/
def describe_attribute (s : renderer) (attr : vertex_attribute) : Except fault renderer :=
  let s := gl (.glVertexAttribPointer attr.location attr.num_elements attr.type
    (if attr.type = GL_UNSIGNED_BYTE then true else false)
    s.g_bound_state.vertex_buffer_stride attr.offset) s
  if attr.location < MAX_VERTEX_ATTRIBUTES then
    let enabled := s.g_bound_state.enabled_vertex_attributes.set attr.location true
    .ok { s with g_bound_state := { s.g_bound_state with enabled_vertex_attributes := enabled } }
  else .error (.out_of_bounds attr.location)

/-- The loop over `res->attributes` (lines 495-506). -/
def describe_attributes (s : renderer) : List vertex_attribute → Except fault renderer
  | [] => .ok s
  | attr :: rest =>
    match describe_attribute s attr with
    | .error e => .error e
    | .ok s1 => describe_attributes s1 rest

/-- One turn of the loop over the attribute indices (lines 508-518). -/
def toggle_attribute_array (s : renderer) (i : Nat) : Except fault renderer :=
  match s.g_bound_state.enabled_vertex_attributes[i]? with
  | none => .error (.out_of_bounds i)
  | some true => .ok (gl (.glEnableVertexAttribArray i) s)
  | some false => .ok (gl (.glDisableVertexAttribArray i) s)

/-- The loop `for( u32 i = 0; i < MAX_VERTEX_ATTRIBUTES; ++i )` (lines 508-518), over
the indices still to visit. -/
def toggle_attribute_arrays (s : renderer) : List Nat → Except fault renderer
  | [] => .ok s
  | i :: rest =>
    match toggle_attribute_array s i with
    | .error e => .error e
    | .ok s1 => toggle_attribute_arrays s1 rest

/-- The lazy `glGenVertexArrays` of the input-layout block (lines 486-489): the layout
object and the state after. -/
def generate_vertex_array (s : renderer) (res : input_layout) : input_layout × renderer :=
  if res.vertex_array_handle = 0 then
    let named := gl_gen s
    ({ res with vertex_array_handle := named.1 }, gl (.glGenVertexArrays 1 named.1) named.2)
  else (res, s)

/-- The description of the layout against the bound buffer (lines 491-518): the layout
object as left behind the pointer, and the state after. -/
def describe_vertex_array (s : renderer) (res : input_layout) :
    Except fault (input_layout × renderer) :=
  let res := { res with vb_handle := s.g_bound_state.vertex_buffer }
  let pool := write_input_layout s.resource_pool s.g_current_state.input_layout res
  let s := { s with resource_pool := pool }
  let s := gl (.glBindVertexArray res.vertex_array_handle) s
  match describe_attributes s res.attributes with
  | .error e => .error e
  | .ok s1 =>
    match toggle_attribute_arrays s1 (List.range MAX_VERTEX_ATTRIBUTES) with
    | .error e => .error e
    | .ok s2 => .ok (res, s2)

/-- The body of the inner `if` of the input-layout block (lines 486-518). -/
def regenerate_vertex_array (s : renderer) (res : input_layout) :
    Except fault (input_layout × renderer) :=
  let generated := generate_vertex_array s res
  describe_vertex_array generated.2 generated.1

/-- The block `//bind input layout` of `bind_state` (lines 468-522). -/
def bind_input_layout (s : renderer) : Except fault renderer :=
  match read_input_layout s.resource_pool s.g_current_state.input_layout with
  | .error e => .error e
  | .ok input_res =>
    if (input_res.vb_handle = 0 ∨ input_res.vb_handle ≠ s.g_bound_state.vertex_buffer) ∨
        s.g_current_state.input_layout ≠ s.g_bound_state.input_layout ∨
        s.g_current_state.vertex_buffer_stride ≠ s.g_bound_state.vertex_buffer_stride then
      let s := { s with g_bound_state := { s.g_bound_state with
        input_layout := s.g_current_state.input_layout,
        vertex_buffer_stride := s.g_current_state.vertex_buffer_stride } }
      if input_res.vertex_array_handle = 0 ∨
          input_res.vb_handle ≠ s.g_bound_state.vertex_buffer then
        match regenerate_vertex_array s input_res with
        | .error e => .error e
        | .ok regenerated =>
          .ok (gl (.glBindVertexArray regenerated.1.vertex_array_handle) regenerated.2)
      else .ok (gl (.glBindVertexArray input_res.vertex_array_handle) s)
    else .ok s

/-- The raster-state block of `bind_state` (lines 524-561). -/
def bind_raster_state (s : renderer) : Except fault renderer :=
  if s.g_bound_state.raster_state ≠ s.g_current_state.raster_state then
    let s := { s with g_bound_state := { s.g_bound_state with
      raster_state := s.g_current_state.raster_state } }
    match read_raster_state s.resource_pool s.g_bound_state.raster_state with
    | .error e => .error e
    | .ok rs =>
      let s := gl (.glFrontFace GL_CW) s
      let s := if rs.culling_enabled then gl (.glCullFace rs.cull_face) (gl (.glEnable GL_CULL_FACE) s)
        else gl (.glDisable GL_CULL_FACE) s
      let s := if rs.depth_clip_enabled then gl (.glDisable GL_DEPTH_CLAMP) s
        else gl (.glEnable GL_DEPTH_CLAMP) s
      let s := gl (.glPolygonMode GL_FRONT_AND_BACK rs.polygon_mode) s
      let s := if rs.scissor_enabled then gl (.glEnable GL_SCISSOR_TEST) s
        else gl (.glDisable GL_SCISSOR_TEST) s
      .ok s
  else .ok s

/-- `bind_state` (lines 429-562). -/
def bind_state (drv : gl_driver) (s : renderer) : Except fault renderer :=
  match bind_shaders drv s with
  | .error e => .error e
  | .ok s1 =>
    match bind_vertex_buffer s1 with
    | .error e => .error e
    | .ok s2 =>
      match bind_input_layout s2 with
      | .error e => .error e
      | .ok s3 => bind_raster_state s3

/-- `renderer_draw` (lines 564-569). -/
def renderer_draw (drv : gl_driver) (s : renderer)
    (vertex_count start_vertex primitive_topology : Nat) : Except fault renderer :=
  match bind_state drv s with
  | .error e => .error e
  | .ok s1 => .ok (gl (.glDrawArrays primitive_topology start_vertex vertex_count) s1)

/-! ## Resource creation -/

/-- The first-fit scan of the allocator, over the slots from index `i` on. -/
def resource_scan (domain_flags : Nat) : List resource_allocation → Nat → Option Nat
  | [], _ => none
  | r :: slots, i =>
    if r.asigned_flag &&& domain_flags ≠ 0 then resource_scan domain_flags slots (i + 1) else some i

/-- Modelled from the spec: `renderer_get_next_resource_index`, declared in `renderer.h`
and defined outside the sources. It scans the table from the beginning for the first
slot whose assigned flag holds no bit of `domain_flags`, marks the slot with those bits
and returns its index; with no such slot it fails with an exhaustion error. -/
def renderer_get_next_resource_index (pool : List resource_allocation) (domain_flags : Nat) :
    Except fault (Nat × List resource_allocation) :=
  match resource_scan domain_flags pool 0 with
  | none => .error .exhausted
  | some i =>
    match pool[i]? with
    | none => .error .exhausted
    | some r => .ok (i, pool.set i { r with asigned_flag := u8 (r.asigned_flag ||| domain_flags) })

/-- The enumerators of `constant_layout_desc::type` (`renderer.h`) that
`renderer_link_shader_program` tells apart. -/
inductive constant_type where
  | CT_CBUFFER
  | CT_SAMPLER_2D
  | other (value : Nat)
  deriving DecidableEq, Repr

structure constant_layout_desc where
  name : String
  location : Nat
  type : constant_type
  deriving DecidableEq, Repr

/-- The members of `shader_link_params` read by `renderer_link_shader_program`;
`num_constants` is the length of `constants`. -/
structure shader_link_params where
  vertex_shader : Nat
  pixel_shader : Nat
  constants : List constant_layout_desc
  deriving DecidableEq, Repr

/-- One turn of the loop over `params.constants` (lines 340-365). -/
def bind_constant (drv : gl_driver) (prog : Nat) (s : renderer) (constant : constant_layout_desc) :
    renderer :=
  match constant.type with
  | .CT_CBUFFER =>
    let loc := drv.uniform_block_index prog constant.name
    let s := gl (.glGetUniformBlockIndex prog constant.name) s
    if loc ≠ constant.location then gl (.glUniformBlockBinding prog loc constant.location) s else s
  | .CT_SAMPLER_2D =>
    let loc := drv.uniform_location prog constant.name
    let s := gl (.glGetUniformLocation prog constant.name) s
    gl (.glUniform1i loc constant.location) s
  | .other _ => s

/-- `renderer_link_shader_program` (lines 328-370): the resource index returned and the
state after. -/
def renderer_link_shader_program (drv : gl_driver) (s : renderer) (params : shader_link_params) :
    Except fault (Nat × renderer) :=
  match renderer_get_next_resource_index s.resource_pool DIRECT_RESOURCE with
  | .error e => .error e
  | .ok (resource_index, pool) =>
    let s := { s with resource_pool := pool }
    match read_handle s.resource_pool params.vertex_shader with
    | .error e => .error e
    | .ok vs =>
      match read_handle s.resource_pool params.pixel_shader with
      | .error e => .error e
      | .ok ps =>
        let linked := link_program_internal drv s vs ps
        let linked_program := linked.2.shader_programs.length - 1
        let prog := linked.1.program
        let s := linked.2
        let s := params.constants.foldl (bind_constant drv prog) s
        match s.resource_pool[resource_index]? with
        | none => .error (.out_of_bounds resource_index)
        | some r =>
          let pool :=
            s.resource_pool.set resource_index { r with payload := .shader_program linked_program }
          .ok (resource_index, { s with resource_pool := pool })

/-- The capacity of `shader_programs` when it holds `n` entries. The vector starts empty
and without storage and grows by `push_back` alone (lines 236, no `reserve`): a `push_back`
that finds the storage full moves the entries to a new block, of the capacity the library
asks for and of one entry more at least; any other `push_back` leaves the block in
place. -/
def vector_capacity (growth : Nat → Nat) : Nat → Nat
  | 0 => 0
  | n + 1 =>
    if vector_capacity growth n = n then max (n + 1) (growth n) else vector_capacity growth n

/-- The native program id behind the `shader_program*` of slot `i`: the read
`res.shader_program->program`. The pointer was taken when the vector held `entry + 1`
entries; it dangles once a later `push_back` has moved the entries, which is when the
capacity is no longer the one of that time. -/
def read_program (drv : gl_driver) (s : renderer) (i : Nat) : Except fault Nat :=
  match pool_slot s.resource_pool i with
  | .error e => .error e
  | .ok r =>
    match r.payload with
    | .shader_program entry =>
      match s.shader_programs[entry]? with
      | some program =>
        if vector_capacity drv.vector_growth (entry + 1) =
            vector_capacity drv.vector_growth s.shader_programs.length then .ok program.program
        else .error (.dangling_pointer i)
      | none => .error (.out_of_bounds entry)
    | .zeroed => .error (.null_pointer i)
    | _ => .error (.wrong_kind i)

/-! ## Declarations of `renderer.h` -/

/-- The constants and macros of `renderer.h` and its platform definitions (not among the
sources) that the modelled functions name; every function that names one takes them as
the parameter `k`. -/
structure pen_definitions where
  PEN_CULL_NONE : Nat
  PEN_FILTER_MIN_MAG_MIP_LINEAR : Nat
  PEN_FILTER_MIN_MAG_MIP_POINT : Nat
  PEN_FILTER_LINEAR : Nat
  PEN_FILTER_POINT : Nat
  PEN_TEX_FORMAT_BGRA8_UNORM : Nat
  PEN_TEX_FORMAT_RGBA8_UNORM : Nat
  UNPACK_FORMAT : Nat → Nat
  UNPACK_NUM_ELEMENTS : Nat → Nat

/-- The members of `clear_state` (`renderer.h`) read by `renderer_create_clear_state`. -/
structure clear_state where
  r : f32
  g : f32
  b : f32
  a : f32
  depth : f32
  flags : Nat
  deriving DecidableEq, Repr

/-- The members of `texture_creation_params` read by the texture creation; the pixel data
behind `data` goes to the driver only, as offsets into it. -/
structure texture_creation_params where
  width : Nat
  height : Nat
  num_mips : Nat
  format : Nat
  block_size : Nat
  pixels_per_block : Nat
  deriving DecidableEq, Repr

/-- The members of `rasteriser_state_creation_params` read by
`renderer_create_rasterizer_state`. -/
structure rasteriser_state_creation_params where
  fill_mode : Nat
  cull_mode : Nat
  depth_clip_enable : Bool
  scissor_enable : Bool
  deriving DecidableEq, Repr

/-- Modelled from the spec: `renderer_mark_resource_deleted`, declared in `renderer.h` and
defined outside the sources. The release of a handle clears the assigned bits of the
resource domains in the flag of that slot; it leaves the other bits of the flag, the
payload and every other slot as they are. -/
def renderer_mark_resource_deleted (pool : List resource_allocation) (i : Nat) :
    Except fault (List resource_allocation) :=
  match pool_slot pool i with
  | .error e => .error e
  | .ok r =>
    let flag := r.asigned_flag &&& (0xff ^^^ (DIRECT_RESOURCE ||| DEFER_RESOURCE))
    .ok (pool.set i { r with asigned_flag := flag })

/-! ## Creation of resources -/

/-- `renderer_create_clear_state` (lines 184-196): the handle returned and the state
after. -/
def renderer_create_clear_state (s : renderer) (cs : clear_state) : Except fault (Nat × renderer) :=
  match renderer_get_next_resource_index s.resource_pool (DIRECT_RESOURCE ||| DEFER_RESOURCE) with
  | .error e => .error e
  | .ok (resoruce_index, pool) =>
    match pool_slot pool resoruce_index with
    | .error e => .error e
    | .ok r =>
      let payload := resource_payload.clear_state ⟨[cs.r, cs.g, cs.b, cs.a], cs.depth, cs.flags⟩
      .ok (resoruce_index, { s with resource_pool := pool.set resoruce_index { r with payload := payload } })

/-- `calc_mip_level_size` (lines 584-590), in `u32` arithmetic; the division faults on a
zero divisor. -/
def calc_mip_level_size (w h block_size pixels_per_block : Nat) : Except fault Nat :=
  if pixels_per_block = 0 then .error .divide_by_zero
  else .ok ((w * h) % 2 ^ 32 / pixels_per_block * block_size % 2 ^ 32)

/-- `get_texture_format` (lines 592-619): `sized_format`, `format` and `type`; the
`PEN_ASSERT( 0 )` of the default case stops the call. -/
def get_texture_format (k : pen_definitions) (pen_format : Nat) : Except fault (Nat × Nat × Nat) :=
  if pen_format = k.PEN_TEX_FORMAT_BGRA8_UNORM then .ok (GL_RGBA8, GL_BGRA, GL_UNSIGNED_BYTE)
  else if pen_format = k.PEN_TEX_FORMAT_RGBA8_UNORM then .ok (GL_RGBA8, GL_RGBA, GL_UNSIGNED_BYTE)
  else .error .assertion

/-- The loop over the mip levels of `create_texture2d_internal` (lines 634-642), with
`remaining` levels to go from level `mip`; `offset` is `mip_data - tcp.data`. -/
def upload_mips (tcp : texture_creation_params) (sized_format format type : Nat) :
    Nat → Nat → Nat → Nat → Nat → renderer → Except fault renderer
  | 0, _, _, _, _, s => .ok s
  | remaining + 1, mip, mip_w, mip_h, offset, s =>
    let s := gl (.glTexImage2D GL_TEXTURE_2D mip sized_format mip_w mip_h 0 format type offset) s
    match calc_mip_level_size mip_w mip_h tcp.block_size tcp.pixels_per_block with
    | .error e => .error e
    | .ok size =>
      upload_mips tcp sized_format format type remaining (mip + 1) (mip_w / 2) (mip_h / 2)
        (offset + size) s

/-- `create_texture2d_internal` (lines 621-651). -/
def create_texture2d_internal (k : pen_definitions) (s : renderer) (tcp : texture_creation_params) :
    Except fault (texture_info × renderer) :=
  match get_texture_format k tcp.format with
  | .error e => .error e
  | .ok (sized_format, format, type) =>
    let named := gl_gen s
    let s := gl (.glGenTextures 1 named.1) named.2
    let s := gl (.glBindTexture GL_TEXTURE_2D named.1) s
    match upload_mips tcp sized_format format type tcp.num_mips 0 tcp.width tcp.height 0 s with
    | .error e => .error e
    | .ok s =>
      let s := gl (.glBindTexture GL_TEXTURE_2D 0) s
      .ok ({ handle := named.1, max_mip_level := (tcp.num_mips + 2 ^ 32 - 1) % 2 ^ 32 }, s)

/-- `renderer_create_render_target` (lines 653-671). -/
def renderer_create_render_target (k : pen_definitions) (s : renderer)
    (tcp : texture_creation_params) : Except fault (Nat × renderer) :=
  match renderer_get_next_resource_index s.resource_pool DIRECT_RESOURCE with
  | .error e => .error e
  | .ok (resource_index, pool) =>
    match pool_slot pool resource_index with
    | .error e => .error e
    | .ok r =>
      let named := gl_gen { s with resource_pool := pool }
      let s := gl (.glGenFramebuffers 1 named.1) named.2
      let s := gl (.glBindFramebuffer GL_FRAMEBUFFER named.1) s
      match create_texture2d_internal k s tcp with
      | .error e => .error e
      | .ok (texture, s) =>
        let s := gl (.glFramebufferTexture GL_FRAMEBUFFER GL_COLOR_ATTACHMENT0 texture.handle 0) s
        let s := gl (.glBindFramebuffer GL_FRAMEBUFFER 0) s
        let slot := { r with type := RES_RENDER_TARGET, payload := .render_target ⟨named.1, texture⟩ }
        .ok (resource_index, { s with resource_pool := s.resource_pool.set resource_index slot })

/-- `renderer_set_targets` (lines 673-688). -/
def renderer_set_targets (s : renderer) (colour_target depth_target colour_face depth_face : Nat) :
    Except fault renderer :=
  if colour_target = 0 then .ok (gl (.glBindFramebuffer GL_FRAMEBUFFER 0) s)
  else
    let s := gl (.glDrawBuffers 1 [GL_COLOR_ATTACHMENT0]) s
    match pool_slot s.resource_pool colour_target with
    | .error e => .error e
    | .ok res =>
      match read_render_target colour_target res with
      | .error e => .error e
      | .ok rt => .ok (gl (.glBindFramebuffer GL_FRAMEBUFFER rt.framebuffer) s)

/-- `renderer_create_texture2d` (lines 690-698). -/
def renderer_create_texture2d (k : pen_definitions) (s : renderer) (tcp : texture_creation_params) :
    Except fault (Nat × renderer) :=
  match renderer_get_next_resource_index s.resource_pool DIRECT_RESOURCE with
  | .error e => .error e
  | .ok (resource_index, pool) =>
    match pool_slot pool resource_index with
    | .error e => .error e
    | .ok r =>
      match create_texture2d_internal k { s with resource_pool := pool } tcp with
      | .error e => .error e
      | .ok (texture, s) =>
        let slot := { r with type := RES_TEXTURE, payload := .texture texture }
        .ok (resource_index, { s with resource_pool := s.resource_pool.set resource_index slot })

/-- `renderer_create_sampler` (lines 700-709); the parameter block is copied. -/
def renderer_create_sampler (s : renderer) (scp : sampler_creation_params) :
    Except fault (Nat × renderer) :=
  match renderer_get_next_resource_index s.resource_pool DIRECT_RESOURCE with
  | .error e => .error e
  | .ok (resource_index, pool) =>
    match pool_slot pool resource_index with
    | .error e => .error e
    | .ok r =>
      let slot := { r with payload := .sampler_state scp }
      .ok (resource_index, { s with resource_pool := pool.set resource_index slot })

/-- `renderer_create_rasterizer_state` (lines 775-795). -/
def renderer_create_rasterizer_state (k : pen_definitions) (s : renderer)
    (rscp : rasteriser_state_creation_params) : Except fault (Nat × renderer) :=
  match renderer_get_next_resource_index s.resource_pool DIRECT_RESOURCE with
  | .error e => .error e
  | .ok (resource_index, pool) =>
    match pool_slot pool resource_index with
    | .error e => .error e
    | .ok r =>
      let rs : raster_state := ⟨0, 0, false, false, false⟩
      let rs := if rscp.cull_mode ≠ k.PEN_CULL_NONE then
        { rs with culling_enabled := true, cull_face := rscp.cull_mode } else rs
      let rs := { rs with depth_clip_enabled := rscp.depth_clip_enable }
      let rs := { rs with scissor_enabled := rscp.scissor_enable }
      let rs := { rs with polygon_mode := rscp.fill_mode }
      let slot := { r with payload := .raster_state rs }
      .ok (resource_index, { s with resource_pool := pool.set resource_index slot })

/-- `renderer_draw_indexed` (lines 571-582); `start_index * 2` is a `u32` product. -/
def renderer_draw_indexed (drv : gl_driver) (s : renderer)
    (index_count start_index base_vertex primitive_topology : Nat) : Except fault renderer :=
  match bind_state drv s with
  | .error e => .error e
  | .ok s1 =>
    match read_handle s1.resource_pool s1.g_bound_state.index_buffer with
    | .error e => .error e
    | .ok res =>
      let s2 := gl (.glBindBuffer GL_ELEMENT_ARRAY_BUFFER res) s1
      .ok (gl (.glDrawElementsBaseVertex primitive_topology index_count GL_UNSIGNED_SHORT
        (start_index * 2 % 2 ^ 32) base_vertex) s2)

/-- The texture the branch on `res.type` of `renderer_set_texture` binds (lines
719-728): the `texture` member of a slot of type `RES_TEXTURE`, the texture of the
`render_target` member of any other slot. -/
def read_bound_texture (pool : List resource_allocation) (i : Nat) : Except fault texture_info :=
  match pool_slot pool i with
  | .error e => .error e
  | .ok res =>
    if res.type = RES_TEXTURE then read_texture i res
    else
      match read_render_target i res with
      | .error e => .error e
      | .ok rt => .ok rt.texture

/-- The `switch` on the filter of `renderer_set_texture` (lines 736-754). -/
def set_filter (k : pen_definitions) (filter : Nat) (s : renderer) : renderer :=
  if filter = k.PEN_FILTER_MIN_MAG_MIP_LINEAR then
    gl (.glTexParameteri GL_TEXTURE_2D GL_TEXTURE_MAG_FILTER GL_LINEAR)
      (gl (.glTexParameteri GL_TEXTURE_2D GL_TEXTURE_MIN_FILTER GL_LINEAR_MIPMAP_LINEAR) s)
  else if filter = k.PEN_FILTER_MIN_MAG_MIP_POINT then
    gl (.glTexParameteri GL_TEXTURE_2D GL_TEXTURE_MAG_FILTER GL_POINT)
      (gl (.glTexParameteri GL_TEXTURE_2D GL_TEXTURE_MIN_FILTER GL_NEAREST_MIPMAP_NEAREST) s)
  else if filter = k.PEN_FILTER_LINEAR then
    gl (.glTexParameteri GL_TEXTURE_2D GL_TEXTURE_MAG_FILTER GL_LINEAR)
      (gl (.glTexParameteri GL_TEXTURE_2D GL_TEXTURE_MIN_FILTER GL_LINEAR) s)
  else if filter = k.PEN_FILTER_POINT then
    gl (.glTexParameteri GL_TEXTURE_2D GL_TEXTURE_MAG_FILTER GL_POINT)
      (gl (.glTexParameteri GL_TEXTURE_2D GL_TEXTURE_MIN_FILTER GL_POINT) s)
  else s

/-- The address modes and the mip control of `renderer_set_texture` (lines 756-772). -/
def set_sampler_parameters (sampler_state : sampler_creation_params) (s : renderer) : renderer :=
  let s := gl (.glTexParameteri GL_TEXTURE_2D GL_TEXTURE_WRAP_S sampler_state.address_u) s
  let s := gl (.glTexParameteri GL_TEXTURE_2D GL_TEXTURE_WRAP_T sampler_state.address_v) s
  let s := gl (.glTexParameteri GL_TEXTURE_2D GL_TEXTURE_WRAP_R sampler_state.address_w) s
  let s := gl (.glTexParameterf GL_TEXTURE_2D GL_TEXTURE_LOD_BIAS sampler_state.mip_lod_bias) s
  let s := if sampler_state.max_lod > -1 then
    gl (.glTexParameterf GL_TEXTURE_2D GL_TEXTURE_MAX_LOD sampler_state.max_lod) s else s
  if sampler_state.min_lod > -1 then
    gl (.glTexParameterf GL_TEXTURE_2D GL_TEXTURE_MIN_LOD sampler_state.min_lod) s else s

/-- `renderer_set_texture` (lines 711-773); `GL_TEXTURE0 + resource_slot` is a `u32`
sum. -/
def renderer_set_texture (k : pen_definitions) (s : renderer)
    (texture_index sampler_index resource_slot shader_type : Nat) : Except fault renderer :=
  match pool_slot s.resource_pool texture_index with
  | .error e => .error e
  | .ok _ =>
    let s1 := gl (.glActiveTexture ((GL_TEXTURE0 + resource_slot) % 2 ^ 32)) s
    match read_bound_texture s.resource_pool texture_index with
    | .error e => .error e
    | .ok texture =>
      let s2 := gl (.glBindTexture GL_TEXTURE_2D texture.handle) s1
      let max_mip := texture.max_mip_level
      match read_sampler_state s.resource_pool sampler_index with
      | .error e => .error e
      | .ok sampler_state =>
        let s3 := gl (.glTexParameteri GL_TEXTURE_2D GL_TEXTURE_MAX_LEVEL max_mip) s2
        .ok (set_sampler_parameters sampler_state (set_filter k sampler_state.filter s3))

/-! ## Release of resources -/

/-- `renderer_release_raster_state` (lines 954-957) and `renderer_release_clear_state`
(lines 1004-1007) share this body: the slot is marked deleted. -/
def release_marked (s : renderer) (index : Nat) : Except fault renderer :=
  match renderer_mark_resource_deleted s.resource_pool index with
  | .error e => .error e
  | .ok pool => .ok { s with resource_pool := pool }

/-- `renderer_release_render_target` (lines 968-975). -/
def renderer_release_render_target (s : renderer) (render_target : Nat) : Except fault renderer :=
  match pool_slot s.resource_pool render_target with
  | .error e => .error e
  | .ok res =>
    match read_render_target render_target res with
    | .error e => .error e
    | .ok rt =>
      let s := gl (.glDeleteTextures 1 rt.texture.handle) s
      let s := gl (.glDeleteFramebuffers 1 rt.texture.handle) s
      release_marked s render_target

/-- The eight bytes of a `u64` object, in the byte order of the platform (the least
significant first). -/
def u64_bytes (v : Nat) : List Nat :=
  (List.range 8).map (fun i => v / 256 ^ i % 256)

/-- The value whose object has the bytes `bytes`, in the same byte order. -/
def bytes_value : List Nat → Nat
  | [] => 0
  | byte :: rest => byte + 256 * bytes_value rest

/-- An `f64` object, as its eight bytes. -/
structure f64 where
  bytes : List Nat
  deriving DecidableEq, Repr

/-- The 64-bit pattern of an `f64`. -/
def f64.bits (x : f64) : Nat := bytes_value x.bytes

/-- `memory_cpy` (`memory.cpp`, lines 34-37), on the bytes of the two objects: the first
`size_bytes` bytes of `dest` are replaced by those of `src`. -/
def memory_cpy (dest src : List Nat) (size_bytes : Nat) : List Nat :=
  src.take size_bytes ++ dest.drop size_bytes

/-- `renderer_get_last_query` (lines 198-204): the value returned and the query table
after; the local `res` starts with indeterminate bytes `res`. -/
def renderer_get_last_query (query_pool : List query_allocation) (query_index : Nat)
    (res : f64) : Except fault (f64 × List query_allocation) :=
  match query_pool[query_index]? with
  | none => .error (.out_of_bounds query_index)
  | some q => .ok (⟨memory_cpy res.bytes (u64_bytes q.last_result) 8⟩, query_pool)

/-! ## Reading the recorded calls -/

/-- The calls recorded between state `s` and the later state `s1`. -/
def issued (s s1 : renderer) : List gl_call :=
  s1.gl_calls.drop s.gl_calls.length

/-- The programs made current, in order. -/
def programs_used : List gl_call → List Nat
  | [] => []
  | .glUseProgram program :: rest => program :: programs_used rest
  | _ :: rest => programs_used rest

/-- The number of link steps. -/
def link_steps : List gl_call → Nat
  | [] => 0
  | .glLinkProgram _ :: rest => link_steps rest + 1
  | _ :: rest => link_steps rest

/-- The attribute descriptions, in order. -/
def attribute_descriptions : List gl_call → List gl_call
  | [] => []
  | .glVertexAttribPointer a b c d e f :: rest =>
    .glVertexAttribPointer a b c d e f :: attribute_descriptions rest
  | _ :: rest => attribute_descriptions rest

/-- The indices of the attribute arrays enabled, in order. -/
def enabled_arrays : List gl_call → List Nat
  | [] => []
  | .glEnableVertexAttribArray i :: rest => i :: enabled_arrays rest
  | _ :: rest => enabled_arrays rest

/-- The indices of the attribute arrays disabled, in order. -/
def disabled_arrays : List gl_call → List Nat
  | [] => []
  | .glDisableVertexAttribArray i :: rest => i :: disabled_arrays rest
  | _ :: rest => disabled_arrays rest

/-- The buffer of an element-array-buffer bind. -/
def index_buffer_bind : gl_call → Option Nat
  | .glBindBuffer target buffer => if target = GL_ELEMENT_ARRAY_BUFFER then some buffer else none
  | _ => none

/-- The buffers bound as element array buffer, in order. -/
def index_buffer_binds (calls : List gl_call) : List Nat :=
  calls.filterMap index_buffer_bind

/-- The calls of the shader block of `bind_state`: creating, linking, inspecting and
selecting a program. -/
def is_program_call : gl_call → Bool
  | .glCreateProgram _ => true
  | .glAttachShader _ _ => true
  | .glLinkProgram _ => true
  | .glGetShaderiv _ _ => true
  | .glGetShaderInfoLog _ _ => true
  | .glUseProgram _ => true
  | _ => false

/-- The calls of the input-layout block of `bind_state`: vertex arrays and vertex
attributes. -/
def is_layout_call : gl_call → Bool
  | .glGenVertexArrays _ _ => true
  | .glBindVertexArray _ => true
  | .glVertexAttribPointer _ _ _ _ _ _ => true
  | .glEnableVertexAttribArray _ => true
  | .glDisableVertexAttribArray _ => true
  | _ => false

/-- The calls that set rasterizer state: front face, capabilities, cull face and polygon
mode. -/
def is_raster_call : gl_call → Bool
  | .glFrontFace _ => true
  | .glEnable _ => true
  | .glDisable _ => true
  | .glCullFace _ => true
  | .glPolygonMode _ _ => true
  | _ => false

/-- The rasterizer-state calls, in order. -/
def raster_calls (calls : List gl_call) : List gl_call :=
  calls.filter is_raster_call

/-- The value of a float texture parameter call for `pname`, on any target. -/
def float_parameter (pname : Nat) : gl_call → Option f32
  | .glTexParameterf _ name param => if name = pname then some param else none
  | _ => none

/-- The values given to the float texture parameter `pname`, in order. -/
def float_parameters (pname : Nat) (calls : List gl_call) : List f32 :=
  calls.filterMap (float_parameter pname)

/-- The value of a max-mip-level parameter call, on any target. -/
def max_level_parameter : gl_call → Option Nat
  | .glTexParameteri _ name param => if name = GL_TEXTURE_MAX_LEVEL then some param else none
  | _ => none

/-- The values given to the max-mip-level parameter, in order. -/
def max_level_parameters (calls : List gl_call) : List Nat :=
  calls.filterMap max_level_parameter

/-- The calls of the raster-state block of `bind_state` for the raster state `rs` (lines
530-560). -/
def raster_state_calls (rs : raster_state) : List gl_call :=
  [.glFrontFace GL_CW] ++
    (if rs.culling_enabled then [.glEnable GL_CULL_FACE, .glCullFace rs.cull_face]
      else [.glDisable GL_CULL_FACE]) ++
    [if rs.depth_clip_enabled then .glDisable GL_DEPTH_CLAMP else .glEnable GL_DEPTH_CLAMP] ++
    [.glPolygonMode GL_FRONT_AND_BACK rs.polygon_mode] ++
    [if rs.scissor_enabled then .glEnable GL_SCISSOR_TEST else .glDisable GL_SCISSOR_TEST]

/-! ## The interface as a type of calls -/

/-- Request the pair `(vs, ps)` with `renderer_set_shader` and run `bind_state`. -/
def bind_pair (drv : gl_driver) (s : renderer) (pair : Nat × Nat) : Except fault renderer :=
  bind_state drv
    (renderer_set_shader (renderer_set_shader s pair.1 GL_VERTEX_SHADER) pair.2 GL_FRAGMENT_SHADER)

/-- The members of `fs_tree_node` (`file_system.h`) used by `file_system.cpp`: the bytes
of the block behind `name`, the elements of the array behind `children` (none behind
`nullptr` or in a block of size 0) and `num_children`. -/
inductive fs_tree_node where
  | mk (name : List Nat) (children : List fs_tree_node) (num_children : Nat)

/-- The values of `pen_error` (declared outside the sources) that
`filesystem_enum_volumes` returns. -/
structure pen_error_values where
  PEN_ERR_OK : Nat
  PEN_ERR_FAILED : Nat

/-- What a new block holds before it is written: the byte at each offset of a block of
bytes, the node at each element of an array of nodes. The allocations are taken to
succeed. -/
structure fresh_memory where
  byte : Nat → Nat
  node : fs_tree_node

/-- `memory_alloc` (`memory.cpp`, lines 8-11): a new block of `size_bytes` bytes. -/
def memory_alloc (fresh : fresh_memory) (size_bytes : Nat) : List Nat :=
  (List.range size_bytes).map fresh.byte

/-- A string literal: the codes of its characters and the terminating zero. -/
def string_literal (chars : List Char) : List Nat :=
  chars.map Char.toNat ++ [0]

/-- `string_length` (`pen_string.cpp`, lines 75-78): `strlen`, returned as `u32`; without
a terminator the scan leaves the block. -/
def string_length (string : List Nat) : Except fault Nat :=
  if 0 ∈ string then .ok ((string.takeWhile (fun c => c != 0)).length % 2 ^ 32)
  else .error (.out_of_bounds string.length)

/-- The assignment `block[ i ] = value`. -/
def write_at {α : Type} (block : List α) (i : Nat) (value : α) : Except fault (List α) :=
  if i < block.length then .ok (block.set i value) else .error (.out_of_bounds i)

/-- The first loop of `filesystem_enum_volumes` (lines 120-130), with `remaining` turns
to go: `num_used_drives` after the loop. -/
def count_used_drives (drive_bit_mask : Nat) : Nat → Nat → Nat → Nat
  | 0, _, num_used_drives => num_used_drives
  | remaining + 1, bit, num_used_drives =>
    let num_used_drives :=
      if drive_bit_mask &&& bit ≠ 0 then (num_used_drives + 1) % 2 ^ 32 else num_used_drives
    count_used_drives drive_bit_mask remaining (bit * 2 % 2 ^ 32) num_used_drives

/-- The name of a child (lines 141-145): a block of 3 bytes, written one by one. -/
def drive_name (fresh : fresh_memory) (letter : Nat) : Except fault (List Nat) :=
  match write_at (memory_alloc fresh 3) 0 letter with
  | .error f => .error f
  | .ok name =>
    match write_at name 1 (':').toNat with
    | .error f => .error f
    | .ok name => write_at name 2 0

/-- The second loop of `filesystem_enum_volumes` (lines 135-154), with `remaining` turns
to go from the index `i`: the array behind `tree.children` after the loop. -/
def fill_children (drive_bit_mask : Nat) (drive_letters : List Nat) (fresh : fresh_memory) :
    Nat → Nat → Nat → Nat → List fs_tree_node → Except fault (List fs_tree_node)
  | 0, _, _, _, children => .ok children
  | remaining + 1, i, bit, child, children =>
    if drive_bit_mask &&& bit ≠ 0 then
      match drive_letters[i]? with
      | none => .error (.out_of_bounds i)
      | some letter =>
        match drive_name fresh letter with
        | .error f => .error f
        | .ok name =>
          match write_at children child (.mk name [] 0) with
          | .error f => .error f
          | .ok children =>
            fill_children drive_bit_mask drive_letters fresh remaining (i + 1)
              (bit * 2 % 2 ^ 32) ((child + 1) % 2 ^ 32) children
    else
      fill_children drive_bit_mask drive_letters fresh remaining (i + 1) (bit * 2 % 2 ^ 32)
        child children

/-- `filesystem_enum_volumes` (lines 100-157): the value returned and the tree after;
`drive_bit_mask` is the answer of `GetLogicalDrives`. -/
def filesystem_enum_volumes (e : pen_error_values) (fresh : fresh_memory)
    (drive_bit_mask : Nat) (tree : fs_tree_node) : Except fault (Nat × fs_tree_node) :=
  if drive_bit_mask = 0 then .ok (e.PEN_ERR_FAILED, tree)
  else
    let volumes_str := string_literal ['V', 'o', 'l', 'u', 'm', 'e', 's']
    match string_length volumes_str with
    | .error f => .error f
    | .ok volume_strlen =>
      let name := memory_alloc fresh ((volume_strlen + 1) % 2 ^ 32)
      let name := memory_cpy name volumes_str volume_strlen
      match write_at name volume_strlen 0 with
      | .error f => .error f
      | .ok name =>
        let drive_letters := string_literal
          ['A', 'B', 'C', 'D', 'E', 'F', 'G', 'H', 'I', 'J', 'K', 'L', 'M', 'N', 'O', 'P', 'Q',
           'R', 'S', 'T', 'U', 'V', 'W', 'X', 'Y', 'Z']
        match string_length drive_letters with
        | .error f => .error f
        | .ok num_drives =>
          let num_used_drives := count_used_drives drive_bit_mask num_drives 1 0
          let children := List.replicate num_used_drives fresh.node
          match fill_children drive_bit_mask drive_letters fresh num_drives 0 1 0 children with
          | .error f => .error f
          | .ok children => .ok (e.PEN_ERR_OK, .mk name children num_used_drives)

/-! ## Sample values -/

/-- A driver with no link diagnostics and every uniform at location 0. -/
def quiet_driver : gl_driver := ⟨fun _ => 0, fun _ _ => 0, fun _ _ => 0, fun n => 2 * n⟩

def sample_layout : input_layout :=
  { attributes := [⟨0, 0x1406, 0, 0, 3⟩, ⟨1, GL_UNSIGNED_BYTE, 0, 12, 4⟩],
    vertex_array_handle := 0, vb_handle := 0 }

def position_only_layout : input_layout :=
  { attributes := [⟨0, 0x1406, 0, 0, 3⟩], vertex_array_handle := 0, vb_handle := 0 }

/-- A pool of ten slots: the reserved slot 0, shaders in slots 1 and 2, a vertex buffer
in slot 3, an input layout with locations 0 and 1 in slot 4, a raster state in slot 5, a
third shader in slot 6, an input layout with location 0 alone in slot 7 and two free
slots. -/
def sample_pool : List resource_allocation :=
  [⟨0xff, 0, .zeroed⟩, ⟨1, 0, .handle 11⟩, ⟨1, 0, .handle 12⟩, ⟨1, GL_ARRAY_BUFFER, .handle 13⟩,
   ⟨1, 0, .input_layout sample_layout⟩, ⟨1, 0, .raster_state ⟨0x0405, 0x1B02, true, true, false⟩⟩,
   ⟨1, 0, .handle 16⟩, ⟨1, 0, .input_layout position_only_layout⟩, ⟨0, 0, .zeroed⟩,
   ⟨0, 0, .zeroed⟩]

def zero_state : active_state :=
  ⟨0, 0, 0, 0, 0, 0, 0, List.replicate MAX_VERTEX_ATTRIBUTES false⟩

/-- The renderer over `sample_pool` with vertex shader 1, pixel shader 2, vertex buffer 3
(stride 16), input layout 4 and raster state 5 requested and nothing applied yet. -/
def sample_renderer : renderer :=
  { resource_pool := sample_pool, shader_programs := [],
    g_bound_state := zero_state,
    g_current_state := { zero_state with
      vertex_shader := 1, pixel_shader := 2, vertex_buffer := 3, vertex_buffer_stride := 16,
      input_layout := 4, raster_state := 5 },
    gl_calls := [], gl_names := 0 }

/-- The state `bind_state` leaves, or `s` itself where `bind_state` faults. -/
def reconciled (drv : gl_driver) (s : renderer) : renderer :=
  match bind_state drv s with
  | .ok s1 => s1
  | .error _ => s

/-- The state `renderer_link_shader_program` leaves, or `s` itself where it faults. -/
def program_linked (drv : gl_driver) (s : renderer) (params : shader_link_params) : renderer :=
  match renderer_link_shader_program drv s params with
  | .ok r => r.2
  | .error _ => s

/-- The constants used in the samples. -/
def sample_definitions : pen_definitions :=
  { PEN_CULL_NONE := 0, PEN_FILTER_MIN_MAG_MIP_LINEAR := 0, PEN_FILTER_MIN_MAG_MIP_POINT := 1,
    PEN_FILTER_LINEAR := 2, PEN_FILTER_POINT := 3, PEN_TEX_FORMAT_BGRA8_UNORM := 0,
    PEN_TEX_FORMAT_RGBA8_UNORM := 1, UNPACK_FORMAT := fun format => format / 16,
    UNPACK_NUM_ELEMENTS := fun format => format % 16 }

/-- The renderer at start-up: the resource table of `capacity` slots as
`clear_resource_table` leaves it, the zero-initialised globals and a driver that has
recorded nothing. -/
def initial_renderer (capacity : Nat) : renderer :=
  { resource_pool := clear_resource_table capacity, shader_programs := [],
    g_bound_state := zero_state, g_current_state := zero_state, gl_calls := [], gl_names := 0 }

/-- The state a creation call leaves, or `s` where it faults. -/
def state_created (r : Except fault (Nat × renderer)) (s : renderer) : renderer :=
  match r with
  | .ok x => x.2
  | .error _ => s

/-- A texture of 4 by 4 pixels with three mip levels in the format
`PEN_TEX_FORMAT_RGBA8_UNORM` of the samples. -/
def sample_texture : texture_creation_params :=
  { width := 4, height := 4, num_mips := 3, format := 1, block_size := 4, pixels_per_block := 1 }

/-- The state a call leaves, or `s` where it faults. -/
def state_left (r : Except fault renderer) (s : renderer) : renderer :=
  match r with
  | .ok s1 => s1
  | .error _ => s

/-- The start-up renderer of 4 slots after `renderer_create_texture2d` of `sample_texture`
(handle 1) and `renderer_create_sampler` (handle 2) of a sampler with `max_lod = 4` and
`min_lod = -1`. -/
def textured_renderer : renderer :=
  state_created (renderer_create_sampler (state_created
    (renderer_create_texture2d sample_definitions (initial_renderer 4) sample_texture)
    (initial_renderer 4)) ⟨0, 1, 2, 3, 0, 4, -1⟩) (initial_renderer 4)

/-- The query table after `MAX_QUERIES` slots were given to the domain `QUERY_DISJOINT`. -/
def full_query_table : List query_allocation :=
  List.replicate MAX_QUERIES { zero_query with asigned_flag := QUERY_DISJOINT }

/-- The query table after two slots were given to the domain `QUERY_SO_STATS`. -/
def two_stats_table : List query_allocation :=
  List.replicate 2 { zero_query with asigned_flag := QUERY_SO_STATS } ++
    List.replicate 62 zero_query

/-! ## Predicates of the statements -/

/-- Slot 0 of the pool is as `clear_resource_table` leaves it: every bit of the assigned
flag set, no payload. -/
def slot0_reserved (pool : List resource_allocation) : Prop :=
  pool[0]? = some ⟨0xff, 0, .zeroed⟩

/-- From `pool` to `pool1` the slot `h`, free for the domain bits of the renderer's own
creation calls, was given to that domain and rewritten; no other slot changed. -/
def allocated_at (pool pool1 : List resource_allocation) (h : Nat) : Prop :=
  ∃ r slot d, (d = DIRECT_RESOURCE ∨ d = DIRECT_RESOURCE ||| DEFER_RESOURCE) ∧
    pool[h]? = some r ∧ r.asigned_flag &&& d = 0 ∧
    slot.asigned_flag = u8 (r.asigned_flag ||| d) ∧ pool1 = pool.set h slot

/-- The recorded calls grew from `before` to `after` by calls of the class `P`. -/
def calls_of (P : gl_call → Bool) (before after : List gl_call) : Prop :=
  ∃ calls, after = before ++ calls ∧ ∀ c ∈ calls, P c = true

/-- Every assigned flag of the table is a value of its type `u8`. -/
def query_flags_u8 (query_pool : List query_allocation) : Prop :=
  ∀ q ∈ query_pool, q.asigned_flag < 2 ^ 8

/-- Between `s` and `s1` the applied snapshot, the resource pool, the program cache and
the driver (recorded calls, generated names) are untouched. -/
def only_requested_written (s s1 : renderer) : Prop :=
  s1.g_bound_state = s.g_bound_state ∧ s1.resource_pool = s.resource_pool ∧
    s1.shader_programs = s.shader_programs ∧ s1.gl_calls = s.gl_calls ∧ s1.gl_names = s.gl_names

/-- The recorded calls grew from `before` to `after` by calls that neither link nor select
a program. -/
def calls_quiet (before after : List gl_call) : Prop :=
  ∃ calls, after = before ++ calls ∧ programs_used calls = [] ∧ link_steps calls = 0

/-- From `s` to `s1` nothing changed but the attribute flags of the applied snapshot (their
number is kept) and the recorded calls, which grew by calls that neither link nor select a
program. -/
def attributes_step (s s1 : renderer) : Prop :=
  s1.g_current_state = s.g_current_state ∧ s1.resource_pool = s.resource_pool ∧
  s1.shader_programs = s.shader_programs ∧ s1.gl_names = s.gl_names ∧
  s1.g_bound_state.vertex_buffer = s.g_bound_state.vertex_buffer ∧
  s1.g_bound_state.vertex_buffer_stride = s.g_bound_state.vertex_buffer_stride ∧
  s1.g_bound_state.index_buffer = s.g_bound_state.index_buffer ∧
  s1.g_bound_state.input_layout = s.g_bound_state.input_layout ∧
  s1.g_bound_state.vertex_shader = s.g_bound_state.vertex_shader ∧
  s1.g_bound_state.pixel_shader = s.g_bound_state.pixel_shader ∧
  s1.g_bound_state.raster_state = s.g_bound_state.raster_state ∧
  s1.g_bound_state.enabled_vertex_attributes.length =
    s.g_bound_state.enabled_vertex_attributes.length ∧
  ∃ calls, s1.gl_calls = s.gl_calls ++ calls ∧ programs_used calls = [] ∧ link_steps calls = 0

/-- The requested handles name slots of the kind `bind_state` reads them as: the two
shaders and the vertex buffer are readable as `handle`, the input layout points to a
layout whose attribute locations are indices of `enabled_vertex_attributes`, and the
raster state is readable as `raster_state`; the applied snapshot has its
`MAX_VERTEX_ATTRIBUTES` flags. -/
def requested_kinds_ok (s : renderer) : Prop :=
  (∃ h, read_handle s.resource_pool s.g_current_state.vertex_shader = .ok h) ∧
  (∃ h, read_handle s.resource_pool s.g_current_state.pixel_shader = .ok h) ∧
  (∃ h, read_handle s.resource_pool s.g_current_state.vertex_buffer = .ok h) ∧
  (∃ il, read_input_layout s.resource_pool s.g_current_state.input_layout = .ok il ∧
    ∀ a ∈ il.attributes, a.location < MAX_VERTEX_ATTRIBUTES) ∧
  (∃ rs, read_raster_state s.resource_pool s.g_current_state.raster_state = .ok rs) ∧
  s.g_bound_state.enabled_vertex_attributes.length = MAX_VERTEX_ATTRIBUTES

/-- The shader block of `bind_state` has no cache entry to stop at: the requested pair is
the applied one, or the scan of the cache for the requested vertex shader finds nothing. -/
def requested_pair_settled (s : renderer) : Prop :=
  (s.g_current_state.vertex_shader = s.g_bound_state.vertex_shader ∧
    s.g_current_state.pixel_shader = s.g_bound_state.pixel_shader) ∨
  find_linked_program s.shader_programs s.g_current_state = none

/-- The indices of the bits set among the bits 0..25 of the mask, in increasing order. -/
def drive_bits (mask : Nat) : List Nat :=
  (List.range 26).filter (fun i => mask.testBit i)

/-- The node of the drive of bit `i`: the name is the letter `'A' + i` and `':'`, there
are no children. -/
def volume_node (i : Nat) : fs_tree_node :=
  .mk [('A').toNat + i, (':').toNat, 0] [] 0

/-- The tree of the volumes of the mask: the node named `Volumes` with one child for each
bit set among the bits 0..25, in increasing bit order. -/
def volume_tree (mask : Nat) : fs_tree_node :=
  .mk (string_literal ['V', 'o', 'l', 'u', 'm', 'e', 's']) ((drive_bits mask).map volume_node)
    (drive_bits mask).length

/-! ## The query table -/

theorem query_scan_range (domain : Nat) (slots : List query_allocation) (k i : Nat)
    (h : query_scan domain slots k = .ok i) : k ≤ i ∧ i < k + slots.length := by
  induction slots generalizing k with
  | nil => simp [query_scan] at h
  | cons q slots ih =>
    unfold query_scan at h
    split at h
    · have := ih (k + 1) h
      simp only [List.length_cons]
      omega
    · cases h
      simp

theorem query_scan_free (domain : Nat) (slots : List query_allocation) (k i : Nat)
    (h : query_scan domain slots k = .ok i) :
    (∃ q, slots[i - k]? = some q ∧ q.asigned_flag &&& domain = 0) ∧
      ∀ j, j < i - k → ∀ p, slots[j]? = some p → p.asigned_flag &&& domain ≠ 0 := by
  induction slots generalizing k with
  | nil => simp [query_scan] at h
  | cons q slots ih =>
    unfold query_scan at h
    split at h
    · rename_i hq
      have hr := query_scan_range domain slots (k + 1) i h
      obtain ⟨⟨q1, hq1, hfree⟩, hbefore⟩ := ih (k + 1) h
      have hik : i - k = (i - (k + 1)) + 1 := by omega
      refine ⟨⟨q1, ?_, hfree⟩, ?_⟩
      · rw [hik, List.getElem?_cons_succ]
        exact hq1
      · intro j hj p hp
        cases j with
        | zero =>
          simp only [List.getElem?_cons_zero, Option.some.injEq] at hp
          subst hp
          exact hq
        | succ j =>
          rw [List.getElem?_cons_succ] at hp
          exact hbefore j (by omega) p hp
    · rename_i hq
      cases h
      refine ⟨⟨q, by simp, by simpa using hq⟩, ?_⟩
      intro j hj
      simp at hj

theorem query_scan_finds (domain : Nat) (slots : List query_allocation) (k : Nat)
    (h : ∃ q ∈ slots, q.asigned_flag &&& domain = 0) : ∃ i, query_scan domain slots k = .ok i := by
  induction slots generalizing k with
  | nil => simp at h
  | cons q slots ih =>
    unfold query_scan
    split
    · rename_i hq
      obtain ⟨p, hp, hfree⟩ := h
      rcases List.mem_cons.mp hp with rfl | hmem
      · exact absurd hfree hq
      · exact ih (k + 1) ⟨p, hmem, hfree⟩
    · exact ⟨k, rfl⟩

theorem get_next_query_index_index (query_pool : List query_allocation) (domain : Nat) :
    Except.map Prod.fst (get_next_query_index query_pool domain) = query_scan domain query_pool 0 := by
  unfold get_next_query_index
  cases h : query_scan domain query_pool 0 with
  | error e => rfl
  | ok i =>
    have hr := query_scan_range domain query_pool 0 i h
    have hi : i < query_pool.length := by omega
    simp [List.getElem?_eq_getElem hi, Except.map]

theorem get_next_query_index_head (domain : Nat) (q : query_allocation)
    (rest : List query_allocation) (h : q.asigned_flag &&& domain = 0) :
    get_next_query_index (q :: rest) domain =
      .ok (0, { q with asigned_flag := u8 (q.asigned_flag ||| domain) } :: rest) := by
  simp [get_next_query_index, query_scan, h]

theorem u8_or_and_disjoint (f A B : Nat) (hf : f < 2 ^ 8) (hAB : A &&& B = 0) :
    u8 (f ||| B) &&& A = f &&& A := by
  apply Nat.eq_of_testBit_eq
  intro j
  have hj : (A.testBit j && B.testBit j) = false := by
    have := congrArg (fun x => x.testBit j) hAB
    simpa using this
  simp only [u8, Nat.testBit_and, Nat.testBit_mod_two_pow, Nat.testBit_or]
  by_cases h8 : j < 8
  · cases hA : A.testBit j <;> cases hB : B.testBit j <;> simp_all
  · have hfj : f.testBit j = false := by
      apply Nat.testBit_lt_two_pow
      calc f < 2 ^ 8 := hf
        _ ≤ 2 ^ j := Nat.pow_le_pow_right (by decide) (by omega)
    simp [h8, hfj]

theorem query_scan_congr (domain : Nat) (slots slots1 : List query_allocation) (k : Nat)
    (h : slots.map (fun q => decide (q.asigned_flag &&& domain ≠ 0)) =
      slots1.map (fun q => decide (q.asigned_flag &&& domain ≠ 0))) :
    query_scan domain slots k = query_scan domain slots1 k := by
  induction slots generalizing slots1 k with
  | nil =>
    cases slots1 with
    | nil => rfl
    | cons q1 rest1 => simp at h
  | cons q rest ih =>
    cases slots1 with
    | nil => simp at h
    | cons q1 rest1 =>
      simp only [List.map_cons, List.cons.injEq, decide_eq_decide] at h
      unfold query_scan
      by_cases hq : q.asigned_flag &&& domain ≠ 0
      · rw [if_pos hq, if_pos (h.1.mp hq)]
        exact ih rest1 (k + 1) h.2
      · rw [if_neg hq, if_neg (fun h1 => hq (h.1.mpr h1))]

theorem get_next_query_index_other_domain (A B : Nat) (hAB : A &&& B = 0)
    (query_pool query_pool1 : List query_allocation) (i : Nat) (hwf : query_flags_u8 query_pool)
    (h : get_next_query_index query_pool B = .ok (i, query_pool1)) :
    query_flags_u8 query_pool1 ∧
      query_pool1.map (fun q => decide (q.asigned_flag &&& A ≠ 0)) =
        query_pool.map (fun q => decide (q.asigned_flag &&& A ≠ 0)) := by
  unfold get_next_query_index at h
  cases hs : query_scan B query_pool 0 with
  | error e => simp [hs] at h
  | ok k =>
    simp only [hs] at h
    cases hq : query_pool[k]? with
    | none => simp [hq] at h
    | some q =>
      simp only [hq, Except.ok.injEq, Prod.mk.injEq] at h
      obtain ⟨-, rfl⟩ := h
      have hqf : q.asigned_flag < 2 ^ 8 := hwf q (List.getElem?_mem hq)
      constructor
      · intro p hp
        rcases List.mem_or_eq_of_mem_set hp with hp | rfl
        · exact hwf p hp
        · exact Nat.mod_lt _ (by decide)
      · apply List.ext_getElem?
        intro j
        simp only [List.getElem?_map, List.getElem?_set]
        by_cases hjk : k = j
        · subst hjk
          have hk : k < query_pool.length := by
            rcases Nat.lt_or_ge k query_pool.length with h1 | h1
            · exact h1
            · rw [List.getElem?_eq_none h1] at hq
              cases hq
          simp [hk, hq, u8_or_and_disjoint q.asigned_flag A B hqf hAB]
        · simp [hjk]

theorem query_allocations_other_domain (A B : Nat) (hAB : A &&& B = 0) (n : Nat)
    (query_pool after_b : List query_allocation) (hwf : query_flags_u8 query_pool)
    (h : query_allocations query_pool (List.replicate n B) = .ok after_b) :
    after_b.map (fun q => decide (q.asigned_flag &&& A ≠ 0)) =
      query_pool.map (fun q => decide (q.asigned_flag &&& A ≠ 0)) := by
  induction n generalizing query_pool with
  | zero =>
    simp only [List.replicate_zero, query_allocations, Except.ok.injEq] at h
    rw [h]
  | succ n ih =>
    simp only [List.replicate_succ, query_allocations] at h
    cases hg : get_next_query_index query_pool B with
    | error e => simp [hg] at h
    | ok r =>
      obtain ⟨i, query_pool1⟩ := r
      simp only [hg] at h
      obtain ⟨hwf1, hmap⟩ := get_next_query_index_other_domain A B hAB query_pool query_pool1 i hwf hg
      rw [ih query_pool1 hwf1 h, hmap]

/-- C8: on the table whose `MAX_QUERIES` slots all hold the bit of `QUERY_DISJOINT`, the
scan of `get_next_query_index` reports no exhaustion: it runs through every slot and its
next read is `query_pool[MAX_QUERIES]`, outside the table. -/
theorem get_next_query_index_full_table_reads_past_end :
    query_allocations clear_query_table (List.replicate MAX_QUERIES QUERY_DISJOINT) =
        .ok full_query_table ∧
      get_next_query_index full_query_table QUERY_DISJOINT =
        .error (.out_of_bounds MAX_QUERIES) :=
  ⟨rfl, rfl⟩

/-- C9, the claim as stated fails: for the domain `256` on the cleared table the call
returns index 0 and the flag of slot 0, a `u8`, stays 0, which is not `0 ||| 256`. -/
theorem get_next_query_index_flag_truncated :
    get_next_query_index clear_query_table 256 = .ok (0, clear_query_table) ∧
      Option.map query_allocation.asigned_flag clear_query_table[0]? = some 0 ∧
      (0 ||| 256 : Nat) ≠ 0 :=
  ⟨rfl, rfl, by decide⟩

/-- C9 (amended): when some slot shares no bit with `domain`, `get_next_query_index`
returns the least index `i` whose flag shares no bit with `domain`, and the table after is
the table before with the flag of slot `i` replaced by its old value OR `domain` stored as
a `u8` (the low eight bits); every other slot and every other field of slot `i` is kept.
When `domain` fits in the eight bits the stored flag is the old value OR `domain`. -/
theorem get_next_query_index_first_fit (query_pool : List query_allocation) (domain : Nat)
    (h : ∃ q ∈ query_pool, q.asigned_flag &&& domain = 0) :
    ∃ i q, query_pool[i]? = some q ∧ q.asigned_flag &&& domain = 0 ∧
      (∀ j, j < i → ∀ p, query_pool[j]? = some p → p.asigned_flag &&& domain ≠ 0) ∧
      get_next_query_index query_pool domain =
        .ok (i, query_pool.set i
          { q with asigned_flag := (q.asigned_flag ||| domain) % 2 ^ 8 }) ∧
      (q.asigned_flag < 2 ^ 8 → domain < 2 ^ 8 →
        (q.asigned_flag ||| domain) % 2 ^ 8 = q.asigned_flag ||| domain) := by
  obtain ⟨i, hi⟩ := query_scan_finds domain query_pool 0 h
  obtain ⟨⟨q, hq, hfree⟩, hbefore⟩ := query_scan_free domain query_pool 0 i hi
  simp only [Nat.sub_zero] at hq hbefore
  refine ⟨i, q, hq, hfree, hbefore, ?_, ?_⟩
  · simp [get_next_query_index, hi, hq, u8]
  · intro hq8 hd8
    exact Nat.mod_eq_of_lt (Nat.or_lt_two_pow hq8 hd8)

theorem get_next_query_index_first_fit_witness :
    (∃ q ∈ two_stats_table, q.asigned_flag &&& QUERY_SO_STATS = 0) ∧
    ∃ i q, two_stats_table[i]? = some q ∧ q.asigned_flag &&& QUERY_SO_STATS = 0 ∧
      (∀ j, j < i → ∀ p, two_stats_table[j]? = some p → p.asigned_flag &&& QUERY_SO_STATS ≠ 0) ∧
      get_next_query_index two_stats_table QUERY_SO_STATS =
        .ok (i, two_stats_table.set i
          { q with asigned_flag := (q.asigned_flag ||| QUERY_SO_STATS) % 2 ^ 8 }) ∧
      (q.asigned_flag < 2 ^ 8 → QUERY_SO_STATS < 2 ^ 8 →
        (q.asigned_flag ||| QUERY_SO_STATS) % 2 ^ 8 = q.asigned_flag ||| QUERY_SO_STATS) :=
  ⟨⟨zero_query, by simp [two_stats_table], rfl⟩,
    get_next_query_index_first_fit two_stats_table QUERY_SO_STATS
      ⟨zero_query, by simp [two_stats_table], rfl⟩⟩

/-- C10: for domain masks `A` and `B` with no common bit and every table (of `u8` flags),
the index `get_next_query_index (A)` returns after any number `n` of
`get_next_query_index (B)` calls is the index it returns without them; and on the table
left by `clear_query_table`, allocating once in `A` and then once in `B` returns index 0
both times. -/
theorem query_domains_independent (A B : Nat) (hAB : A &&& B = 0)
    (query_pool after_b : List query_allocation) (n : Nat) (hwf : query_flags_u8 query_pool)
    (hb : query_allocations query_pool (List.replicate n B) = .ok after_b) :
    Except.map Prod.fst (get_next_query_index after_b A) =
        Except.map Prod.fst (get_next_query_index query_pool A) ∧
      ∃ t1 t2, get_next_query_index clear_query_table A = .ok (0, t1) ∧
        get_next_query_index t1 B = .ok (0, t2) := by
  constructor
  · rw [get_next_query_index_index, get_next_query_index_index]
    exact query_scan_congr A after_b query_pool 0
      (query_allocations_other_domain A B hAB n query_pool after_b hwf hb)
  · have hAB8 : u8 (0 ||| A) &&& B = 0 := by
      have h1 := u8_or_and_disjoint 0 B A (by decide) (by rw [Nat.and_comm]; exact hAB)
      simpa using h1
    have hclear : clear_query_table = zero_query :: List.replicate 63 zero_query := rfl
    rw [hclear]
    exact ⟨_, _, get_next_query_index_head A zero_query _ (by simp [zero_query]),
      get_next_query_index_head B _ _ hAB8⟩

theorem query_domains_independent_witness :
    (QUERY_DISJOINT &&& QUERY_SO_STATS = 0 ∧ query_flags_u8 clear_query_table ∧
      query_allocations clear_query_table (List.replicate 2 QUERY_SO_STATS) =
        .ok two_stats_table) ∧
    (Except.map Prod.fst (get_next_query_index two_stats_table QUERY_DISJOINT) =
        Except.map Prod.fst (get_next_query_index clear_query_table QUERY_DISJOINT) ∧
      ∃ t1 t2, get_next_query_index clear_query_table QUERY_DISJOINT = .ok (0, t1) ∧
        get_next_query_index t1 QUERY_SO_STATS = .ok (0, t2)) :=
  have hwf : query_flags_u8 clear_query_table := by
    intro q hq
    simp only [clear_query_table, List.mem_replicate] at hq
    rw [hq.2]
    decide
  ⟨⟨rfl, hwf, rfl⟩,
    query_domains_independent QUERY_DISJOINT QUERY_SO_STATS rfl clear_query_table
      two_stats_table 2 hwf rfl⟩

/-! ## Recorded calls -/

theorem programs_used_append (a b : List gl_call) :
    programs_used (a ++ b) = programs_used a ++ programs_used b := by
  induction a with
  | nil => rfl
  | cons c rest ih => cases c <;> simp [programs_used, ih]

theorem link_steps_append (a b : List gl_call) :
    link_steps (a ++ b) = link_steps a + link_steps b := by
  induction a with
  | nil => simp [link_steps]
  | cons c rest ih =>
    rw [List.cons_append]
    cases c
    all_goals simp only [link_steps, ih]
    all_goals omega

theorem issued_eq (s s1 : renderer) (calls : List gl_call)
    (h : s1.gl_calls = s.gl_calls ++ calls) : issued s s1 = calls := by
  simp [issued, h]

theorem calls_quiet_refl (calls : List gl_call) : calls_quiet calls calls :=
  ⟨[], by simp, rfl, rfl⟩

theorem calls_quiet_snoc (before after : List gl_call) (c : gl_call)
    (h : calls_quiet before after) (hp : programs_used [c] = []) (hl : link_steps [c] = 0) :
    calls_quiet before (after ++ [c]) := by
  obtain ⟨calls, hc, hp1, hl1⟩ := h
  refine ⟨calls ++ [c], ?_, ?_, ?_⟩
  · rw [hc, List.append_assoc]
  · rw [programs_used_append, hp1, hp]
    rfl
  · rw [link_steps_append, hl1, hl]

theorem calls_quiet_trans (a b c : List gl_call) (h1 : calls_quiet a b) (h2 : calls_quiet b c) :
    calls_quiet a c := by
  obtain ⟨c1, hc1, hp1, hl1⟩ := h1
  obtain ⟨c2, hc2, hp2, hl2⟩ := h2
  refine ⟨c1 ++ c2, ?_, ?_, ?_⟩
  · rw [hc2, hc1, List.append_assoc]
  · rw [programs_used_append, hp1, hp2]
    rfl
  · rw [link_steps_append, hl1, hl2]

/-! ## The attribute loops of the input-layout block -/

theorem attributes_step_refl (s : renderer) : attributes_step s s :=
  ⟨rfl, rfl, rfl, rfl, rfl, rfl, rfl, rfl, rfl, rfl, rfl, rfl, [], by simp, rfl, rfl⟩

theorem attributes_step_trans (s s1 s2 : renderer) (h1 : attributes_step s s1)
    (h2 : attributes_step s1 s2) : attributes_step s s2 := by
  obtain ⟨a1, a2, a3, a4, a5, a6, a7, a8, a9, a10, a11, a12, c1, hc1, hp1, hl1⟩ := h1
  obtain ⟨b1, b2, b3, b4, b5, b6, b7, b8, b9, b10, b11, b12, c2, hc2, hp2, hl2⟩ := h2
  refine ⟨b1.trans a1, b2.trans a2, b3.trans a3, b4.trans a4, b5.trans a5, b6.trans a6,
    b7.trans a7, b8.trans a8, b9.trans a9, b10.trans a10, b11.trans a11, b12.trans a12,
    c1 ++ c2, ?_, ?_, ?_⟩
  · rw [hc2, hc1, List.append_assoc]
  · rw [programs_used_append, hp1, hp2]
    rfl
  · rw [link_steps_append, hl1, hl2]

theorem describe_attribute_step (s s1 : renderer) (attr : vertex_attribute)
    (h : describe_attribute s attr = .ok s1) : attributes_step s s1 := by
  unfold describe_attribute at h
  by_cases hloc : attr.location < MAX_VERTEX_ATTRIBUTES
  · simp only [hloc, if_true, Except.ok.injEq] at h
    subst h
    refine ⟨rfl, rfl, rfl, rfl, rfl, rfl, rfl, rfl, rfl, rfl, rfl, ?_, _, rfl, rfl, rfl⟩
    simp [gl]
  · simp [hloc] at h

theorem describe_attributes_step (attrs : List vertex_attribute) (s s1 : renderer)
    (h : describe_attributes s attrs = .ok s1) : attributes_step s s1 := by
  induction attrs generalizing s with
  | nil =>
    simp only [describe_attributes, Except.ok.injEq] at h
    subst h
    exact attributes_step_refl s
  | cons attr rest ih =>
    unfold describe_attributes at h
    cases hd : describe_attribute s attr with
    | error e => simp [hd] at h
    | ok s0 =>
      simp only [hd] at h
      exact attributes_step_trans s s0 s1 (describe_attribute_step s s0 attr hd) (ih s0 h)

theorem describe_attributes_ok (attrs : List vertex_attribute) (s : renderer)
    (h : ∀ a ∈ attrs, a.location < MAX_VERTEX_ATTRIBUTES) :
    ∃ s1, describe_attributes s attrs = .ok s1 := by
  induction attrs generalizing s with
  | nil => exact ⟨s, rfl⟩
  | cons attr rest ih =>
    have hloc : attr.location < MAX_VERTEX_ATTRIBUTES := h attr (List.mem_cons_self _ _)
    unfold describe_attributes
    simp only [describe_attribute, hloc, if_true]
    exact ih _ (fun a ha => h a (List.mem_cons_of_mem _ ha))

theorem toggle_attribute_array_step (s s1 : renderer) (i : Nat)
    (h : toggle_attribute_array s i = .ok s1) : attributes_step s s1 := by
  unfold toggle_attribute_array at h
  split at h
  · cases h
  · cases h
    exact ⟨rfl, rfl, rfl, rfl, rfl, rfl, rfl, rfl, rfl, rfl, rfl, rfl, _, rfl, rfl, rfl⟩
  · cases h
    exact ⟨rfl, rfl, rfl, rfl, rfl, rfl, rfl, rfl, rfl, rfl, rfl, rfl, _, rfl, rfl, rfl⟩

theorem toggle_attribute_arrays_step (indices : List Nat) (s s1 : renderer)
    (h : toggle_attribute_arrays s indices = .ok s1) : attributes_step s s1 := by
  induction indices generalizing s with
  | nil =>
    simp only [toggle_attribute_arrays, Except.ok.injEq] at h
    subst h
    exact attributes_step_refl s
  | cons i rest ih =>
    unfold toggle_attribute_arrays at h
    cases hd : toggle_attribute_array s i with
    | error e => simp [hd] at h
    | ok s0 =>
      simp only [hd] at h
      exact attributes_step_trans s s0 s1 (toggle_attribute_array_step s s0 i hd) (ih s0 h)

theorem toggle_attribute_arrays_ok (indices : List Nat) (s : renderer)
    (h : ∀ i ∈ indices, i < s.g_bound_state.enabled_vertex_attributes.length) :
    ∃ s1, toggle_attribute_arrays s indices = .ok s1 := by
  induction indices generalizing s with
  | nil => exact ⟨s, rfl⟩
  | cons i rest ih =>
    have hi : i < s.g_bound_state.enabled_vertex_attributes.length :=
      h i (List.mem_cons_self _ _)
    unfold toggle_attribute_arrays
    cases hd : toggle_attribute_array s i with
    | error e =>
      unfold toggle_attribute_array at hd
      rw [List.getElem?_eq_getElem hi] at hd
      split at hd <;> simp_all
    | ok s0 =>
      have hstep := toggle_attribute_array_step s s0 i hd
      apply ih s0
      intro j hj
      rw [hstep.2.2.2.2.2.2.2.2.2.2.2.1]
      exact h j (List.mem_cons_of_mem _ hj)

/-! ## Reading the pool -/

theorem read_input_layout_eq_ok (pool : List resource_allocation) (i : Nat) (il : input_layout) :
    read_input_layout pool i = .ok il ↔ ∃ r, pool[i]? = some r ∧ r.payload = .input_layout il := by
  unfold read_input_layout pool_slot
  cases h : pool[i]? with
  | none => simp
  | some r => cases hp : r.payload <;> simp [hp]

theorem read_input_layout_written (pool : List resource_allocation) (i : Nat)
    (il il1 : input_layout) (h : read_input_layout pool i = .ok il) :
    read_input_layout (write_input_layout pool i il1) i = .ok il1 := by
  obtain ⟨r, hr, -⟩ := (read_input_layout_eq_ok pool i il).mp h
  have hi : i < pool.length := by
    rcases Nat.lt_or_ge i pool.length with h1 | h1
    · exact h1
    · rw [List.getElem?_eq_none h1] at hr
      cases hr
  rw [read_input_layout_eq_ok]
  exact ⟨{ r with payload := .input_layout il1 }, by simp [write_input_layout, hr, hi], rfl⟩

theorem read_handle_written (pool : List resource_allocation) (i j : Nat)
    (il il1 : input_layout) (h : read_input_layout pool i = .ok il) :
    read_handle (write_input_layout pool i il1) j = read_handle pool j := by
  obtain ⟨r, hr, hp⟩ := (read_input_layout_eq_ok pool i il).mp h
  have hi : i < pool.length := by
    rcases Nat.lt_or_ge i pool.length with h1 | h1
    · exact h1
    · rw [List.getElem?_eq_none h1] at hr
      cases hr
  unfold write_input_layout read_handle pool_slot
  simp only [hr]
  by_cases hij : i = j
  · subst hij
    simp [hi, hr, hp]
  · rw [List.getElem?_set_ne hij]

theorem read_raster_state_written (pool : List resource_allocation) (i j : Nat)
    (il il1 : input_layout) (h : read_input_layout pool i = .ok il) :
    read_raster_state (write_input_layout pool i il1) j = read_raster_state pool j := by
  obtain ⟨r, hr, hp⟩ := (read_input_layout_eq_ok pool i il).mp h
  have hi : i < pool.length := by
    rcases Nat.lt_or_ge i pool.length with h1 | h1
    · exact h1
    · rw [List.getElem?_eq_none h1] at hr
      cases hr
  unfold write_input_layout read_raster_state pool_slot
  simp only [hr]
  by_cases hij : i = j
  · subst hij
    simp [hi, hr, hp]
  · rw [List.getElem?_set_ne hij]

/-! ## The blocks of the reconciler -/

theorem bind_vertex_buffer_ok (s s1 : renderer) (h : bind_vertex_buffer s = .ok s1) :
    ∃ res, read_handle s.resource_pool s.g_current_state.vertex_buffer = .ok res ∧
      s1 = gl (.glBindBuffer GL_ARRAY_BUFFER res) { s with g_bound_state :=
        { s.g_bound_state with vertex_buffer := s.g_current_state.vertex_buffer } } := by
  unfold bind_vertex_buffer at h
  simp only at h
  cases hr : read_handle s.resource_pool s.g_current_state.vertex_buffer with
  | error e => simp [hr] at h
  | ok res =>
    simp only [hr, Except.ok.injEq] at h
    exact ⟨res, rfl, h.symm⟩

theorem describe_vertex_array_ok (s : renderer) (res : input_layout)
    (r : input_layout × renderer) (h : describe_vertex_array s res = .ok r) :
    r.1 = { res with vb_handle := s.g_bound_state.vertex_buffer } ∧
    r.2.resource_pool = write_input_layout s.resource_pool s.g_current_state.input_layout r.1 ∧
    r.2.g_current_state = s.g_current_state ∧ r.2.shader_programs = s.shader_programs ∧
    r.2.g_bound_state.vertex_buffer = s.g_bound_state.vertex_buffer ∧
    r.2.g_bound_state.vertex_buffer_stride = s.g_bound_state.vertex_buffer_stride ∧
    r.2.g_bound_state.index_buffer = s.g_bound_state.index_buffer ∧
    r.2.g_bound_state.input_layout = s.g_bound_state.input_layout ∧
    r.2.g_bound_state.vertex_shader = s.g_bound_state.vertex_shader ∧
    r.2.g_bound_state.pixel_shader = s.g_bound_state.pixel_shader ∧
    r.2.g_bound_state.raster_state = s.g_bound_state.raster_state ∧
    calls_quiet s.gl_calls r.2.gl_calls := by
  unfold describe_vertex_array at h
  simp only at h
  split at h
  · cases h
  · rename_i s1 hd
    split at h
    · cases h
    · rename_i s2 ht
      simp only [Except.ok.injEq] at h
      subst h
      have hstep := attributes_step_trans _ _ _ (describe_attributes_step _ _ _ hd)
        (toggle_attribute_arrays_step _ _ _ ht)
      obtain ⟨a1, a2, a3, a4, a5, a6, a7, a8, a9, a10, a11, a12, c, hc, hp, hl⟩ := hstep
      refine ⟨rfl, a2, a1, a3, a5, a6, a7, a8, a9, a10, a11,
        [.glBindVertexArray res.vertex_array_handle] ++ c, ?_, ?_, ?_⟩
      · rw [hc]
        simp [gl]
      · rw [programs_used_append, hp]
        rfl
      · rw [link_steps_append, hl]
        rfl

theorem generate_vertex_array_ok (s : renderer) (res : input_layout) :
    (generate_vertex_array s res).1.vertex_array_handle ≠ 0 ∧
    (generate_vertex_array s res).1.attributes = res.attributes ∧
    (generate_vertex_array s res).2.resource_pool = s.resource_pool ∧
    (generate_vertex_array s res).2.g_current_state = s.g_current_state ∧
    (generate_vertex_array s res).2.shader_programs = s.shader_programs ∧
    (generate_vertex_array s res).2.g_bound_state = s.g_bound_state ∧
    calls_quiet s.gl_calls (generate_vertex_array s res).2.gl_calls := by
  unfold generate_vertex_array
  by_cases hv : res.vertex_array_handle = 0
  · rw [if_pos hv]
    exact ⟨by simp [gl_gen], rfl, rfl, rfl, rfl, rfl,
      calls_quiet_snoc _ _ _ (calls_quiet_refl _) rfl rfl⟩
  · rw [if_neg hv]
    exact ⟨hv, rfl, rfl, rfl, rfl, rfl, calls_quiet_refl _⟩

theorem regenerate_vertex_array_ok (s : renderer) (res : input_layout)
    (r : input_layout × renderer) (h : regenerate_vertex_array s res = .ok r) :
    r.1.vb_handle = s.g_bound_state.vertex_buffer ∧ r.1.vertex_array_handle ≠ 0 ∧
    r.2.resource_pool = write_input_layout s.resource_pool s.g_current_state.input_layout r.1 ∧
    r.2.g_current_state = s.g_current_state ∧ r.2.shader_programs = s.shader_programs ∧
    r.2.g_bound_state.vertex_buffer = s.g_bound_state.vertex_buffer ∧
    r.2.g_bound_state.vertex_buffer_stride = s.g_bound_state.vertex_buffer_stride ∧
    r.2.g_bound_state.index_buffer = s.g_bound_state.index_buffer ∧
    r.2.g_bound_state.input_layout = s.g_bound_state.input_layout ∧
    r.2.g_bound_state.vertex_shader = s.g_bound_state.vertex_shader ∧
    r.2.g_bound_state.pixel_shader = s.g_bound_state.pixel_shader ∧
    r.2.g_bound_state.raster_state = s.g_bound_state.raster_state ∧
    calls_quiet s.gl_calls r.2.gl_calls := by
  unfold regenerate_vertex_array at h
  obtain ⟨g1, -, g3, g4, g5, g6, g7⟩ := generate_vertex_array_ok s res
  obtain ⟨d1, d2, d3, d4, d5, d6, d7, d8, d9, d10, d11, d12⟩ :=
    describe_vertex_array_ok _ _ r h
  rw [g6] at d1 d5 d6 d7 d8 d9 d10 d11
  rw [g3, g4] at d2
  refine ⟨?_, ?_, d2, d3.trans g4, d4.trans g5, d5, d6, d7, d8, d9, d10, d11,
    calls_quiet_trans _ _ _ g7 d12⟩
  · rw [d1]
  · rw [d1]
    exact g1

theorem bind_input_layout_ok (s s1 : renderer) (h : bind_input_layout s = .ok s1) :
    s1.g_current_state = s.g_current_state ∧ s1.shader_programs = s.shader_programs ∧
    s1.g_bound_state.vertex_buffer = s.g_bound_state.vertex_buffer ∧
    s1.g_bound_state.index_buffer = s.g_bound_state.index_buffer ∧
    s1.g_bound_state.vertex_shader = s.g_bound_state.vertex_shader ∧
    s1.g_bound_state.pixel_shader = s.g_bound_state.pixel_shader ∧
    s1.g_bound_state.raster_state = s.g_bound_state.raster_state ∧
    s1.g_bound_state.input_layout = s.g_current_state.input_layout ∧
    s1.g_bound_state.vertex_buffer_stride = s.g_current_state.vertex_buffer_stride ∧
    (∀ j, read_handle s1.resource_pool j = read_handle s.resource_pool j) ∧
    (∀ j, read_raster_state s1.resource_pool j = read_raster_state s.resource_pool j) ∧
    (∃ il1, read_input_layout s1.resource_pool s.g_current_state.input_layout = .ok il1 ∧
      il1.vb_handle = s.g_bound_state.vertex_buffer ∧
      (il1.vb_handle = 0 → il1.vertex_array_handle ≠ 0)) ∧
    calls_quiet s.gl_calls s1.gl_calls := by
  unfold bind_input_layout at h
  cases hr : read_input_layout s.resource_pool s.g_current_state.input_layout with
  | error e => simp [hr] at h
  | ok input_res =>
    simp only [hr] at h
    split at h
    · rename_i hinv
      split at h
      · split at h
        · cases h
        · rename_i r hg
          simp only [Except.ok.injEq] at h
          subst h
          obtain ⟨g1, g2, g3, g4, g5, g6, g7, g8, g9, g10, g11, g12, hq⟩ :=
            regenerate_vertex_array_ok _ _ _ hg
          refine ⟨g4, g5, g6, g8, g10, g11, g12, g9, g7, ?_, ?_, ?_, ?_⟩
          · intro j
            show read_handle r.2.resource_pool j = _
            rw [g3]
            exact read_handle_written _ _ _ _ _ hr
          · intro j
            show read_raster_state r.2.resource_pool j = _
            rw [g3]
            exact read_raster_state_written _ _ _ _ _ hr
          · refine ⟨r.1, ?_, g1, fun _ => g2⟩
            show read_input_layout r.2.resource_pool _ = _
            rw [g3]
            exact read_input_layout_written _ _ _ _ hr
          · exact calls_quiet_snoc _ _ _ hq rfl rfl
      · rename_i hinner
        simp only [Except.ok.injEq] at h
        subst h
        simp only [not_or, Decidable.not_not] at hinner
        exact ⟨rfl, rfl, rfl, rfl, rfl, rfl, rfl, rfl, rfl, fun _ => rfl, fun _ => rfl,
          ⟨input_res, hr, hinner.2, fun _ => hinner.1⟩,
          calls_quiet_snoc _ _ _ (calls_quiet_refl _) rfl rfl⟩
    · rename_i hinv
      simp only [Except.ok.injEq] at h
      subst h
      simp only [not_or, Decidable.not_not] at hinv
      exact ⟨rfl, rfl, rfl, rfl, rfl, rfl, rfl, hinv.2.1.symm, hinv.2.2.symm, fun _ => rfl,
        fun _ => rfl, ⟨input_res, hr, hinv.1.2, fun h0 => absurd h0 hinv.1.1⟩,
        calls_quiet_refl _⟩

theorem bind_raster_state_ok (s s1 : renderer) (h : bind_raster_state s = .ok s1) :
    s1.g_current_state = s.g_current_state ∧ s1.shader_programs = s.shader_programs ∧
    s1.resource_pool = s.resource_pool ∧
    s1.g_bound_state.vertex_buffer = s.g_bound_state.vertex_buffer ∧
    s1.g_bound_state.vertex_buffer_stride = s.g_bound_state.vertex_buffer_stride ∧
    s1.g_bound_state.index_buffer = s.g_bound_state.index_buffer ∧
    s1.g_bound_state.input_layout = s.g_bound_state.input_layout ∧
    s1.g_bound_state.vertex_shader = s.g_bound_state.vertex_shader ∧
    s1.g_bound_state.pixel_shader = s.g_bound_state.pixel_shader ∧
    s1.g_bound_state.raster_state = s.g_current_state.raster_state ∧
    calls_quiet s.gl_calls s1.gl_calls := by
  unfold bind_raster_state at h
  split at h
  · simp only at h
    cases hr : read_raster_state s.resource_pool s.g_current_state.raster_state with
    | error e => simp [hr] at h
    | ok rs =>
      obtain ⟨cull_face, polygon_mode, culling, depth_clip, scissor⟩ := rs
      simp only [hr, Except.ok.injEq] at h
      subst h
      refine ⟨?_, ?_, ?_, ?_, ?_, ?_, ?_, ?_, ?_, ?_, ?_⟩
      all_goals cases culling <;> cases depth_clip <;> cases scissor
      all_goals first
        | rfl
        | exact calls_quiet_snoc _ _ _ (calls_quiet_snoc _ _ _ (calls_quiet_snoc _ _ _
            (calls_quiet_snoc _ _ _ (calls_quiet_snoc _ _ _ (calls_quiet_refl _) rfl rfl)
              rfl rfl) rfl rfl) rfl rfl) rfl rfl
        | exact calls_quiet_snoc _ _ _ (calls_quiet_snoc _ _ _ (calls_quiet_snoc _ _ _
            (calls_quiet_snoc _ _ _ (calls_quiet_snoc _ _ _ (calls_quiet_snoc _ _ _
              (calls_quiet_refl _) rfl rfl) rfl rfl) rfl rfl) rfl rfl) rfl rfl) rfl rfl
  · rename_i hsame
    simp only [Except.ok.injEq] at h
    subst h
    simp only [Decidable.not_not] at hsame
    exact ⟨rfl, rfl, rfl, rfl, rfl, rfl, rfl, rfl, rfl, hsame, calls_quiet_refl _⟩

theorem link_program_internal_ok (drv : gl_driver) (s : renderer) (vs ps : Nat) :
    (link_program_internal drv s vs ps).1 =
        ⟨s.g_bound_state.vertex_shader, s.g_bound_state.pixel_shader, none, s.gl_names + 1⟩ ∧
    (link_program_internal drv s vs ps).2.shader_programs =
        s.shader_programs ++ [(link_program_internal drv s vs ps).1] ∧
    (link_program_internal drv s vs ps).2.g_current_state = s.g_current_state ∧
    (link_program_internal drv s vs ps).2.g_bound_state = s.g_bound_state ∧
    (link_program_internal drv s vs ps).2.resource_pool = s.resource_pool ∧
    (link_program_internal drv s vs ps).2.gl_names = s.gl_names + 1 ∧
    ∃ calls, (link_program_internal drv s vs ps).2.gl_calls = s.gl_calls ++ calls ∧
      programs_used calls = [] ∧ link_steps calls = 1 := by
  unfold link_program_internal
  simp only [gl_gen]
  split
  · simp only [gl]
    refine ⟨trivial, trivial, trivial, trivial, trivial, trivial, ?_⟩
    refine ⟨[.glCreateProgram (s.gl_names + 1), .glAttachShader (s.gl_names + 1) vs,
        .glAttachShader (s.gl_names + 1) ps, .glLinkProgram (s.gl_names + 1),
        .glGetShaderiv (s.gl_names + 1) GL_LINK_STATUS,
        .glGetShaderiv (s.gl_names + 1) GL_INFO_LOG_LENGTH,
        .glGetShaderInfoLog (s.gl_names + 1) (drv.info_log_length (s.gl_names + 1))], ?_, ?_, ?_⟩
    · simp
    · rfl
    · rfl
  · simp only [gl]
    refine ⟨trivial, trivial, trivial, trivial, trivial, trivial, ?_⟩
    refine ⟨[.glCreateProgram (s.gl_names + 1), .glAttachShader (s.gl_names + 1) vs,
        .glAttachShader (s.gl_names + 1) ps, .glLinkProgram (s.gl_names + 1),
        .glGetShaderiv (s.gl_names + 1) GL_LINK_STATUS,
        .glGetShaderiv (s.gl_names + 1) GL_INFO_LOG_LENGTH], ?_, ?_, ?_⟩
    · simp
    · rfl
    · rfl
theorem find_linked_program_congr (programs : List shader_program) (b b1 : active_state)
    (h : b.vertex_shader = b1.vertex_shader) :
    find_linked_program programs b = find_linked_program programs b1 := by
  unfold find_linked_program
  rw [h]

theorem find_linked_program_append (programs extra : List shader_program) (b : active_state)
    (e : shader_program) (h : find_linked_program programs b = some e) :
    find_linked_program (programs ++ extra) b = some e := by
  unfold find_linked_program at h ⊢
  rw [List.find?_append, h]
  rfl

theorem bind_shaders_same (drv : gl_driver) (s : renderer)
    (hvs : s.g_current_state.vertex_shader = s.g_bound_state.vertex_shader)
    (hps : s.g_current_state.pixel_shader = s.g_bound_state.pixel_shader) :
    bind_shaders drv s = .ok s := by
  simp [bind_shaders, hvs, hps]

theorem bind_shaders_ok (drv : gl_driver) (s s1 : renderer) (h : bind_shaders drv s = .ok s1) :
    s1.g_current_state = s.g_current_state ∧ s1.resource_pool = s.resource_pool ∧
    s1.g_bound_state.vertex_shader = s.g_current_state.vertex_shader ∧
    s1.g_bound_state.pixel_shader = s.g_current_state.pixel_shader ∧
    s1.g_bound_state.vertex_buffer = s.g_bound_state.vertex_buffer ∧
    s1.g_bound_state.vertex_buffer_stride = s.g_bound_state.vertex_buffer_stride ∧
    s1.g_bound_state.index_buffer = s.g_bound_state.index_buffer ∧
    s1.g_bound_state.input_layout = s.g_bound_state.input_layout ∧
    s1.g_bound_state.raster_state = s.g_bound_state.raster_state ∧
    s1.g_bound_state.enabled_vertex_attributes = s.g_bound_state.enabled_vertex_attributes ∧
    (∃ extra, s1.shader_programs = s.shader_programs ++ extra) ∧
    ∃ calls, s1.gl_calls = s.gl_calls ++ calls := by
  unfold bind_shaders at h
  split at h
  · simp only at h
    split at h
    · cases h
    · split at h
      · cases h
      · split at h
        · cases h
        · rename_i vs_handle hvs _ ps_handle hps
          have hlink := link_program_internal_ok drv { s with g_bound_state :=
            { s.g_bound_state with
              vertex_shader := s.g_current_state.vertex_shader,
              pixel_shader := s.g_current_state.pixel_shader } } vs_handle ps_handle
          generalize link_program_internal drv _ vs_handle ps_handle = linked at h hlink
          obtain ⟨-, l2, l3, l4, l5, -, c, hc, -, -⟩ := hlink
          simp only [Except.ok.injEq] at h
          subst h
          refine ⟨l3, l5, ?_, ?_, ?_, ?_, ?_, ?_, ?_, ?_, ⟨_, l2⟩,
            ⟨c ++ [.glUseProgram linked.1.program], ?_⟩⟩
          · show linked.2.g_bound_state.vertex_shader = _
            rw [l4]
          · show linked.2.g_bound_state.pixel_shader = _
            rw [l4]
          · show linked.2.g_bound_state.vertex_buffer = _
            rw [l4]
          · show linked.2.g_bound_state.vertex_buffer_stride = _
            rw [l4]
          · show linked.2.g_bound_state.index_buffer = _
            rw [l4]
          · show linked.2.g_bound_state.input_layout = _
            rw [l4]
          · show linked.2.g_bound_state.raster_state = _
            rw [l4]
          · show linked.2.g_bound_state.enabled_vertex_attributes = _
            rw [l4]
          · show linked.2.gl_calls ++ [_] = _
            rw [hc, List.append_assoc]
  · rename_i hsame
    simp only [Except.ok.injEq] at h
    subst h
    simp only [not_or, Decidable.not_not] at hsame
    exact ⟨rfl, rfl, hsame.1.symm, hsame.2.symm, rfl, rfl, rfl, rfl, rfl, rfl, ⟨[], by simp⟩,
      ⟨[], by simp⟩⟩

theorem bind_state_ok (drv : gl_driver) (s s4 : renderer) (h : bind_state drv s = .ok s4) :
    ∃ s1 s2 s3, bind_shaders drv s = .ok s1 ∧ bind_vertex_buffer s1 = .ok s2 ∧
      bind_input_layout s2 = .ok s3 ∧ bind_raster_state s3 = .ok s4 := by
  unfold bind_state at h
  cases h1 : bind_shaders drv s with
  | error e => simp [h1] at h
  | ok s1 =>
    simp only [h1] at h
    cases h2 : bind_vertex_buffer s1 with
    | error e => simp [h2] at h
    | ok s2 =>
      simp only [h2] at h
      cases h3 : bind_input_layout s2 with
      | error e => simp [h3] at h
      | ok s3 =>
        simp only [h3] at h
        exact ⟨s1, s2, s3, rfl, h2, h3, h⟩

/-! ## The reconciler returns -/

theorem bind_shaders_total (drv : gl_driver) (s : renderer)
    (hvs : ∃ h, read_handle s.resource_pool s.g_current_state.vertex_shader = .ok h)
    (hps : ∃ h, read_handle s.resource_pool s.g_current_state.pixel_shader = .ok h)
    (hmiss : requested_pair_settled s) :
    ∃ s1, bind_shaders drv s = .ok s1 := by
  obtain ⟨vs_handle, hvs⟩ := hvs
  obtain ⟨ps_handle, hps⟩ := hps
  unfold bind_shaders
  split
  · rename_i hd
    rcases hmiss with ⟨h1, h2⟩ | hnone
    · rcases hd with hd | hd
      · exact absurd h1 hd
      · exact absurd h2 hd
    · have hkey : find_linked_program s.shader_programs
          { s.g_bound_state with vertex_shader := s.g_current_state.vertex_shader,
                                 pixel_shader := s.g_current_state.pixel_shader } = none := by
        rw [← hnone]
        exact find_linked_program_congr _ _ _ rfl
      simp only [hkey, hvs, hps]
      exact ⟨_, rfl⟩
  · exact ⟨_, rfl⟩

theorem bind_shaders_hit (drv : gl_driver) (s : renderer) (e : shader_program)
    (hd : s.g_current_state.vertex_shader ≠ s.g_bound_state.vertex_shader ∨
      s.g_current_state.pixel_shader ≠ s.g_bound_state.pixel_shader)
    (hf : find_linked_program s.shader_programs s.g_current_state = some e) :
    bind_shaders drv s = .error .use_after_scope := by
  have hkey : find_linked_program s.shader_programs
      { s.g_bound_state with vertex_shader := s.g_current_state.vertex_shader,
                             pixel_shader := s.g_current_state.pixel_shader } = some e := by
    rw [← hf]
    exact find_linked_program_congr _ _ _ rfl
  unfold bind_shaders
  rw [if_pos hd]
  simp only [hkey]

theorem describe_attributes_not_error (attrs : List vertex_attribute) (s : renderer) (e : fault)
    (h : ∀ a ∈ attrs, a.location < MAX_VERTEX_ATTRIBUTES) :
    describe_attributes s attrs ≠ .error e := by
  obtain ⟨s1, hok⟩ := describe_attributes_ok attrs s h
  rw [hok]
  simp

theorem toggle_attribute_arrays_not_error (indices : List Nat) (s : renderer) (e : fault)
    (h : ∀ i ∈ indices, i < s.g_bound_state.enabled_vertex_attributes.length) :
    toggle_attribute_arrays s indices ≠ .error e := by
  obtain ⟨s1, hok⟩ := toggle_attribute_arrays_ok indices s h
  rw [hok]
  simp

theorem describe_vertex_array_total (s : renderer) (res : input_layout)
    (hloc : ∀ a ∈ res.attributes, a.location < MAX_VERTEX_ATTRIBUTES)
    (hlen : s.g_bound_state.enabled_vertex_attributes.length = MAX_VERTEX_ATTRIBUTES) :
    ∃ r, describe_vertex_array s res = .ok r := by
  unfold describe_vertex_array
  simp only
  split
  · rename_i e hd
    exact absurd hd (describe_attributes_not_error _ _ _ hloc)
  · rename_i s1 hd
    split
    · rename_i e ht
      refine absurd ht (toggle_attribute_arrays_not_error _ _ _ ?_)
      intro i hi
      rw [(describe_attributes_step _ _ _ hd).2.2.2.2.2.2.2.2.2.2.2.1]
      show i < s.g_bound_state.enabled_vertex_attributes.length
      rw [hlen]
      exact List.mem_range.mp hi
    · exact ⟨_, rfl⟩

theorem regenerate_vertex_array_total (s : renderer) (res : input_layout)
    (hloc : ∀ a ∈ res.attributes, a.location < MAX_VERTEX_ATTRIBUTES)
    (hlen : s.g_bound_state.enabled_vertex_attributes.length = MAX_VERTEX_ATTRIBUTES) :
    ∃ r, regenerate_vertex_array s res = .ok r := by
  unfold regenerate_vertex_array
  obtain ⟨-, g2, -, -, -, g6, -⟩ := generate_vertex_array_ok s res
  exact describe_vertex_array_total _ _ (by rw [g2]; exact hloc) (by rw [g6]; exact hlen)

theorem bind_input_layout_total (s : renderer)
    (hil : ∃ il, read_input_layout s.resource_pool s.g_current_state.input_layout = .ok il ∧
      ∀ a ∈ il.attributes, a.location < MAX_VERTEX_ATTRIBUTES)
    (hlen : s.g_bound_state.enabled_vertex_attributes.length = MAX_VERTEX_ATTRIBUTES) :
    ∃ s1, bind_input_layout s = .ok s1 := by
  obtain ⟨il, hr, hloc⟩ := hil
  unfold bind_input_layout
  simp only [hr]
  split
  · split
    · obtain ⟨r, hg⟩ := regenerate_vertex_array_total { s with g_bound_state :=
        { s.g_bound_state with
          input_layout := s.g_current_state.input_layout,
          vertex_buffer_stride := s.g_current_state.vertex_buffer_stride } } il hloc hlen
      simp only [hg]
      exact ⟨_, rfl⟩
    · exact ⟨_, rfl⟩
  · exact ⟨_, rfl⟩

theorem bind_raster_state_total (s : renderer)
    (hrs : ∃ rs, read_raster_state s.resource_pool s.g_current_state.raster_state = .ok rs) :
    ∃ s1, bind_raster_state s = .ok s1 := by
  obtain ⟨rs, hr⟩ := hrs
  unfold bind_raster_state
  split
  · simp only [hr]
    exact ⟨_, rfl⟩
  · exact ⟨_, rfl⟩

theorem bind_state_total (drv : gl_driver) (s : renderer) (h : requested_kinds_ok s)
    (hmiss : requested_pair_settled s) :
    ∃ s4, bind_state drv s = .ok s4 := by
  obtain ⟨hvs, hps, hvb, hil, hrs, hlen⟩ := h
  obtain ⟨s1, h1⟩ := bind_shaders_total drv s hvs hps hmiss
  obtain ⟨a1, a2, -, -, -, -, -, -, -, a10, -, -⟩ := bind_shaders_ok drv s s1 h1
  obtain ⟨res, hres⟩ := hvb
  have h2 : bind_vertex_buffer s1 = .ok (gl (.glBindBuffer GL_ARRAY_BUFFER res)
      { s1 with g_bound_state :=
        { s1.g_bound_state with vertex_buffer := s1.g_current_state.vertex_buffer } }) := by
    unfold bind_vertex_buffer
    simp only [a1, a2, hres]
  obtain ⟨s3, h3⟩ := bind_input_layout_total (gl (.glBindBuffer GL_ARRAY_BUFFER res)
      { s1 with g_bound_state :=
        { s1.g_bound_state with vertex_buffer := s1.g_current_state.vertex_buffer } })
    (by
      show ∃ il, read_input_layout s1.resource_pool s1.g_current_state.input_layout = .ok il ∧ _
      rw [a1, a2]
      exact hil)
    (by
      show s1.g_bound_state.enabled_vertex_attributes.length = _
      rw [a10]
      exact hlen)
  obtain ⟨b1, -, -, -, -, -, -, -, -, -, b11, -, -⟩ := bind_input_layout_ok _ s3 h3
  obtain ⟨s4, h4⟩ := bind_raster_state_total s3 (by
    rw [b11, b1]
    show ∃ rs, read_raster_state s1.resource_pool s1.g_current_state.raster_state = .ok rs
    rw [a1, a2]
    exact hrs)
  exact ⟨s4, by simp only [bind_state, h1, h2, h3, h4]⟩

/-! ## The state after a reconciliation -/

theorem bind_state_post (drv : gl_driver) (s s4 : renderer) (h : bind_state drv s = .ok s4) :
    s4.g_current_state = s.g_current_state ∧
    s4.g_bound_state.vertex_shader = s.g_current_state.vertex_shader ∧
    s4.g_bound_state.pixel_shader = s.g_current_state.pixel_shader ∧
    s4.g_bound_state.vertex_buffer = s.g_current_state.vertex_buffer ∧
    s4.g_bound_state.vertex_buffer_stride = s.g_current_state.vertex_buffer_stride ∧
    s4.g_bound_state.input_layout = s.g_current_state.input_layout ∧
    s4.g_bound_state.raster_state = s.g_current_state.raster_state ∧
    (∀ j, read_handle s4.resource_pool j = read_handle s.resource_pool j) ∧
    (∀ j, read_raster_state s4.resource_pool j = read_raster_state s.resource_pool j) ∧
    ∃ il1, read_input_layout s4.resource_pool s.g_current_state.input_layout = .ok il1 ∧
      il1.vb_handle = s.g_current_state.vertex_buffer ∧
      (il1.vb_handle = 0 → il1.vertex_array_handle ≠ 0) := by
  obtain ⟨s1, s2, s3, h1, h2, h3, h4⟩ := bind_state_ok drv s s4 h
  obtain ⟨a1, a2, a3, a4, -, -, -, -, -, -, -, -⟩ := bind_shaders_ok drv s s1 h1
  obtain ⟨res, -, hs2⟩ := bind_vertex_buffer_ok s1 s2 h2
  obtain ⟨b1, -, b3, -, b5, b6, -, b8, b9, b10, b11, ⟨il1, hil1, hvb1, hvao1⟩, -⟩ :=
    bind_input_layout_ok s2 s3 h3
  obtain ⟨c1, -, c3, c4, c5, -, c7, c8, c9, c10, -⟩ := bind_raster_state_ok s3 s4 h4
  have hcur2 : s2.g_current_state = s.g_current_state := by
    rw [hs2]
    exact a1
  have hpool2 : s2.resource_pool = s.resource_pool := by
    rw [hs2]
    exact a2
  have hvb2 : s2.g_bound_state.vertex_buffer = s.g_current_state.vertex_buffer := by
    rw [hs2]
    show s1.g_current_state.vertex_buffer = _
    rw [a1]
  have hvs2 : s2.g_bound_state.vertex_shader = s.g_current_state.vertex_shader := by
    rw [hs2]
    exact a3
  have hps2 : s2.g_bound_state.pixel_shader = s.g_current_state.pixel_shader := by
    rw [hs2]
    exact a4
  have hcur3 : s3.g_current_state = s.g_current_state := b1.trans hcur2
  refine ⟨(c1.trans hcur3), ?_, ?_, ?_, ?_, ?_, ?_, ?_, ?_, ?_⟩
  · rw [c8, b5, hvs2]
  · rw [c9, b6, hps2]
  · rw [c4, b3, hvb2]
  · rw [c5, b9, hcur2]
  · rw [c7, b8, hcur2]
  · rw [c10, hcur3]
  · intro j
    rw [c3, b10, hpool2]
  · intro j
    rw [c3, b11, hpool2]
  · refine ⟨il1, ?_, ?_, hvao1⟩
    · rw [c3, ← hcur2]
      exact hil1
    · rw [hvb1, hvb2]

theorem bind_raster_state_same (s : renderer)
    (h : s.g_bound_state.raster_state = s.g_current_state.raster_state) :
    bind_raster_state s = .ok s := by
  simp [bind_raster_state, h]

theorem bind_input_layout_settled (s : renderer) (il : input_layout)
    (hr : read_input_layout s.resource_pool s.g_current_state.input_layout = .ok il)
    (hvb : il.vb_handle = s.g_bound_state.vertex_buffer)
    (hvao : il.vb_handle = 0 → il.vertex_array_handle ≠ 0)
    (hil : s.g_current_state.input_layout = s.g_bound_state.input_layout)
    (hstride : s.g_current_state.vertex_buffer_stride = s.g_bound_state.vertex_buffer_stride) :
    ∃ s1, bind_input_layout s = .ok s1 ∧
      s1.gl_calls = s.gl_calls ++
        (if il.vb_handle = 0 then [.glBindVertexArray il.vertex_array_handle] else []) ∧
      s1.g_bound_state.raster_state = s.g_bound_state.raster_state ∧
      s1.g_current_state = s.g_current_state := by
  unfold bind_input_layout
  simp only [hr]
  by_cases h0 : il.vb_handle = 0
  · have hinner : ¬ (il.vertex_array_handle = 0 ∨ il.vb_handle ≠ s.g_bound_state.vertex_buffer) := by
      rintro (h | h)
      · exact hvao h0 h
      · exact h hvb
    rw [if_pos (Or.inl (Or.inl h0))]
    rw [if_neg hinner]
    exact ⟨_, rfl, by simp [gl, h0], rfl, rfl⟩
  · have hinv : ¬ ((il.vb_handle = 0 ∨ il.vb_handle ≠ s.g_bound_state.vertex_buffer) ∨
        s.g_current_state.input_layout ≠ s.g_bound_state.input_layout ∨
        s.g_current_state.vertex_buffer_stride ≠ s.g_bound_state.vertex_buffer_stride) := by
      rintro ((h | h) | h | h)
      · exact h0 h
      · exact h hvb
      · exact h hil
      · exact h hstride
    rw [if_neg hinv]
    exact ⟨_, rfl, by simp [h0], rfl, rfl⟩

theorem bind_state_commits_requested (drv : gl_driver) (s : renderer)
    (h : requested_kinds_ok s) (hmiss : requested_pair_settled s) :
    ∃ s1, bind_state drv s = .ok s1 ∧
      s1.g_bound_state.vertex_shader = s1.g_current_state.vertex_shader ∧
      s1.g_bound_state.pixel_shader = s1.g_current_state.pixel_shader ∧
      s1.g_bound_state.vertex_buffer = s1.g_current_state.vertex_buffer ∧
      s1.g_bound_state.vertex_buffer_stride = s1.g_current_state.vertex_buffer_stride ∧
      s1.g_bound_state.input_layout = s1.g_current_state.input_layout ∧
      s1.g_bound_state.raster_state = s1.g_current_state.raster_state ∧
      s1.g_current_state = s.g_current_state := by
  obtain ⟨s1, h1⟩ := bind_state_total drv s h hmiss
  obtain ⟨p1, p2, p3, p4, p5, p6, p7, -, -, -⟩ := bind_state_post drv s s1 h1
  refine ⟨s1, h1, ?_, ?_, ?_, ?_, ?_, ?_, p1⟩
  · rw [p2, p1]
  · rw [p3, p1]
  · rw [p4, p1]
  · rw [p5, p1]
  · rw [p6, p1]
  · rw [p7, p1]

theorem bind_state_hit (drv : gl_driver) (s : renderer) (e : shader_program)
    (hd : s.g_current_state.vertex_shader ≠ s.g_bound_state.vertex_shader ∨
      s.g_current_state.pixel_shader ≠ s.g_bound_state.pixel_shader)
    (hf : find_linked_program s.shader_programs s.g_current_state = some e) :
    bind_state drv s = .error .use_after_scope := by
  unfold bind_state
  rw [bind_shaders_hit drv s e hd hf]

/-- C1, the claim as stated fails: on the sample renderer the second of two consecutive
`bind_state` runs issues a driver call, the bind of the vertex buffer. -/
theorem bind_state_rerun_rebinds_vertex_buffer :
    bind_state quiet_driver sample_renderer = .ok (reconciled quiet_driver sample_renderer) ∧
      bind_state quiet_driver (reconciled quiet_driver sample_renderer) =
        .ok (reconciled quiet_driver (reconciled quiet_driver sample_renderer)) ∧
      issued (reconciled quiet_driver sample_renderer)
        (reconciled quiet_driver (reconciled quiet_driver sample_renderer)) =
        [.glBindBuffer GL_ARRAY_BUFFER 13] :=
  ⟨rfl, rfl, rfl⟩

/-- C1 (amended): when `bind_state` is run and then run again with no setter called in
between, the second run issues exactly the bind of the requested vertex buffer,
`glBindBuffer (GL_ARRAY_BUFFER, handle)`, followed, only when the requested vertex buffer
is handle 0, by one `glBindVertexArray` of the requested layout's vertex array: no
program, attribute or raster-state call is issued. -/
theorem bind_state_rerun_calls (drv : gl_driver) (s s1 s2 : renderer)
    (h1 : bind_state drv s = .ok s1) (h2 : bind_state drv s1 = .ok s2) :
    ∃ res il, read_handle s1.resource_pool s1.g_current_state.vertex_buffer = .ok res ∧
      read_input_layout s1.resource_pool s1.g_current_state.input_layout = .ok il ∧
      issued s1 s2 = .glBindBuffer GL_ARRAY_BUFFER res ::
        (if s1.g_current_state.vertex_buffer = 0 then [.glBindVertexArray il.vertex_array_handle]
          else []) := by
  obtain ⟨p1, p2, p3, p4, p5, p6, p7, -, -, il, hil, hvb, hvao⟩ := bind_state_post drv s s1 h1
  obtain ⟨t1, t2, t3, k1, k2, k3, k4⟩ := bind_state_ok drv s1 s2 h2
  rw [bind_shaders_same drv s1 (by rw [p2, p1]) (by rw [p3, p1])] at k1
  simp only [Except.ok.injEq] at k1
  subst k1
  obtain ⟨res, hres, ht2⟩ := bind_vertex_buffer_ok s1 t2 k2
  obtain ⟨t3a, k3a, hcalls, hrs, hcur⟩ := bind_input_layout_settled t2 il
    (by rw [ht2]; show read_input_layout s1.resource_pool s1.g_current_state.input_layout = _
        rw [p1]; exact hil)
    (by rw [ht2]; show il.vb_handle = s1.g_current_state.vertex_buffer
        rw [p1]; exact hvb)
    hvao
    (by rw [ht2]; show s1.g_current_state.input_layout = s1.g_bound_state.input_layout
        rw [p6, p1])
    (by rw [ht2]
        show s1.g_current_state.vertex_buffer_stride = s1.g_bound_state.vertex_buffer_stride
        rw [p5, p1])
  rw [k3a] at k3
  simp only [Except.ok.injEq] at k3
  subst k3
  rw [bind_raster_state_same t3a (by
    rw [hrs, hcur, ht2]
    show s1.g_bound_state.raster_state = s1.g_current_state.raster_state
    rw [p7, p1])] at k4
  simp only [Except.ok.injEq] at k4
  subst k4
  refine ⟨res, il, hres, by rw [p1]; exact hil, ?_⟩
  apply issued_eq
  rw [hcalls, ht2, hvb, p1]
  simp [gl]

theorem bind_state_rerun_calls_witness :
    (bind_state quiet_driver sample_renderer = .ok (reconciled quiet_driver sample_renderer) ∧
      bind_state quiet_driver (reconciled quiet_driver sample_renderer) =
        .ok (reconciled quiet_driver (reconciled quiet_driver sample_renderer))) ∧
    ∃ res il,
      read_handle (reconciled quiet_driver sample_renderer).resource_pool
        (reconciled quiet_driver sample_renderer).g_current_state.vertex_buffer = .ok res ∧
      read_input_layout (reconciled quiet_driver sample_renderer).resource_pool
        (reconciled quiet_driver sample_renderer).g_current_state.input_layout = .ok il ∧
      issued (reconciled quiet_driver sample_renderer)
        (reconciled quiet_driver (reconciled quiet_driver sample_renderer)) =
        .glBindBuffer GL_ARRAY_BUFFER res ::
          (if (reconciled quiet_driver sample_renderer).g_current_state.vertex_buffer = 0 then
            [.glBindVertexArray il.vertex_array_handle] else []) :=
  ⟨⟨rfl, rfl⟩,
    bind_state_rerun_calls quiet_driver sample_renderer (reconciled quiet_driver sample_renderer)
      (reconciled quiet_driver (reconciled quiet_driver sample_renderer)) rfl rfl⟩

/-! ## The program cache -/

theorem bind_state_rest_quiet (s1 s2 s3 s4 : renderer) (h2 : bind_vertex_buffer s1 = .ok s2)
    (h3 : bind_input_layout s2 = .ok s3) (h4 : bind_raster_state s3 = .ok s4) :
    calls_quiet s1.gl_calls s4.gl_calls ∧ s4.shader_programs = s1.shader_programs ∧
      s4.g_bound_state.vertex_shader = s1.g_bound_state.vertex_shader ∧
      s4.g_bound_state.pixel_shader = s1.g_bound_state.pixel_shader := by
  obtain ⟨res, -, hs2⟩ := bind_vertex_buffer_ok s1 s2 h2
  obtain ⟨-, b2, -, -, b5, b6, -, -, -, -, -, -, bq⟩ := bind_input_layout_ok s2 s3 h3
  obtain ⟨-, c2, -, -, -, -, -, c8, c9, -, cq⟩ := bind_raster_state_ok s3 s4 h4
  have hq2 : calls_quiet s1.gl_calls s2.gl_calls := by
    rw [hs2]
    exact calls_quiet_snoc _ _ _ (calls_quiet_refl _) rfl rfl
  refine ⟨calls_quiet_trans _ _ _ hq2 (calls_quiet_trans _ _ _ bq cq), ?_, ?_, ?_⟩
  · rw [c2, b2, hs2]
    rfl
  · rw [c8, b5, hs2]
    rfl
  · rw [c9, b6, hs2]
    rfl

theorem renderer_set_shader_pair (s : renderer) (pair : Nat × Nat) :
    (renderer_set_shader (renderer_set_shader s pair.1 GL_VERTEX_SHADER) pair.2
        GL_FRAGMENT_SHADER).g_current_state.vertex_shader = pair.1 ∧
    (renderer_set_shader (renderer_set_shader s pair.1 GL_VERTEX_SHADER) pair.2
        GL_FRAGMENT_SHADER).g_current_state.pixel_shader = pair.2 ∧
    (renderer_set_shader (renderer_set_shader s pair.1 GL_VERTEX_SHADER) pair.2
        GL_FRAGMENT_SHADER).g_bound_state = s.g_bound_state ∧
    (renderer_set_shader (renderer_set_shader s pair.1 GL_VERTEX_SHADER) pair.2
        GL_FRAGMENT_SHADER).shader_programs = s.shader_programs ∧
    (renderer_set_shader (renderer_set_shader s pair.1 GL_VERTEX_SHADER) pair.2
        GL_FRAGMENT_SHADER).gl_calls = s.gl_calls := by
  have hne : GL_FRAGMENT_SHADER ≠ GL_VERTEX_SHADER := by decide
  simp [renderer_set_shader, hne]

/-! ## Linking through the creation call -/

theorem bind_constant_ok (drv : gl_driver) (prog : Nat) (s : renderer)
    (constant : constant_layout_desc) :
    (bind_constant drv prog s constant).shader_programs = s.shader_programs ∧
    (bind_constant drv prog s constant).resource_pool = s.resource_pool ∧
    (bind_constant drv prog s constant).gl_names = s.gl_names ∧
    calls_quiet s.gl_calls (bind_constant drv prog s constant).gl_calls := by
  unfold bind_constant
  split
  · simp only
    split
    · exact ⟨rfl, rfl, rfl, calls_quiet_snoc _ _ _
        (calls_quiet_snoc _ _ _ (calls_quiet_refl _) rfl rfl) rfl rfl⟩
    · exact ⟨rfl, rfl, rfl, calls_quiet_snoc _ _ _ (calls_quiet_refl _) rfl rfl⟩
  · exact ⟨rfl, rfl, rfl, calls_quiet_snoc _ _ _
      (calls_quiet_snoc _ _ _ (calls_quiet_refl _) rfl rfl) rfl rfl⟩
  · exact ⟨rfl, rfl, rfl, calls_quiet_refl _⟩

theorem bind_constants_ok (drv : gl_driver) (prog : Nat) (constants : List constant_layout_desc)
    (s : renderer) :
    (constants.foldl (bind_constant drv prog) s).shader_programs = s.shader_programs ∧
    (constants.foldl (bind_constant drv prog) s).resource_pool = s.resource_pool ∧
    (constants.foldl (bind_constant drv prog) s).gl_names = s.gl_names ∧
    calls_quiet s.gl_calls (constants.foldl (bind_constant drv prog) s).gl_calls := by
  induction constants generalizing s with
  | nil => exact ⟨rfl, rfl, rfl, calls_quiet_refl _⟩
  | cons constant rest ih =>
    obtain ⟨a1, a2, a3, a4⟩ := bind_constant_ok drv prog s constant
    obtain ⟨b1, b2, b3, b4⟩ := ih (bind_constant drv prog s constant)
    simp only [List.foldl_cons]
    exact ⟨b1.trans a1, b2.trans a2, b3.trans a3, calls_quiet_trans _ _ _ a4 b4⟩

theorem renderer_link_shader_program_ok (drv : gl_driver) (s s1 : renderer)
    (params : shader_link_params) (resource_index : Nat)
    (h : renderer_link_shader_program drv s params = .ok (resource_index, s1)) :
    link_steps (issued s s1) = 1 ∧ read_program drv s1 resource_index = .ok (s.gl_names + 1) ∧
      s1.gl_names = s.gl_names + 1 := by
  unfold renderer_link_shader_program at h
  split at h
  · cases h
  · rename_i index pool halloc
    simp only at h
    split at h
    · cases h
    · split at h
      · cases h
      · rename_i vs hvs _ ps hps
        have hlink := link_program_internal_ok drv { s with resource_pool := pool } vs ps
        generalize link_program_internal drv _ vs ps = linked at h hlink
        obtain ⟨l1, l2, -, -, -, l6, c, hc, -, hl⟩ := hlink
        obtain ⟨f1, f2, f3, ⟨rest, hrest, -, hlrest⟩⟩ :=
          bind_constants_ok drv linked.1.program params.constants linked.2
        split at h
        · cases h
        · rename_i r hr
          simp only [Except.ok.injEq, Prod.mk.injEq] at h
          obtain ⟨hidx, hs1⟩ := h
          subst hidx
          subst hs1
          have hlt : index < (List.foldl (bind_constant drv linked.1.program) linked.2
              params.constants).resource_pool.length := by
            rcases Nat.lt_or_ge index (List.foldl (bind_constant drv linked.1.program) linked.2
              params.constants).resource_pool.length with h1 | h1
            · exact h1
            · rw [List.getElem?_eq_none h1] at hr
              cases hr
          refine ⟨?_, ?_, ?_⟩
          · rw [issued_eq s _ (c ++ rest)]
            · rw [link_steps_append, hl, hlrest]
            · show (List.foldl (bind_constant drv linked.1.program) linked.2
                params.constants).gl_calls = _
              rw [hrest, hc, List.append_assoc]
          · unfold read_program pool_slot
            simp only [List.getElem?_set_self hlt, f1, l2]
            simp [l1]
          · show (List.foldl (bind_constant drv linked.1.program) linked.2
              params.constants).gl_names = _
            rw [f3, l6]

/-- C3, the claim as stated fails: two `renderer_link_shader_program` calls with the same
pair (vertex shader 1, pixel shader 2) on the sample renderer run the link step twice; the
slot 8 the first call returns holds the native program id 1, the slot 9 the second call
returns holds the id 2. -/
theorem renderer_link_shader_program_links_again :
    ∃ s1 s2, renderer_link_shader_program quiet_driver sample_renderer ⟨1, 2, []⟩ = .ok (8, s1) ∧
      renderer_link_shader_program quiet_driver s1 ⟨1, 2, []⟩ = .ok (9, s2) ∧
      read_program quiet_driver s1 8 = .ok 1 ∧ read_program quiet_driver s2 9 = .ok 2 ∧
      link_steps (issued sample_renderer s1) = 1 ∧ link_steps (issued s1 s2) = 1 :=
  ⟨_, _, rfl, rfl, rfl, rfl, rfl, rfl⟩

/-- C3 (amended): `renderer_link_shader_program` does not consult the cache. Of two
successive calls with the same parameters that return, each runs the link step exactly
once, and the slot each returns holds, right after the call, a native program id that the
call generated: two different ids, the second the successor of the first. -/
theorem renderer_link_shader_program_links_each_time (drv : gl_driver) (s s1 s2 : renderer)
    (params : shader_link_params) (h1 h2 : Nat)
    (hk1 : renderer_link_shader_program drv s params = .ok (h1, s1))
    (hk2 : renderer_link_shader_program drv s1 params = .ok (h2, s2)) :
    link_steps (issued s s1) = 1 ∧ link_steps (issued s1 s2) = 1 ∧
      read_program drv s1 h1 = .ok (s.gl_names + 1) ∧
      read_program drv s2 h2 = .ok (s.gl_names + 2) := by
  obtain ⟨a1, a2, a3⟩ := renderer_link_shader_program_ok drv s s1 params h1 hk1
  obtain ⟨b1, b2, -⟩ := renderer_link_shader_program_ok drv s1 s2 params h2 hk2
  rw [a3] at b2
  exact ⟨a1, b1, a2, b2⟩

theorem renderer_link_shader_program_links_each_time_witness :
    link_steps (issued sample_renderer
        (program_linked quiet_driver sample_renderer ⟨1, 2, []⟩)) = 1 ∧
      link_steps (issued (program_linked quiet_driver sample_renderer ⟨1, 2, []⟩)
        (program_linked quiet_driver (program_linked quiet_driver sample_renderer ⟨1, 2, []⟩)
          ⟨1, 2, []⟩)) = 1 ∧
      read_program quiet_driver (program_linked quiet_driver sample_renderer ⟨1, 2, []⟩) 8 =
        .ok (sample_renderer.gl_names + 1) ∧
      read_program quiet_driver (program_linked quiet_driver
        (program_linked quiet_driver sample_renderer ⟨1, 2, []⟩) ⟨1, 2, []⟩) 9 =
        .ok (sample_renderer.gl_names + 2) :=
  renderer_link_shader_program_links_each_time quiet_driver sample_renderer
    (program_linked quiet_driver sample_renderer ⟨1, 2, []⟩)
    (program_linked quiet_driver (program_linked quiet_driver sample_renderer ⟨1, 2, []⟩)
      ⟨1, 2, []⟩)
    ⟨1, 2, []⟩ 8 9 rfl rfl

/-! ## The setters -/

/-- C5, the claim as stated fails: `renderer_set_index_buffer` changes the applied
snapshot `g_bound_state` and leaves the requested snapshot as it was. -/
theorem renderer_set_index_buffer_writes_applied :
    (renderer_set_index_buffer sample_renderer 3 0 0).g_bound_state ≠
        sample_renderer.g_bound_state ∧
      (renderer_set_index_buffer sample_renderer 3 0 0).g_current_state =
        sample_renderer.g_current_state := by
  decide

/-- C5 (amended): `renderer_set_vertex_buffer` (which reads `strides[0]`),
`renderer_set_input_layout`, `renderer_set_shader` and `renderer_set_rasterizer_state`
write only into the requested snapshot `g_current_state`: the applied snapshot, the
resource pool, the program cache and the driver are untouched. `renderer_set_index_buffer`
writes the field `index_buffer` of the applied snapshot `g_bound_state` and nothing else;
it issues no driver call either. -/
theorem setters_write_one_snapshot (s : renderer) :
    (∀ buffer_index start_slot num_buffers strides offsets,
      (strides = [] ∧
        renderer_set_vertex_buffer s buffer_index start_slot num_buffers strides offsets =
          .error (.out_of_bounds 0)) ∨
      ∃ s1, renderer_set_vertex_buffer s buffer_index start_slot num_buffers strides offsets =
          .ok s1 ∧ only_requested_written s s1) ∧
    (∀ layout_index, only_requested_written s (renderer_set_input_layout s layout_index)) ∧
    (∀ shader_index shader_type,
      only_requested_written s (renderer_set_shader s shader_index shader_type)) ∧
    (∀ rasterizer_state_index,
      only_requested_written s (renderer_set_rasterizer_state s rasterizer_state_index)) ∧
    (∀ buffer_index format offset,
      (renderer_set_index_buffer s buffer_index format offset).g_bound_state =
          { s.g_bound_state with index_buffer := buffer_index } ∧
        (renderer_set_index_buffer s buffer_index format offset).g_current_state =
          s.g_current_state ∧
        (renderer_set_index_buffer s buffer_index format offset).resource_pool =
          s.resource_pool ∧
        (renderer_set_index_buffer s buffer_index format offset).shader_programs =
          s.shader_programs ∧
        (renderer_set_index_buffer s buffer_index format offset).gl_calls = s.gl_calls ∧
        (renderer_set_index_buffer s buffer_index format offset).gl_names = s.gl_names) := by
  refine ⟨?_, ?_, ?_, ?_, ?_⟩
  · intro buffer_index start_slot num_buffers strides offsets
    cases strides with
    | nil => exact Or.inl ⟨rfl, rfl⟩
    | cons stride rest =>
      right
      simp [renderer_set_vertex_buffer, only_requested_written]
  · intro layout_index
    exact ⟨rfl, rfl, rfl, rfl, rfl⟩
  · intro shader_index shader_type
    unfold renderer_set_shader
    split
    · exact ⟨rfl, rfl, rfl, rfl, rfl⟩
    · split
      · exact ⟨rfl, rfl, rfl, rfl, rfl⟩
      · exact ⟨rfl, rfl, rfl, rfl, rfl⟩
  · intro rasterizer_state_index
    exact ⟨rfl, rfl, rfl, rfl, rfl⟩
  · intro buffer_index format offset
    exact ⟨rfl, rfl, rfl, rfl, rfl, rfl⟩

/-! ## The reconciler on the sample renderer -/

/-- C2: after a reconciliation of the sample renderer (vertex buffer 3, layout 4, stride
16), requesting the same buffer with stride 32 and running `bind_state` again issues the
vertex-buffer bind and one `glBindVertexArray` only: no attribute is described again, so
the only descriptions the driver has received carry the stride 16. -/
theorem stride_change_describes_no_attribute :
    ∃ s1 s2 s3, bind_state quiet_driver sample_renderer = .ok s1 ∧
      renderer_set_vertex_buffer s1 3 0 1 [32] [0] = .ok s2 ∧
      bind_state quiet_driver s2 = .ok s3 ∧
      attribute_descriptions (issued sample_renderer s1) =
        [.glVertexAttribPointer 0 3 0x1406 false 16 0,
         .glVertexAttribPointer 1 4 GL_UNSIGNED_BYTE true 16 12] ∧
      s3.g_bound_state.vertex_buffer_stride = 32 ∧
      issued s2 s3 = [.glBindBuffer GL_ARRAY_BUFFER 13, .glBindVertexArray 2] :=
  ⟨_, _, _, rfl, rfl, rfl, rfl, rfl, rfl⟩

/-- C4: on the sample renderer with an empty program cache, binding the pair (1, 2) links
program 1 and leaves the one entry (1, 2, program 1). The scan for the pair (1, 6), which
shares the vertex shader and differs in the pixel shader, stops at that entry: no program
is linked for (1, 6), and the bind ends where `bind_state` reads the program id through
the copy of the entry that the loop has left. -/
theorem shared_vertex_shader_reuses_program :
    ∃ s1, bind_pair quiet_driver sample_renderer (1, 2) = .ok s1 ∧
      programs_used (issued sample_renderer s1) = [1] ∧
      link_steps (issued sample_renderer s1) = 1 ∧
      s1.shader_programs = [⟨1, 2, none, 1⟩] ∧
      find_linked_program s1.shader_programs
        (renderer_set_shader (renderer_set_shader s1 1 GL_VERTEX_SHADER) 6
          GL_FRAGMENT_SHADER).g_current_state = some ⟨1, 2, none, 1⟩ ∧
      bind_pair quiet_driver s1 (1, 6) = .error .use_after_scope :=
  ⟨_, rfl, rfl, rfl, rfl, rfl, rfl⟩

/-- C7: after the sample renderer was reconciled with layout 4 (locations 0 and 1),
requesting layout 7, whose only attribute has location 0, and running `bind_state`
regenerates layout 7 and enables the attribute arrays 0 and 1: index 1, left set in
`enabled_vertex_attributes` by the earlier layout, is enabled and not disabled. -/
theorem earlier_layout_attribute_stays_enabled :
    ∃ s1 s2, bind_state quiet_driver sample_renderer = .ok s1 ∧
      bind_state quiet_driver (renderer_set_input_layout s1 7) = .ok s2 ∧
      read_input_layout s1.resource_pool 7 = .ok position_only_layout ∧
      attribute_descriptions (issued s1 s2) = [.glVertexAttribPointer 0 3 0x1406 false 16 0] ∧
      enabled_arrays (issued s1 s2) = [0, 1] ∧
      disabled_arrays (issued s1 s2) = [2, 3, 4, 5, 6, 7, 8, 9, 10, 11, 12, 13, 14, 15] ∧
      s2.g_bound_state.enabled_vertex_attributes[1]? = some true :=
  ⟨_, _, rfl, rfl, rfl, rfl, rfl, rfl, rfl⟩

/-! ## Defects on concrete inputs -/

/-- C18: on the start-up renderer, `renderer_create_render_target` generates the
framebuffer 1 and the texture 2 and stores both in slot 1; `renderer_release_render_target`
of that slot then deletes the texture 2 and, as framebuffer, the name 2 again: the
framebuffer 1 is never deleted, and the two names stay in the slot. -/
theorem release_render_target_deletes_texture_name_twice :
    ∃ s1 s2, renderer_create_render_target sample_definitions (initial_renderer 4) sample_texture =
        .ok (1, s1) ∧
      pool_slot s1.resource_pool 1 = .ok ⟨1, RES_RENDER_TARGET, .render_target ⟨1, ⟨2, 2⟩⟩⟩ ∧
      renderer_release_render_target s1 1 = .ok s2 ∧
      issued s1 s2 = [.glDeleteTextures 1 2, .glDeleteFramebuffers 1 2] ∧
      pool_slot s2.resource_pool 1 = .ok ⟨0, RES_RENDER_TARGET, .render_target ⟨1, ⟨2, 2⟩⟩⟩ :=
  ⟨_, _, rfl, rfl, rfl, rfl, rfl⟩

/-- C19: on the sample renderer, where the applied pair is (0, 0),
`renderer_link_shader_program` with the pair (1, 2) links program 1 from the native
shaders 11 and 12 of slots 1 and 2 and appends the cache entry with `vs = 0` and `ps = 0`:
the entry is keyed by the applied pair of `g_bound_state`, not by the pair linked. -/
theorem linked_entry_keyed_by_applied_pair :
    ∃ s1, renderer_link_shader_program quiet_driver sample_renderer ⟨1, 2, []⟩ = .ok (8, s1) ∧
      issued sample_renderer s1 =
        [.glCreateProgram 1, .glAttachShader 1 11, .glAttachShader 1 12, .glLinkProgram 1,
         .glGetShaderiv 1 GL_LINK_STATUS, .glGetShaderiv 1 GL_INFO_LOG_LENGTH] ∧
      s1.shader_programs = [⟨0, 0, none, 1⟩] ∧
      sample_renderer.g_bound_state.vertex_shader = 0 ∧
      sample_renderer.g_bound_state.pixel_shader = 0 :=
  ⟨_, rfl, rfl, rfl, rfl, rfl⟩

/-- C20: on the start-up renderer, with slot 0 reserved and every requested handle left
at 0, `renderer_draw` does not complete: `bind_state` takes the null `input_layout`
pointer of slot 0 and reads `vb_handle` through it. `renderer_set_targets` with colour
target 0 binds the default framebuffer. -/
theorem draw_with_null_layout_reads_slot_zero :
    slot0_reserved (initial_renderer 4).resource_pool ∧
      (initial_renderer 4).g_current_state = zero_state ∧
      renderer_draw quiet_driver (initial_renderer 4) 3 0 4 = .error (.null_pointer 0) ∧
      renderer_set_targets (initial_renderer 4) 0 0 0 0 =
        .ok (gl (.glBindFramebuffer GL_FRAMEBUFFER 0) (initial_renderer 4)) :=
  ⟨rfl, rfl, rfl, rfl⟩

/-! ## The calls of a reconciliation, by block -/

theorem calls_of_refl (P : gl_call → Bool) (calls : List gl_call) : calls_of P calls calls :=
  ⟨[], by simp, by simp⟩

theorem calls_of_snoc (P : gl_call → Bool) (before after : List gl_call) (c : gl_call)
    (h : calls_of P before after) (hc : P c = true) : calls_of P before (after ++ [c]) := by
  obtain ⟨calls, hcalls, hall⟩ := h
  refine ⟨calls ++ [c], by rw [hcalls, List.append_assoc], ?_⟩
  intro x hx
  rcases List.mem_append.mp hx with hx | hx
  · exact hall x hx
  · rw [List.mem_singleton.mp hx]
    exact hc

theorem calls_of_trans (P : gl_call → Bool) (a b c : List gl_call) (h1 : calls_of P a b)
    (h2 : calls_of P b c) : calls_of P a c := by
  obtain ⟨c1, hc1, hall1⟩ := h1
  obtain ⟨c2, hc2, hall2⟩ := h2
  refine ⟨c1 ++ c2, by rw [hc2, hc1, List.append_assoc], ?_⟩
  intro x hx
  rcases List.mem_append.mp hx with hx | hx
  · exact hall1 x hx
  · exact hall2 x hx

theorem link_program_internal_calls (drv : gl_driver) (s : renderer) (vs ps : Nat) :
    calls_of is_program_call s.gl_calls (link_program_internal drv s vs ps).2.gl_calls := by
  unfold link_program_internal
  simp only [gl_gen]
  split
  · simp only [gl]
    refine ⟨[.glCreateProgram (s.gl_names + 1), .glAttachShader (s.gl_names + 1) vs,
        .glAttachShader (s.gl_names + 1) ps, .glLinkProgram (s.gl_names + 1),
        .glGetShaderiv (s.gl_names + 1) GL_LINK_STATUS,
        .glGetShaderiv (s.gl_names + 1) GL_INFO_LOG_LENGTH,
        .glGetShaderInfoLog (s.gl_names + 1) (drv.info_log_length (s.gl_names + 1))], ?_, ?_⟩
    · simp
    · simp [is_program_call]
  · simp only [gl]
    refine ⟨[.glCreateProgram (s.gl_names + 1), .glAttachShader (s.gl_names + 1) vs,
        .glAttachShader (s.gl_names + 1) ps, .glLinkProgram (s.gl_names + 1),
        .glGetShaderiv (s.gl_names + 1) GL_LINK_STATUS,
        .glGetShaderiv (s.gl_names + 1) GL_INFO_LOG_LENGTH], ?_, ?_⟩
    · simp
    · simp [is_program_call]

theorem bind_shaders_calls (drv : gl_driver) (s s1 : renderer)
    (h : bind_shaders drv s = .ok s1) : calls_of is_program_call s.gl_calls s1.gl_calls := by
  unfold bind_shaders at h
  split at h
  · simp only at h
    split at h
    · cases h
    · split at h
      · cases h
      · split at h
        · cases h
        · rename_i vs_handle hvs _ ps_handle hps
          simp only [Except.ok.injEq] at h
          subst h
          refine calls_of_snoc is_program_call _ _ _ ?_ rfl
          exact link_program_internal_calls drv _ vs_handle ps_handle
  · simp only [Except.ok.injEq] at h
    subst h
    exact calls_of_refl _ _

theorem describe_attributes_calls (attrs : List vertex_attribute) (s s1 : renderer)
    (h : describe_attributes s attrs = .ok s1) : calls_of is_layout_call s.gl_calls s1.gl_calls := by
  induction attrs generalizing s with
  | nil =>
    simp only [describe_attributes, Except.ok.injEq] at h
    subst h
    exact calls_of_refl _ _
  | cons attr rest ih =>
    unfold describe_attributes at h
    cases hd : describe_attribute s attr with
    | error e => simp [hd] at h
    | ok s0 =>
      simp only [hd] at h
      refine calls_of_trans _ _ _ _ ?_ (ih s0 h)
      unfold describe_attribute at hd
      by_cases hloc : attr.location < MAX_VERTEX_ATTRIBUTES
      · simp only [hloc, if_true, Except.ok.injEq] at hd
        subst hd
        exact calls_of_snoc is_layout_call _ _ _ (calls_of_refl _ _) rfl
      · simp [hloc] at hd

theorem toggle_attribute_arrays_calls (indices : List Nat) (s s1 : renderer)
    (h : toggle_attribute_arrays s indices = .ok s1) :
    calls_of is_layout_call s.gl_calls s1.gl_calls := by
  induction indices generalizing s with
  | nil =>
    simp only [toggle_attribute_arrays, Except.ok.injEq] at h
    subst h
    exact calls_of_refl _ _
  | cons i rest ih =>
    unfold toggle_attribute_arrays at h
    cases hd : toggle_attribute_array s i with
    | error e => simp [hd] at h
    | ok s0 =>
      simp only [hd] at h
      refine calls_of_trans _ _ _ _ ?_ (ih s0 h)
      unfold toggle_attribute_array at hd
      split at hd
      · cases hd
      · simp only [Except.ok.injEq] at hd
        subst hd
        exact calls_of_snoc is_layout_call _ _ _ (calls_of_refl _ _) rfl
      · simp only [Except.ok.injEq] at hd
        subst hd
        exact calls_of_snoc is_layout_call _ _ _ (calls_of_refl _ _) rfl

theorem regenerate_vertex_array_calls (s : renderer) (res : input_layout)
    (r : input_layout × renderer) (h : regenerate_vertex_array s res = .ok r) :
    calls_of is_layout_call s.gl_calls r.2.gl_calls := by
  unfold regenerate_vertex_array at h
  have hgen : calls_of is_layout_call s.gl_calls (generate_vertex_array s res).2.gl_calls := by
    unfold generate_vertex_array
    by_cases hv : res.vertex_array_handle = 0
    · rw [if_pos hv]
      exact calls_of_snoc is_layout_call _ _ _ (calls_of_refl _ _) rfl
    · rw [if_neg hv]
      exact calls_of_refl _ _
  refine calls_of_trans _ _ _ _ hgen ?_
  generalize generate_vertex_array s res = generated at h
  unfold describe_vertex_array at h
  simp only at h
  split at h
  · cases h
  · rename_i s1 hd
    split at h
    · cases h
    · rename_i s2 ht
      simp only [Except.ok.injEq] at h
      subst h
      refine calls_of_trans _ _ _ _ ?_ (toggle_attribute_arrays_calls _ _ _ ht)
      refine calls_of_trans _ _ _ _ ?_ (describe_attributes_calls _ _ _ hd)
      exact calls_of_snoc is_layout_call _ _ _ (calls_of_refl _ _) rfl

theorem bind_input_layout_calls (s s1 : renderer) (h : bind_input_layout s = .ok s1) :
    calls_of is_layout_call s.gl_calls s1.gl_calls := by
  unfold bind_input_layout at h
  cases hr : read_input_layout s.resource_pool s.g_current_state.input_layout with
  | error e => simp [hr] at h
  | ok input_res =>
    simp only [hr] at h
    split at h
    · split at h
      · split at h
        · cases h
        · rename_i r hg
          simp only [Except.ok.injEq] at h
          subst h
          have hcalls := regenerate_vertex_array_calls _ _ _ hg
          exact calls_of_snoc is_layout_call _ _ _ hcalls rfl
      · simp only [Except.ok.injEq] at h
        subst h
        exact calls_of_snoc is_layout_call _ _ _ (calls_of_refl _ _) rfl
    · simp only [Except.ok.injEq] at h
      subst h
      exact calls_of_refl _ _

theorem bind_raster_state_calls (s s1 : renderer) (h : bind_raster_state s = .ok s1) :
    (s.g_bound_state.raster_state = s.g_current_state.raster_state ∧ s1.gl_calls = s.gl_calls) ∨
    (s.g_bound_state.raster_state ≠ s.g_current_state.raster_state ∧
      ∃ rs, read_raster_state s.resource_pool s.g_current_state.raster_state = .ok rs ∧
        s1.gl_calls = s.gl_calls ++ raster_state_calls rs) := by
  unfold bind_raster_state at h
  split at h
  · rename_i hne
    simp only at h
    cases hr : read_raster_state s.resource_pool s.g_current_state.raster_state with
    | error e => simp [hr] at h
    | ok rs =>
      obtain ⟨cull_face, polygon_mode, culling, depth_clip, scissor⟩ := rs
      simp only [hr, Except.ok.injEq] at h
      subst h
      refine Or.inr ⟨hne, _, rfl, ?_⟩
      cases culling <;> cases depth_clip <;> cases scissor <;>
        simp [gl, raster_state_calls]
  · rename_i hsame
    simp only [Except.ok.injEq] at h
    subst h
    simp only [Decidable.not_not] at hsame
    exact Or.inl ⟨hsame, rfl⟩

theorem bind_state_calls (drv : gl_driver) (s s4 : renderer) (h : bind_state drv s = .ok s4) :
    ∃ program_calls layout_calls state_calls res,
      read_handle s.resource_pool s.g_current_state.vertex_buffer = .ok res ∧
      issued s s4 =
        program_calls ++ .glBindBuffer GL_ARRAY_BUFFER res :: (layout_calls ++ state_calls) ∧
      (∀ c ∈ program_calls, is_program_call c = true) ∧
      (∀ c ∈ layout_calls, is_layout_call c = true) ∧
      ((s.g_bound_state.raster_state = s.g_current_state.raster_state ∧ state_calls = []) ∨
        (s.g_bound_state.raster_state ≠ s.g_current_state.raster_state ∧
          ∃ rs, read_raster_state s.resource_pool s.g_current_state.raster_state = .ok rs ∧
            state_calls = raster_state_calls rs)) := by
  obtain ⟨s1, s2, s3, h1, h2, h3, h4⟩ := bind_state_ok drv s s4 h
  obtain ⟨a1, a2, -, -, -, -, -, -, a9, -, -, -⟩ := bind_shaders_ok drv s s1 h1
  obtain ⟨pc, hpc, hpall⟩ := bind_shaders_calls drv s s1 h1
  obtain ⟨res, hres, hs2⟩ := bind_vertex_buffer_ok s1 s2 h2
  obtain ⟨b1, -, -, -, -, -, b7, -, -, -, b11, -, -⟩ := bind_input_layout_ok s2 s3 h3
  obtain ⟨lc, hlc, hlall⟩ := bind_input_layout_calls s2 s3 h3
  have hcur3 : s3.g_current_state = s.g_current_state := by
    rw [b1, hs2]
    exact a1
  have hrs3 : s3.g_bound_state.raster_state = s.g_bound_state.raster_state := by
    rw [b7, hs2]
    exact a9
  have hcalls3 : s3.gl_calls = s.gl_calls ++ (pc ++ .glBindBuffer GL_ARRAY_BUFFER res :: lc) := by
    rw [hlc, hs2]
    show (s1.gl_calls ++ [_]) ++ lc = _
    rw [hpc]
    simp
  have hread : ∀ j, read_raster_state s3.resource_pool j = read_raster_state s.resource_pool j := by
    intro j
    rw [b11, hs2]
    show read_raster_state s1.resource_pool j = _
    rw [a2]
  rw [a1, a2] at hres
  rcases bind_raster_state_calls s3 s4 h4 with ⟨hsame, hc4⟩ | ⟨hne, rs, hrs, hc4⟩
  · refine ⟨pc, lc, [], res, hres, ?_, hpall, hlall, Or.inl ⟨?_, rfl⟩⟩
    · apply issued_eq
      rw [hc4, hcalls3]
      simp
    · rw [← hrs3, ← hcur3]
      exact hsame
  · refine ⟨pc, lc, raster_state_calls rs, res, hres, ?_, hpall, hlall, Or.inr ⟨?_, rs, ?_, rfl⟩⟩
    · apply issued_eq
      rw [hc4, hcalls3]
      simp
    · rw [← hrs3, ← hcur3]
      exact hne
    · rw [← hread, ← hcur3]
      exact hrs

/-! ## Indexed draws -/

theorem filterMap_none {α : Type} (f : gl_call → Option α) (calls : List gl_call)
    (h : ∀ c ∈ calls, f c = none) : calls.filterMap f = [] := by
  induction calls with
  | nil => rfl
  | cons c rest ih =>
    rw [List.filterMap_cons, h c (List.mem_cons_self _ _)]
    exact ih (fun x hx => h x (List.mem_cons_of_mem _ hx))

theorem program_call_binds_no_index_buffer (c : gl_call) (h : is_program_call c = true) :
    index_buffer_bind c = none := by
  cases c <;> simp [is_program_call] at h <;> rfl

theorem layout_call_binds_no_index_buffer (c : gl_call) (h : is_layout_call c = true) :
    index_buffer_bind c = none := by
  cases c <;> simp [is_layout_call] at h <;> rfl

theorem raster_state_calls_bind_no_index_buffer (rs : raster_state) :
    index_buffer_binds (raster_state_calls rs) = [] := by
  obtain ⟨cull_face, polygon_mode, culling, depth_clip, scissor⟩ := rs
  cases culling <;> cases depth_clip <;> cases scissor <;> rfl

theorem bind_state_binds_no_index_buffer (drv : gl_driver) (s s1 : renderer)
    (h : bind_state drv s = .ok s1) : index_buffer_binds (issued s s1) = [] := by
  obtain ⟨pc, lc, sc, res, -, hissued, hp, hl, hsc⟩ := bind_state_calls drv s s1 h
  have hsc0 : index_buffer_binds sc = [] := by
    rcases hsc with ⟨-, rfl⟩ | ⟨-, rs, -, rfl⟩
    · rfl
    · exact raster_state_calls_bind_no_index_buffer rs
  have hne : GL_ARRAY_BUFFER ≠ GL_ELEMENT_ARRAY_BUFFER := by decide
  unfold index_buffer_binds at hsc0 ⊢
  rw [hissued, List.filterMap_append, List.filterMap_cons, List.filterMap_append,
    filterMap_none _ pc (fun c hc => program_call_binds_no_index_buffer c (hp c hc)),
    filterMap_none _ lc (fun c hc => layout_call_binds_no_index_buffer c (hl c hc)), hsc0]
  simp [index_buffer_bind, hne]

theorem renderer_draw_indexed_ok (drv : gl_driver) (s s1 : renderer)
    (index_count start_index base_vertex primitive_topology : Nat)
    (h : renderer_draw_indexed drv s index_count start_index base_vertex primitive_topology =
      .ok s1) :
    ∃ s0 res, bind_state drv s = .ok s0 ∧
      read_handle s.resource_pool s.g_bound_state.index_buffer = .ok res ∧
      issued s s1 = issued s s0 ++
        [.glBindBuffer GL_ELEMENT_ARRAY_BUFFER res,
         .glDrawElementsBaseVertex primitive_topology index_count GL_UNSIGNED_SHORT
           (start_index * 2 % 2 ^ 32) base_vertex] ∧
      index_buffer_binds (issued s s1) = [res] ∧
      s1.g_bound_state.index_buffer = s.g_bound_state.index_buffer ∧
      ∀ j, read_handle s1.resource_pool j = read_handle s.resource_pool j := by
  unfold renderer_draw_indexed at h
  cases hb : bind_state drv s with
  | error e => simp [hb] at h
  | ok s0 =>
    simp only [hb] at h
    cases hr : read_handle s0.resource_pool s0.g_bound_state.index_buffer with
    | error e => simp [hr] at h
    | ok res =>
      simp only [hr, Except.ok.injEq] at h
      subst h
      obtain ⟨-, -, -, -, -, -, -, p8, -, -⟩ := bind_state_post drv s s0 hb
      obtain ⟨t1, t2, t3, h1, h2, h3, h4⟩ := bind_state_ok drv s s0 hb
      have hib : s0.g_bound_state.index_buffer = s.g_bound_state.index_buffer := by
        obtain ⟨-, -, -, -, -, -, a7, -, -, -, -, -⟩ := bind_shaders_ok drv s t1 h1
        obtain ⟨res2, -, ht2⟩ := bind_vertex_buffer_ok t1 t2 h2
        obtain ⟨-, -, -, b4, -, -, -, -, -, -, -, -, -⟩ := bind_input_layout_ok t2 t3 h3
        obtain ⟨-, -, -, -, -, c6, -, -, -, -, -⟩ := bind_raster_state_ok t3 s0 h4
        rw [c6, b4, ht2]
        exact a7
      obtain ⟨pc, lc, sc, res0, -, hissued0, -, -, -⟩ := bind_state_calls drv s s0 hb
      have hcalls0 : s0.gl_calls = s.gl_calls ++ issued s s0 := by
        obtain ⟨-, -, -, -, -, -, -, -, -, -, -, ⟨c1, hc1⟩⟩ := bind_shaders_ok drv s t1 h1
        obtain ⟨res2, -, ht2⟩ := bind_vertex_buffer_ok t1 t2 h2
        obtain ⟨-, -, -, -, -, -, -, -, -, -, -, -, ⟨c3, hc3, -, -⟩⟩ := bind_input_layout_ok t2 t3 h3
        obtain ⟨-, -, -, -, -, -, -, -, -, -, ⟨c4, hc4, -, -⟩⟩ := bind_raster_state_ok t3 s0 h4
        have hall : s0.gl_calls = s.gl_calls ++ (c1 ++ [.glBindBuffer GL_ARRAY_BUFFER res2] ++ c3 ++ c4) := by
          rw [hc4, hc3, ht2]
          show ((t1.gl_calls ++ [_]) ++ c3) ++ c4 = _
          rw [hc1]
          simp
        rw [issued_eq s s0 _ hall]
        exact hall
      have hissued : issued s (gl (.glDrawElementsBaseVertex primitive_topology index_count
          GL_UNSIGNED_SHORT (start_index * 2 % 2 ^ 32) base_vertex)
          (gl (.glBindBuffer GL_ELEMENT_ARRAY_BUFFER res) s0)) = issued s s0 ++
          [.glBindBuffer GL_ELEMENT_ARRAY_BUFFER res,
           .glDrawElementsBaseVertex primitive_topology index_count GL_UNSIGNED_SHORT
             (start_index * 2 % 2 ^ 32) base_vertex] := by
        apply issued_eq
        show (s0.gl_calls ++ [_]) ++ [_] = _
        rw [hcalls0]
        simp
      refine ⟨s0, res, rfl, ?_, hissued, ?_, hib, p8⟩
      · rw [← p8, ← hib]
        exact hr
      · rw [hissued]
        unfold index_buffer_binds
        rw [List.filterMap_append]
        have h0 := bind_state_binds_no_index_buffer drv s s0 hb
        unfold index_buffer_binds at h0
        rw [h0]
        simp [index_buffer_bind]

/-- C15: after `renderer_set_index_buffer (b)`, every `renderer_draw_indexed` runs
`bind_state`, then issues exactly one element-array-buffer bind, of the native handle
stored in slot `b`, and then the draw call; a second indexed draw right after, with the
same index buffer, issues the same bind again. -/
theorem draw_indexed_rebinds_index_buffer (drv : gl_driver) (s s1 s2 : renderer)
    (buffer_index format offset : Nat)
    (index_count start_index base_vertex primitive_topology : Nat)
    (index_count2 start_index2 base_vertex2 primitive_topology2 : Nat)
    (h1 : renderer_draw_indexed drv (renderer_set_index_buffer s buffer_index format offset)
      index_count start_index base_vertex primitive_topology = .ok s1)
    (h2 : renderer_draw_indexed drv s1 index_count2 start_index2 base_vertex2
      primitive_topology2 = .ok s2) :
    ∃ res t1 t2, read_handle s.resource_pool buffer_index = .ok res ∧
      bind_state drv (renderer_set_index_buffer s buffer_index format offset) = .ok t1 ∧
      bind_state drv s1 = .ok t2 ∧
      issued (renderer_set_index_buffer s buffer_index format offset) s1 =
        issued (renderer_set_index_buffer s buffer_index format offset) t1 ++
          [.glBindBuffer GL_ELEMENT_ARRAY_BUFFER res,
           .glDrawElementsBaseVertex primitive_topology index_count GL_UNSIGNED_SHORT
             (start_index * 2 % 2 ^ 32) base_vertex] ∧
      index_buffer_binds (issued (renderer_set_index_buffer s buffer_index format offset) s1) =
        [res] ∧
      issued s1 s2 = issued s1 t2 ++
        [.glBindBuffer GL_ELEMENT_ARRAY_BUFFER res,
         .glDrawElementsBaseVertex primitive_topology2 index_count2 GL_UNSIGNED_SHORT
           (start_index2 * 2 % 2 ^ 32) base_vertex2] ∧
      index_buffer_binds (issued s1 s2) = [res] := by
  obtain ⟨t1, res, hb1, hr1, hi1, hn1, hk1, hp1⟩ := renderer_draw_indexed_ok drv _ s1 _ _ _ _ h1
  obtain ⟨t2, res2, hb2, hr2, hi2, hn2, -, -⟩ := renderer_draw_indexed_ok drv s1 s2 _ _ _ _ h2
  have hsame : res2 = res := by
    rw [hk1, hp1, hr1] at hr2
    exact (Except.ok.inj hr2).symm
  subst hsame
  exact ⟨res2, t1, t2, hr1, hb1, hb2, hi1, hn1, hi2, hn2⟩

theorem draw_indexed_rebinds_index_buffer_witness :
    ∃ s1 s2,
      renderer_draw_indexed quiet_driver (renderer_set_index_buffer sample_renderer 6 0 0)
        6 0 0 4 = .ok s1 ∧
      renderer_draw_indexed quiet_driver s1 6 0 0 4 = .ok s2 ∧
      index_buffer_binds (issued (renderer_set_index_buffer sample_renderer 6 0 0) s1) = [16] ∧
      index_buffer_binds (issued s1 s2) = [16] := by
  have h1 : renderer_draw_indexed quiet_driver (renderer_set_index_buffer sample_renderer 6 0 0)
      6 0 0 4 = .ok (state_left (renderer_draw_indexed quiet_driver
        (renderer_set_index_buffer sample_renderer 6 0 0) 6 0 0 4) sample_renderer) := rfl
  have h2 : renderer_draw_indexed quiet_driver (state_left (renderer_draw_indexed quiet_driver
      (renderer_set_index_buffer sample_renderer 6 0 0) 6 0 0 4) sample_renderer) 6 0 0 4 =
      .ok (state_left (renderer_draw_indexed quiet_driver (state_left
        (renderer_draw_indexed quiet_driver (renderer_set_index_buffer sample_renderer 6 0 0)
          6 0 0 4) sample_renderer) 6 0 0 4) sample_renderer) := rfl
  obtain ⟨res, t1, t2, hr, -, -, -, hn1, -, hn2⟩ :=
    draw_indexed_rebinds_index_buffer quiet_driver sample_renderer _ _ 6 0 0 6 0 0 4 6 0 0 4 h1 h2
  have hres : res = 16 := (Except.ok.inj hr).symm
  subst hres
  exact ⟨_, _, h1, h2, hn1, hn2⟩

/-! ## The allocator -/

theorem resource_scan_found (d : Nat) (slots : List resource_allocation) (i j : Nat)
    (h : resource_scan d slots i = some j) :
    i ≤ j ∧ ∃ r, slots[j - i]? = some r ∧ r.asigned_flag &&& d = 0 := by
  induction slots generalizing i with
  | nil => simp [resource_scan] at h
  | cons r slots ih =>
    unfold resource_scan at h
    split at h
    · obtain ⟨hle, r1, hr1, hfree⟩ := ih (i + 1) h
      refine ⟨by omega, r1, ?_, hfree⟩
      have hji : j - i = (j - (i + 1)) + 1 := by omega
      rw [hji, List.getElem?_cons_succ]
      exact hr1
    · rename_i hq
      simp only [Option.some.injEq] at h
      subst h
      refine ⟨Nat.le_refl _, r, by simp, ?_⟩
      exact Decidable.not_not.mp hq

theorem renderer_get_next_resource_index_ok (pool pool1 : List resource_allocation) (d i : Nat)
    (h : renderer_get_next_resource_index pool d = .ok (i, pool1)) :
    ∃ r, pool[i]? = some r ∧ r.asigned_flag &&& d = 0 ∧
      pool1 = pool.set i { r with asigned_flag := u8 (r.asigned_flag ||| d) } ∧
      pool_slot pool1 i = .ok { r with asigned_flag := u8 (r.asigned_flag ||| d) } := by
  unfold renderer_get_next_resource_index at h
  split at h
  · cases h
  · rename_i j hscan
    split at h
    · cases h
    · rename_i r hr
      simp only [Except.ok.injEq, Prod.mk.injEq] at h
      obtain ⟨hj, hpool⟩ := h
      subst hj
      subst hpool
      obtain ⟨-, r1, hr1, hfree⟩ := resource_scan_found d pool 0 j hscan
      rw [Nat.sub_zero, hr] at hr1
      cases hr1
      have hlt := (List.getElem?_eq_some_iff.mp hr).1
      refine ⟨r, hr, hfree, rfl, ?_⟩
      unfold pool_slot
      rw [List.getElem?_set_self hlt]

theorem pool_slot_set_self (pool : List resource_allocation) (i : Nat)
    (r slot : resource_allocation) (h : pool_slot pool i = .ok r) :
    pool_slot (pool.set i slot) i = .ok slot := by
  unfold pool_slot at h ⊢
  split at h
  · rename_i r1 hr1
    have hlt := (List.getElem?_eq_some_iff.mp hr1).1
    rw [List.getElem?_set_self hlt]
  · cases h

theorem pool_slot_set_ne (pool : List resource_allocation) (i j : Nat)
    (slot : resource_allocation) (h : i ≠ j) :
    pool_slot (pool.set i slot) j = pool_slot pool j := by
  unfold pool_slot
  rw [List.getElem?_set_ne h]

/-! ## Raster states -/

theorem renderer_create_rasterizer_state_ok (k : pen_definitions) (s s1 : renderer)
    (p : rasteriser_state_creation_params) (h : Nat)
    (hc : renderer_create_rasterizer_state k s p = .ok (h, s1)) :
    read_raster_state s1.resource_pool h =
      .ok ⟨if p.cull_mode ≠ k.PEN_CULL_NONE then p.cull_mode else 0, p.fill_mode,
        decide (p.cull_mode ≠ k.PEN_CULL_NONE), p.depth_clip_enable, p.scissor_enable⟩ := by
  unfold renderer_create_rasterizer_state at hc
  split at hc
  · cases hc
  · rename_i index pool halloc
    split at hc
    · cases hc
    · rename_i r hr
      simp only [Except.ok.injEq, Prod.mk.injEq] at hc
      obtain ⟨hidx, hs1⟩ := hc
      subst hidx
      subst hs1
      unfold read_raster_state
      simp only
      rw [pool_slot_set_self pool index r _ hr]
      by_cases hcull : p.cull_mode = k.PEN_CULL_NONE
      · simp [hcull]
      · simp [hcull]

theorem raster_calls_of_raster_state (rs : raster_state) :
    raster_calls (raster_state_calls rs) = raster_state_calls rs := by
  obtain ⟨cull_face, polygon_mode, culling, depth_clip, scissor⟩ := rs
  cases culling <;> cases depth_clip <;> cases scissor <;> rfl

theorem program_call_not_raster (c : gl_call) (h : is_program_call c = true) :
    is_raster_call c = false := by
  cases c <;> simp [is_program_call] at h <;> rfl

theorem layout_call_not_raster (c : gl_call) (h : is_layout_call c = true) :
    is_raster_call c = false := by
  cases c <;> simp [is_layout_call] at h <;> rfl

theorem filter_none (P : gl_call → Bool) (calls : List gl_call)
    (h : ∀ c ∈ calls, P c = false) : calls.filter P = [] := by
  rw [List.filter_eq_nil_iff]
  intro c hc
  rw [h c hc]
  simp

/-- C16: for the handle `h` of `renderer_create_rasterizer_state (p)`, a `bind_state` run
with `h` requested and a different raster state applied issues, as its rasterizer calls,
the front-face call, then culling enabled with mode `p.cull_mode` if
`p.cull_mode != PEN_CULL_NONE` and disabled otherwise, depth clamp enabled iff
`p.depth_clip_enable` is false, the polygon mode `p.fill_mode` and the scissor test enabled
iff `p.scissor_enable`; with `h` already applied it issues no rasterizer call. -/
theorem bind_state_applies_created_raster_state (drv : gl_driver) (k : pen_definitions)
    (s s1 s2 s3 : renderer) (p : rasteriser_state_creation_params) (h : Nat)
    (hc : renderer_create_rasterizer_state k s p = .ok (h, s1))
    (hpool : read_raster_state s2.resource_pool h = read_raster_state s1.resource_pool h)
    (hreq : s2.g_current_state.raster_state = h)
    (hb : bind_state drv s2 = .ok s3) :
    raster_calls (issued s2 s3) =
      (if s2.g_bound_state.raster_state ≠ h then
        [.glFrontFace GL_CW] ++
          (if p.cull_mode ≠ k.PEN_CULL_NONE then
            [.glEnable GL_CULL_FACE, .glCullFace p.cull_mode] else [.glDisable GL_CULL_FACE]) ++
          [if p.depth_clip_enable then .glDisable GL_DEPTH_CLAMP
            else .glEnable GL_DEPTH_CLAMP] ++
          [.glPolygonMode GL_FRONT_AND_BACK p.fill_mode] ++
          [if p.scissor_enable then .glEnable GL_SCISSOR_TEST else .glDisable GL_SCISSOR_TEST]
      else []) ∧
      s3.g_bound_state.raster_state = h := by
  have hrs := renderer_create_rasterizer_state_ok k s s1 p h hc
  obtain ⟨pc, lc, sc, res, -, hissued, hp, hl, hsc⟩ := bind_state_calls drv s2 s3 hb
  obtain ⟨-, -, -, -, -, -, p7, -, -, -⟩ := bind_state_post drv s2 s3 hb
  refine ⟨?_, p7.trans hreq⟩
  have hfilter : raster_calls (issued s2 s3) = raster_calls sc := by
    rw [hissued]
    unfold raster_calls
    rw [List.filter_append, List.filter_cons, List.filter_append,
      filter_none _ pc (fun c hc => program_call_not_raster c (hp c hc)),
      filter_none _ lc (fun c hc => layout_call_not_raster c (hl c hc))]
    simp [is_raster_call]
  rw [hfilter]
  rcases hsc with ⟨hsame, rfl⟩ | ⟨hdiff, rs, hread, rfl⟩
  · rw [hreq] at hsame
    rw [if_neg (fun hne => hne hsame)]
    rfl
  · rw [hreq] at hdiff hread
    rw [if_pos hdiff, raster_calls_of_raster_state]
    rw [hpool, hrs] at hread
    have hrs1 := Except.ok.inj hread
    subst hrs1
    unfold raster_state_calls
    by_cases hcull : p.cull_mode = k.PEN_CULL_NONE
    · simp [hcull]
    · simp [hcull]

theorem bind_state_applies_created_raster_state_witness :
    ∃ s1 s3,
      renderer_create_rasterizer_state sample_definitions sample_renderer
        ⟨0x1B02, 0x0405, true, false⟩ = .ok (8, s1) ∧
      bind_state quiet_driver (renderer_set_rasterizer_state s1 8) = .ok s3 ∧
      raster_calls (issued (renderer_set_rasterizer_state s1 8) s3) =
        [.glFrontFace GL_CW, .glEnable GL_CULL_FACE, .glCullFace 0x0405,
         .glDisable GL_DEPTH_CLAMP, .glPolygonMode GL_FRONT_AND_BACK 0x1B02,
         .glDisable GL_SCISSOR_TEST] ∧
      s3.g_bound_state.raster_state = 8 :=
  have hc : renderer_create_rasterizer_state sample_definitions sample_renderer
      ⟨0x1B02, 0x0405, true, false⟩ = .ok (8, state_created
        (renderer_create_rasterizer_state sample_definitions sample_renderer
          ⟨0x1B02, 0x0405, true, false⟩) sample_renderer) := rfl
  have hb : bind_state quiet_driver (renderer_set_rasterizer_state (state_created
      (renderer_create_rasterizer_state sample_definitions sample_renderer
        ⟨0x1B02, 0x0405, true, false⟩) sample_renderer) 8) = .ok (reconciled quiet_driver
      (renderer_set_rasterizer_state (state_created
        (renderer_create_rasterizer_state sample_definitions sample_renderer
          ⟨0x1B02, 0x0405, true, false⟩) sample_renderer) 8)) := rfl
  have hcalls := bind_state_applies_created_raster_state quiet_driver sample_definitions
    sample_renderer _ (renderer_set_rasterizer_state (state_created
      (renderer_create_rasterizer_state sample_definitions sample_renderer
        ⟨0x1B02, 0x0405, true, false⟩) sample_renderer) 8) _ ⟨0x1B02, 0x0405, true, false⟩ 8
    hc rfl rfl hb
  ⟨_, _, hc, hb, hcalls.1.trans rfl, hcalls.2⟩

/-! ## Query results -/

theorem bytes_value_u64_bytes (v : Nat) (h : v < 2 ^ 64) : bytes_value (u64_bytes v) = v := by
  simp only [u64_bytes, List.range, List.range.loop, List.map, bytes_value]
  norm_num
  omega

theorem u64_bytes_length (v : Nat) : (u64_bytes v).length = 8 := by
  simp [u64_bytes]

/-- C12: for every query index `i < MAX_QUERIES` of a query table of `MAX_QUERIES` slots
and every 64-bit value stored in `last_result` of slot `i`, `renderer_get_last_query (i)`
returns the double whose eight bytes are those of the stored value, so that its 64-bit
pattern is the stored value, and it leaves the query table as it was. -/
theorem renderer_get_last_query_bit_pattern (query_pool : List query_allocation) (i : Nat)
    (res : f64) (hlen : query_pool.length = MAX_QUERIES) (hi : i < MAX_QUERIES)
    (hv : ∀ q ∈ query_pool, q.last_result < 2 ^ 64) (hres : res.bytes.length = 8) :
    ∃ q x, query_pool[i]? = some q ∧
      renderer_get_last_query query_pool i res = .ok (x, query_pool) ∧
      x.bytes = u64_bytes q.last_result ∧ x.bits = q.last_result := by
  have hlt : i < query_pool.length := by rw [hlen]; exact hi
  have hq : query_pool[i]? = some query_pool[i] := List.getElem?_eq_getElem hlt
  have hbytes : memory_cpy res.bytes (u64_bytes query_pool[i].last_result) 8 =
      u64_bytes query_pool[i].last_result := by
    unfold memory_cpy
    rw [List.drop_of_length_le (Nat.le_of_eq hres), List.append_nil]
    exact List.take_of_length_le (Nat.le_of_eq (u64_bytes_length _))
  refine ⟨query_pool[i], ⟨u64_bytes query_pool[i].last_result⟩, hq, ?_, rfl, ?_⟩
  · unfold renderer_get_last_query
    rw [hq]
    simp only [hbytes]
  · exact bytes_value_u64_bytes _ (hv _ (List.getElem_mem hlt))

theorem renderer_get_last_query_bit_pattern_witness :
    ∃ x, renderer_get_last_query
        (List.replicate MAX_QUERIES { zero_query with last_result := 0x4010000000000000 }) 3
        ⟨List.replicate 8 0xcd⟩ =
          .ok (x, List.replicate MAX_QUERIES
            { zero_query with last_result := 0x4010000000000000 }) ∧
      x.bits = 0x4010000000000000 := by
  obtain ⟨q, x, hq, hr, -, hb⟩ := renderer_get_last_query_bit_pattern
    (List.replicate MAX_QUERIES { zero_query with last_result := 0x4010000000000000 }) 3
    ⟨List.replicate 8 0xcd⟩ rfl (by decide)
    (fun q hq => by rw [List.eq_of_mem_replicate hq]; decide) rfl
  have hq3 : q = { zero_query with last_result := 0x4010000000000000 } :=
    (Option.some.inj hq).symm
  subst hq3
  exact ⟨x, hr, hb⟩

/-! ## Clear states -/

theorem u8_or_and_self (f d : Nat) (hd : d < 2 ^ 8) : u8 (f ||| d) &&& d = d := by
  apply Nat.eq_of_testBit_eq
  intro j
  simp only [u8, Nat.testBit_and, Nat.testBit_mod_two_pow, Nat.testBit_or]
  by_cases h8 : j < 8
  · cases f.testBit j <;> cases d.testBit j <;> simp [h8]
  · have hdj : d.testBit j = false := by
      apply Nat.testBit_lt_two_pow
      calc d < 2 ^ 8 := hd
        _ ≤ 2 ^ j := Nat.pow_le_pow_right (by decide) (by omega)
    simp [h8, hdj]

theorem resource_scan_finds (d : Nat) (slots : List resource_allocation) (k : Nat)
    (h : ∃ r ∈ slots, r.asigned_flag &&& d = 0) : ∃ j, resource_scan d slots k = some j := by
  induction slots generalizing k with
  | nil => simp at h
  | cons q slots ih =>
    unfold resource_scan
    split
    · rename_i hq
      obtain ⟨r, hr, hfree⟩ := h
      rcases List.mem_cons.mp hr with rfl | hmem
      · exact absurd hfree hq
      · exact ih (k + 1) ⟨r, hmem, hfree⟩
    · exact ⟨k, rfl⟩

theorem renderer_get_next_resource_index_total (pool : List resource_allocation) (d : Nat)
    (h : ∃ r ∈ pool, r.asigned_flag &&& d = 0) :
    ∃ i pool1, renderer_get_next_resource_index pool d = .ok (i, pool1) := by
  obtain ⟨j, hj⟩ := resource_scan_finds d pool 0 h
  obtain ⟨-, r, hr, -⟩ := resource_scan_found d pool 0 j hj
  rw [Nat.sub_zero] at hr
  unfold renderer_get_next_resource_index
  simp only [hj, hr]
  exact ⟨_, _, rfl⟩

theorem renderer_create_clear_state_ok (s s1 : renderer) (cs : clear_state) (h : Nat)
    (hc : renderer_create_clear_state s cs = .ok (h, s1)) :
    ∃ r, s.resource_pool[h]? = some r ∧
      r.asigned_flag &&& (DIRECT_RESOURCE ||| DEFER_RESOURCE) = 0 ∧
      s1.resource_pool = s.resource_pool.set h
        ⟨u8 (r.asigned_flag ||| (DIRECT_RESOURCE ||| DEFER_RESOURCE)), r.type,
          .clear_state ⟨[cs.r, cs.g, cs.b, cs.a], cs.depth, cs.flags⟩⟩ := by
  unfold renderer_create_clear_state at hc
  split at hc
  · cases hc
  · rename_i index pool halloc
    obtain ⟨r, hr, hfree, hpool, hslot⟩ :=
      renderer_get_next_resource_index_ok _ _ _ _ halloc
    rw [hslot] at hc
    simp only [Except.ok.injEq, Prod.mk.injEq] at hc
    obtain ⟨hidx, hs1⟩ := hc
    subst hidx
    subst hs1
    refine ⟨r, hr, hfree, ?_⟩
    simp only [hpool, List.set_set]

theorem renderer_create_clear_state_total (s : renderer) (cs : clear_state)
    (h : ∃ r ∈ s.resource_pool, r.asigned_flag &&& (DIRECT_RESOURCE ||| DEFER_RESOURCE) = 0) :
    ∃ h1 s1, renderer_create_clear_state s cs = .ok (h1, s1) := by
  obtain ⟨i, pool1, halloc⟩ := renderer_get_next_resource_index_total _ _ h
  obtain ⟨r, -, -, -, hslot⟩ := renderer_get_next_resource_index_ok _ _ _ _ halloc
  unfold renderer_create_clear_state
  simp only [halloc, hslot]
  exact ⟨_, _, rfl⟩

theorem read_clear_state_set_self (pool : List resource_allocation) (i : Nat)
    (r : resource_allocation) (flag type : Nat) (cs : clear_state_internal)
    (h : pool[i]? = some r) :
    read_clear_state (pool.set i ⟨flag, type, .clear_state cs⟩) i = .ok cs := by
  have hlt := (List.getElem?_eq_some_iff.mp h).1
  unfold read_clear_state pool_slot
  rw [List.getElem?_set_self hlt]

theorem read_clear_state_set_ne (pool : List resource_allocation) (i j : Nat)
    (slot : resource_allocation) (h : i ≠ j) :
    read_clear_state (pool.set i slot) j = read_clear_state pool j := by
  unfold read_clear_state
  rw [pool_slot_set_ne pool i j slot h]

/-- C13: on a pool with two slots free for the domain of `renderer_create_clear_state`,
two successive `renderer_create_clear_state` calls for `cs1` and `cs2` both return, with
distinct handles `h1 != h2`; the clear state stored at `h1` holds `(r, g, b, a)`, `depth`
and `flags` of `cs1`, after the first call and still after the second, and the one at
`h2` holds those of `cs2`. -/
theorem create_clear_state_twice (s : renderer) (cs1 cs2 : clear_state) (i j : Nat)
    (ri rj : resource_allocation) (hij : i ≠ j)
    (hi : s.resource_pool[i]? = some ri)
    (hfi : ri.asigned_flag &&& (DIRECT_RESOURCE ||| DEFER_RESOURCE) = 0)
    (hj : s.resource_pool[j]? = some rj)
    (hfj : rj.asigned_flag &&& (DIRECT_RESOURCE ||| DEFER_RESOURCE) = 0) :
    ∃ h1 s1 h2 s2, renderer_create_clear_state s cs1 = .ok (h1, s1) ∧
      renderer_create_clear_state s1 cs2 = .ok (h2, s2) ∧ h1 ≠ h2 ∧
      read_clear_state s1.resource_pool h1 =
        .ok ⟨[cs1.r, cs1.g, cs1.b, cs1.a], cs1.depth, cs1.flags⟩ ∧
      read_clear_state s2.resource_pool h1 =
        .ok ⟨[cs1.r, cs1.g, cs1.b, cs1.a], cs1.depth, cs1.flags⟩ ∧
      read_clear_state s2.resource_pool h2 =
        .ok ⟨[cs2.r, cs2.g, cs2.b, cs2.a], cs2.depth, cs2.flags⟩ := by
  have hmi : ri ∈ s.resource_pool := by
    obtain ⟨hlt, heq⟩ := List.getElem?_eq_some_iff.mp hi
    rw [← heq]
    exact List.getElem_mem hlt
  obtain ⟨h1, s1, hc1⟩ := renderer_create_clear_state_total s cs1 ⟨ri, hmi, hfi⟩
  obtain ⟨r1, hr1, hfree1, hpool1⟩ := renderer_create_clear_state_ok s s1 cs1 h1 hc1
  have hfree : ∃ r ∈ s1.resource_pool,
      r.asigned_flag &&& (DIRECT_RESOURCE ||| DEFER_RESOURCE) = 0 := by
    by_cases hi1 : h1 = i
    · have hj1 : h1 ≠ j := fun hh => hij (hi1.symm.trans hh)
      have hget : s1.resource_pool[j]? = some rj := by
        rw [hpool1, List.getElem?_set_ne hj1]
        exact hj
      obtain ⟨hlt, heq⟩ := List.getElem?_eq_some_iff.mp hget
      exact ⟨rj, by rw [← heq]; exact List.getElem_mem hlt, hfj⟩
    · have hget : s1.resource_pool[i]? = some ri := by
        rw [hpool1, List.getElem?_set_ne hi1]
        exact hi
      obtain ⟨hlt, heq⟩ := List.getElem?_eq_some_iff.mp hget
      exact ⟨ri, by rw [← heq]; exact List.getElem_mem hlt, hfi⟩
  obtain ⟨h2, s2, hc2⟩ := renderer_create_clear_state_total s1 cs2 hfree
  obtain ⟨r2, hr2, hfree2, hpool2⟩ := renderer_create_clear_state_ok s1 s2 cs2 h2 hc2
  have hne : h1 ≠ h2 := by
    intro hh
    subst hh
    have hlt := (List.getElem?_eq_some_iff.mp hr1).1
    rw [hpool1, List.getElem?_set_self hlt] at hr2
    have hr2 := Option.some.inj hr2
    subst hr2
    rw [u8_or_and_self _ _ (by decide)] at hfree2
    revert hfree2
    decide
  refine ⟨h1, s1, h2, s2, hc1, hc2, hne, ?_, ?_, ?_⟩
  · rw [hpool1]
    exact read_clear_state_set_self _ _ _ _ _ _ hr1
  · rw [hpool2, read_clear_state_set_ne _ _ _ _ hne.symm, hpool1]
    exact read_clear_state_set_self _ _ _ _ _ _ hr1
  · rw [hpool2]
    exact read_clear_state_set_self _ _ _ _ _ _ hr2

theorem create_clear_state_twice_witness :
    ∃ s1 s2, renderer_create_clear_state (initial_renderer 4) ⟨1, 0, 0, 1, 1, 3⟩ = .ok (1, s1) ∧
      renderer_create_clear_state s1 ⟨0, 1, 0, 1, 1, 3⟩ = .ok (2, s2) ∧
      read_clear_state s2.resource_pool 1 = .ok ⟨[1, 0, 0, 1], 1, 3⟩ ∧
      read_clear_state s2.resource_pool 2 = .ok ⟨[0, 1, 0, 1], 1, 3⟩ := by
  obtain ⟨h1, s1, h2, s2, hc1, hc2, -, -, hr1, hr2⟩ :=
    create_clear_state_twice (initial_renderer 4) ⟨1, 0, 0, 1, 1, 3⟩ ⟨0, 1, 0, 1, 1, 3⟩ 1 2
      zero_resource zero_resource (by decide) rfl rfl rfl rfl
  have e1 : renderer_create_clear_state (initial_renderer 4) ⟨1, 0, 0, 1, 1, 3⟩ =
      .ok (1, state_created (renderer_create_clear_state (initial_renderer 4)
        ⟨1, 0, 0, 1, 1, 3⟩) (initial_renderer 4)) := rfl
  rw [e1] at hc1
  simp only [Except.ok.injEq, Prod.mk.injEq] at hc1
  obtain ⟨hh1, hs1⟩ := hc1
  subst hh1
  subst hs1
  have e2 : renderer_create_clear_state (state_created (renderer_create_clear_state
      (initial_renderer 4) ⟨1, 0, 0, 1, 1, 3⟩) (initial_renderer 4)) ⟨0, 1, 0, 1, 1, 3⟩ =
      .ok (2, state_created (renderer_create_clear_state (state_created
        (renderer_create_clear_state (initial_renderer 4) ⟨1, 0, 0, 1, 1, 3⟩)
        (initial_renderer 4)) ⟨0, 1, 0, 1, 1, 3⟩) (initial_renderer 4)) := rfl
  have hc2b := hc2
  rw [e2] at hc2b
  simp only [Except.ok.injEq, Prod.mk.injEq] at hc2b
  obtain ⟨hh2, hs2⟩ := hc2b
  subst hh2
  subst hs2
  exact ⟨_, _, e1, e2, hr1, hr2⟩

/-! ## Textures and samplers -/

theorem two_parameter_calls (s : renderer) (p1 v1 p2 v2 : Nat)
    (h1 : p1 ≠ GL_TEXTURE_MAX_LEVEL) (h2 : p2 ≠ GL_TEXTURE_MAX_LEVEL) :
    ∃ calls, (gl (.glTexParameteri GL_TEXTURE_2D p2 v2)
        (gl (.glTexParameteri GL_TEXTURE_2D p1 v1) s)).gl_calls = s.gl_calls ++ calls ∧
      (∀ pname, float_parameters pname calls = []) ∧ max_level_parameters calls = [] ∧
      (gl (.glTexParameteri GL_TEXTURE_2D p2 v2)
        (gl (.glTexParameteri GL_TEXTURE_2D p1 v1) s)).resource_pool = s.resource_pool :=
  ⟨[.glTexParameteri GL_TEXTURE_2D p1 v1, .glTexParameteri GL_TEXTURE_2D p2 v2],
    by simp [gl], fun _ => rfl, by simp [max_level_parameters, max_level_parameter, h1, h2], rfl⟩

theorem set_filter_ok (k : pen_definitions) (filter : Nat) (s : renderer) :
    ∃ calls, (set_filter k filter s).gl_calls = s.gl_calls ++ calls ∧
      (∀ pname, float_parameters pname calls = []) ∧ max_level_parameters calls = [] ∧
      (set_filter k filter s).resource_pool = s.resource_pool := by
  unfold set_filter
  split
  · exact two_parameter_calls s _ _ _ _ (by decide) (by decide)
  · split
    · exact two_parameter_calls s _ _ _ _ (by decide) (by decide)
    · split
      · exact two_parameter_calls s _ _ _ _ (by decide) (by decide)
      · split
        · exact two_parameter_calls s _ _ _ _ (by decide) (by decide)
        · exact ⟨[], by simp, fun _ => rfl, rfl, rfl⟩

theorem set_sampler_parameters_ok (scp : sampler_creation_params) (s : renderer) :
    (set_sampler_parameters scp s).gl_calls = s.gl_calls ++
      ([.glTexParameteri GL_TEXTURE_2D GL_TEXTURE_WRAP_S scp.address_u,
        .glTexParameteri GL_TEXTURE_2D GL_TEXTURE_WRAP_T scp.address_v,
        .glTexParameteri GL_TEXTURE_2D GL_TEXTURE_WRAP_R scp.address_w,
        .glTexParameterf GL_TEXTURE_2D GL_TEXTURE_LOD_BIAS scp.mip_lod_bias] ++
       (if scp.max_lod > -1 then [.glTexParameterf GL_TEXTURE_2D GL_TEXTURE_MAX_LOD scp.max_lod]
        else []) ++
       (if scp.min_lod > -1 then [.glTexParameterf GL_TEXTURE_2D GL_TEXTURE_MIN_LOD scp.min_lod]
        else [])) ∧
      (set_sampler_parameters scp s).resource_pool = s.resource_pool := by
  unfold set_sampler_parameters
  by_cases hmax : scp.max_lod > -1 <;> by_cases hmin : scp.min_lod > -1 <;>
    simp [hmax, hmin, gl]

theorem renderer_set_texture_ok (k : pen_definitions) (s : renderer)
    (texture_index sampler_index resource_slot shader_type : Nat) (texture : texture_info)
    (scp : sampler_creation_params)
    (ht : read_bound_texture s.resource_pool texture_index = .ok texture)
    (hs : read_sampler_state s.resource_pool sampler_index = .ok scp) :
    ∃ s1 filter_calls,
      renderer_set_texture k s texture_index sampler_index resource_slot shader_type = .ok s1 ∧
      issued s s1 =
        [.glActiveTexture ((GL_TEXTURE0 + resource_slot) % 2 ^ 32),
         .glBindTexture GL_TEXTURE_2D texture.handle,
         .glTexParameteri GL_TEXTURE_2D GL_TEXTURE_MAX_LEVEL texture.max_mip_level] ++
        filter_calls ++
        ([.glTexParameteri GL_TEXTURE_2D GL_TEXTURE_WRAP_S scp.address_u,
          .glTexParameteri GL_TEXTURE_2D GL_TEXTURE_WRAP_T scp.address_v,
          .glTexParameteri GL_TEXTURE_2D GL_TEXTURE_WRAP_R scp.address_w,
          .glTexParameterf GL_TEXTURE_2D GL_TEXTURE_LOD_BIAS scp.mip_lod_bias] ++
         (if scp.max_lod > -1 then
            [.glTexParameterf GL_TEXTURE_2D GL_TEXTURE_MAX_LOD scp.max_lod] else []) ++
         (if scp.min_lod > -1 then
            [.glTexParameterf GL_TEXTURE_2D GL_TEXTURE_MIN_LOD scp.min_lod] else [])) ∧
      (∀ pname, float_parameters pname filter_calls = []) ∧
      max_level_parameters filter_calls = [] ∧
      s1.resource_pool = s.resource_pool := by
  have hp : ∃ res, pool_slot s.resource_pool texture_index = .ok res := by
    unfold read_bound_texture at ht
    cases hres : pool_slot s.resource_pool texture_index with
    | error e => simp [hres] at ht
    | ok res => exact ⟨res, rfl⟩
  obtain ⟨res, hres⟩ := hp
  obtain ⟨fc, hfc, hfloat, hlevel, hfpool⟩ := set_filter_ok k scp.filter
    (gl (.glTexParameteri GL_TEXTURE_2D GL_TEXTURE_MAX_LEVEL texture.max_mip_level)
      (gl (.glBindTexture GL_TEXTURE_2D texture.handle)
        (gl (.glActiveTexture ((GL_TEXTURE0 + resource_slot) % 2 ^ 32)) s)))
  obtain ⟨hsc, hspool⟩ := set_sampler_parameters_ok scp (set_filter k scp.filter
    (gl (.glTexParameteri GL_TEXTURE_2D GL_TEXTURE_MAX_LEVEL texture.max_mip_level)
      (gl (.glBindTexture GL_TEXTURE_2D texture.handle)
        (gl (.glActiveTexture ((GL_TEXTURE0 + resource_slot) % 2 ^ 32)) s))))
  refine ⟨set_sampler_parameters scp (set_filter k scp.filter
    (gl (.glTexParameteri GL_TEXTURE_2D GL_TEXTURE_MAX_LEVEL texture.max_mip_level)
      (gl (.glBindTexture GL_TEXTURE_2D texture.handle)
        (gl (.glActiveTexture ((GL_TEXTURE0 + resource_slot) % 2 ^ 32)) s)))), fc, ?_, ?_,
    hfloat, hlevel, ?_⟩
  · unfold renderer_set_texture
    simp only [hres, ht, hs]
  · apply issued_eq
    rw [hsc, hfc]
    simp [gl]
  · rw [hspool, hfpool]
    rfl

/-- C11: for every sampler, `renderer_set_texture` issues the max-LOD parameter call
once, with the value `max_lod`, when `max_lod > -1`, and not at all otherwise; the same
holds for `min_lod` and the min-LOD call, independently; the LOD-bias call is issued once
in every case. -/
theorem set_texture_lod_calls (k : pen_definitions) (s : renderer)
    (texture_index sampler_index resource_slot shader_type : Nat) (texture : texture_info)
    (scp : sampler_creation_params)
    (ht : read_bound_texture s.resource_pool texture_index = .ok texture)
    (hs : read_sampler_state s.resource_pool sampler_index = .ok scp) :
    ∃ s1,
      renderer_set_texture k s texture_index sampler_index resource_slot shader_type = .ok s1 ∧
      float_parameters GL_TEXTURE_MAX_LOD (issued s s1) =
        (if scp.max_lod > -1 then [scp.max_lod] else []) ∧
      float_parameters GL_TEXTURE_MIN_LOD (issued s s1) =
        (if scp.min_lod > -1 then [scp.min_lod] else []) ∧
      float_parameters GL_TEXTURE_LOD_BIAS (issued s s1) = [scp.mip_lod_bias] := by
  obtain ⟨s1, fc, hr, hissued, hfloat, -, -⟩ := renderer_set_texture_ok k s texture_index
    sampler_index resource_slot shader_type texture scp ht hs
  have hfc : ∀ pname, List.filterMap (float_parameter pname) fc = [] := hfloat
  have h1 : GL_TEXTURE_LOD_BIAS ≠ GL_TEXTURE_MAX_LOD := by decide
  have h2 : GL_TEXTURE_LOD_BIAS ≠ GL_TEXTURE_MIN_LOD := by decide
  have h3 : GL_TEXTURE_MAX_LOD ≠ GL_TEXTURE_MIN_LOD := by decide
  refine ⟨s1, hr, ?_, ?_, ?_⟩
  · rw [hissued]
    unfold float_parameters
    by_cases hmax : scp.max_lod > -1 <;> by_cases hmin : scp.min_lod > -1 <;>
      simp [List.filterMap_append, List.filterMap_cons, hfc, float_parameter, hmax, hmin, h1,
        h3.symm]
  · rw [hissued]
    unfold float_parameters
    by_cases hmax : scp.max_lod > -1 <;> by_cases hmin : scp.min_lod > -1 <;>
      simp [List.filterMap_append, List.filterMap_cons, hfc, float_parameter, hmax, hmin, h2,
        h3]
  · rw [hissued]
    unfold float_parameters
    by_cases hmax : scp.max_lod > -1 <;> by_cases hmin : scp.min_lod > -1 <;>
      simp [List.filterMap_append, List.filterMap_cons, hfc, float_parameter, hmax, hmin,
        h1.symm, h2.symm]

theorem set_texture_lod_calls_witness :
    ∃ s1, renderer_set_texture sample_definitions textured_renderer 1 2 0 GL_FRAGMENT_SHADER =
        .ok s1 ∧
      float_parameters GL_TEXTURE_MAX_LOD (issued textured_renderer s1) = [4] ∧
      float_parameters GL_TEXTURE_MIN_LOD (issued textured_renderer s1) = [] ∧
      float_parameters GL_TEXTURE_LOD_BIAS (issued textured_renderer s1) = [0] := by
  obtain ⟨s1, hr, hmax, hmin, hbias⟩ := set_texture_lod_calls sample_definitions
    textured_renderer 1 2 0 GL_FRAGMENT_SHADER ⟨1, 2⟩ ⟨0, 1, 2, 3, 0, 4, -1⟩ rfl rfl
  exact ⟨s1, hr, hmax.trans (by norm_num), hmin.trans (by norm_num), hbias⟩

theorem upload_mips_ok (tcp : texture_creation_params) (sized_format format type : Nat)
    (remaining mip mip_w mip_h offset : Nat) (s s1 : renderer)
    (h : upload_mips tcp sized_format format type remaining mip mip_w mip_h offset s = .ok s1) :
    s1.resource_pool = s.resource_pool ∧ ∃ calls, s1.gl_calls = s.gl_calls ++ calls := by
  induction remaining generalizing mip mip_w mip_h offset s with
  | zero =>
    unfold upload_mips at h
    simp only [Except.ok.injEq] at h
    subst h
    exact ⟨rfl, [], by simp⟩
  | succ n ih =>
    unfold upload_mips at h
    simp only at h
    split at h
    · cases h
    · obtain ⟨hpool, calls, hcalls⟩ := ih _ _ _ _ _ h
      refine ⟨hpool, .glTexImage2D GL_TEXTURE_2D mip sized_format mip_w mip_h 0 format type
        offset :: calls, ?_⟩
      rw [hcalls]
      simp [gl]

theorem create_texture2d_internal_ok (k : pen_definitions) (s s1 : renderer)
    (tcp : texture_creation_params) (texture : texture_info)
    (h : create_texture2d_internal k s tcp = .ok (texture, s1)) :
    texture = ⟨s.gl_names + 1, (tcp.num_mips + 2 ^ 32 - 1) % 2 ^ 32⟩ ∧
      s1.resource_pool = s.resource_pool ∧
      ∃ rest, s1.gl_calls = s.gl_calls ++ .glGenTextures 1 (s.gl_names + 1) :: rest := by
  unfold create_texture2d_internal at h
  split at h
  · cases h
  · simp only at h
    split at h
    · cases h
    · rename_i s0 hup
      obtain ⟨hpool, calls, hcalls⟩ := upload_mips_ok _ _ _ _ _ _ _ _ _ _ _ hup
      simp only [Except.ok.injEq, Prod.mk.injEq] at h
      obtain ⟨ht, hs1⟩ := h
      subst ht
      subst hs1
      refine ⟨rfl, hpool, .glBindTexture GL_TEXTURE_2D (s.gl_names + 1) ::
        (calls ++ [.glBindTexture GL_TEXTURE_2D 0]), ?_⟩
      show s0.gl_calls ++ [_] = _
      rw [hcalls]
      simp [gl, gl_gen]

theorem allocated_at_of (pool pool_a : List resource_allocation) (d h : Nat)
    (r slot : resource_allocation)
    (halloc : renderer_get_next_resource_index pool d = .ok (h, pool_a))
    (hr : pool_slot pool_a h = .ok r)
    (hd : d = DIRECT_RESOURCE ∨ d = DIRECT_RESOURCE ||| DEFER_RESOURCE)
    (hflag : slot.asigned_flag = r.asigned_flag) :
    allocated_at pool (pool_a.set h slot) h := by
  obtain ⟨r0, hr0, hfree, hpool, hslot⟩ := renderer_get_next_resource_index_ok _ _ _ _ halloc
  rw [hslot] at hr
  have hr := Except.ok.inj hr
  subst hr
  refine ⟨r0, slot, d, hd, hr0, hfree, hflag, ?_⟩
  rw [hpool, List.set_set]

theorem renderer_create_texture2d_ok (k : pen_definitions) (s s1 : renderer)
    (tcp : texture_creation_params) (t : Nat)
    (h : renderer_create_texture2d k s tcp = .ok (t, s1)) :
    allocated_at s.resource_pool s1.resource_pool t ∧
      ∃ id, .glGenTextures 1 id ∈ issued s s1 ∧
        read_bound_texture s1.resource_pool t =
          .ok ⟨id, (tcp.num_mips + 2 ^ 32 - 1) % 2 ^ 32⟩ := by
  unfold renderer_create_texture2d at h
  split at h
  · cases h
  · rename_i index pool halloc
    split at h
    · cases h
    · rename_i r hr
      split at h
      · cases h
      · rename_i texture s0 hint
        obtain ⟨htex, hpool, rest, hcalls⟩ := create_texture2d_internal_ok _ _ _ _ _ hint
        simp only [Except.ok.injEq, Prod.mk.injEq] at h
        obtain ⟨hidx, hs1⟩ := h
        subst hidx
        subst hs1
        have hpool0 : s0.resource_pool = pool := hpool
        refine ⟨?_, s.gl_names + 1, ?_, ?_⟩
        · show allocated_at s.resource_pool (s0.resource_pool.set index _) index
          rw [hpool0]
          exact allocated_at_of _ _ _ _ _ _ halloc hr (Or.inl rfl) rfl
        · have hall : s0.gl_calls = s.gl_calls ++ .glGenTextures 1 (s.gl_names + 1) :: rest :=
            hcalls
          unfold issued
          show _ ∈ List.drop s.gl_calls.length s0.gl_calls
          rw [hall]
          simp
        · show read_bound_texture (s0.resource_pool.set index _) index = _
          rw [hpool0]
          unfold read_bound_texture
          rw [pool_slot_set_self pool index r _ hr, htex]
          rfl

theorem renderer_create_render_target_ok (k : pen_definitions) (s s1 : renderer)
    (tcp : texture_creation_params) (t : Nat)
    (h : renderer_create_render_target k s tcp = .ok (t, s1)) :
    allocated_at s.resource_pool s1.resource_pool t ∧
      ∃ id, .glGenTextures 1 id ∈ issued s s1 ∧
        read_bound_texture s1.resource_pool t =
          .ok ⟨id, (tcp.num_mips + 2 ^ 32 - 1) % 2 ^ 32⟩ := by
  unfold renderer_create_render_target at h
  split at h
  · cases h
  · rename_i index pool halloc
    split at h
    · cases h
    · rename_i r hr
      simp only at h
      split at h
      · cases h
      · rename_i texture s0 hint
        obtain ⟨htex, hpool, rest, hcalls⟩ := create_texture2d_internal_ok _ _ _ _ _ hint
        simp only [Except.ok.injEq, Prod.mk.injEq] at h
        obtain ⟨hidx, hs1⟩ := h
        subst hidx
        subst hs1
        have hpool0 : s0.resource_pool = pool := hpool
        refine ⟨?_, s.gl_names + 2, ?_, ?_⟩
        · show allocated_at s.resource_pool (s0.resource_pool.set index _) index
          rw [hpool0]
          exact allocated_at_of _ _ _ _ _ _ halloc hr (Or.inl rfl) rfl
        · have hall : (gl (.glBindFramebuffer GL_FRAMEBUFFER 0)
              (gl (.glFramebufferTexture GL_FRAMEBUFFER GL_COLOR_ATTACHMENT0 texture.handle 0)
                s0)).gl_calls = s.gl_calls ++
              ([.glGenFramebuffers 1 (s.gl_names + 1),
                .glBindFramebuffer GL_FRAMEBUFFER (s.gl_names + 1),
                .glGenTextures 1 (s.gl_names + 2)] ++ rest ++
               [.glFramebufferTexture GL_FRAMEBUFFER GL_COLOR_ATTACHMENT0 texture.handle 0,
                .glBindFramebuffer GL_FRAMEBUFFER 0]) := by
            show (s0.gl_calls ++ [_]) ++ [_] = _
            rw [hcalls]
            simp [gl, gl_gen]
          unfold issued
          show _ ∈ List.drop s.gl_calls.length (gl (.glBindFramebuffer GL_FRAMEBUFFER 0)
              (gl (.glFramebufferTexture GL_FRAMEBUFFER GL_COLOR_ATTACHMENT0 texture.handle 0)
                s0)).gl_calls
          rw [hall]
          simp
        · show read_bound_texture (s0.resource_pool.set index _) index = _
          rw [hpool0]
          unfold read_bound_texture
          rw [pool_slot_set_self pool index r _ hr, htex]
          rfl

/-- C17: for the handle `t` that `renderer_create_texture2d` or
`renderer_create_render_target` returned for `num_mips = n >= 1`, and every later state in
which slot `t` is as the creation left it, `renderer_set_texture (t, sampler, slot, stage)`
returns, selects the texture unit `slot`, binds the texture name generated at the
creation and issues the max-mip-level parameter call exactly once, with the value
`n - 1`; it leaves the pool as it was, so that the same holds on every bind. -/
theorem set_texture_binds_created_texture (k : pen_definitions) (s s1 s2 : renderer)
    (tcp : texture_creation_params) (t sampler_index resource_slot shader_type : Nat)
    (scp : sampler_creation_params)
    (hn : 1 ≤ tcp.num_mips) (hn32 : tcp.num_mips < 2 ^ 32)
    (hc : renderer_create_texture2d k s tcp = .ok (t, s1) ∨
      renderer_create_render_target k s tcp = .ok (t, s1))
    (hkeep : pool_slot s2.resource_pool t = pool_slot s1.resource_pool t)
    (hs : read_sampler_state s2.resource_pool sampler_index = .ok scp) :
    ∃ id s3 rest, .glGenTextures 1 id ∈ issued s s1 ∧
      renderer_set_texture k s2 t sampler_index resource_slot shader_type = .ok s3 ∧
      issued s2 s3 =
        .glActiveTexture ((GL_TEXTURE0 + resource_slot) % 2 ^ 32) ::
        .glBindTexture GL_TEXTURE_2D id ::
        .glTexParameteri GL_TEXTURE_2D GL_TEXTURE_MAX_LEVEL (tcp.num_mips - 1) :: rest ∧
      max_level_parameters (issued s2 s3) = [tcp.num_mips - 1] ∧
      s3.resource_pool = s2.resource_pool := by
  have hcreated : ∃ id, .glGenTextures 1 id ∈ issued s s1 ∧
      read_bound_texture s1.resource_pool t =
        .ok ⟨id, (tcp.num_mips + 2 ^ 32 - 1) % 2 ^ 32⟩ := by
    rcases hc with hc | hc
    · exact (renderer_create_texture2d_ok k s s1 tcp t hc).2
    · exact (renderer_create_render_target_ok k s s1 tcp t hc).2
  obtain ⟨id, hgen, hread⟩ := hcreated
  have hmips : (tcp.num_mips + 2 ^ 32 - 1) % 2 ^ 32 = tcp.num_mips - 1 := by omega
  rw [hmips] at hread
  have hread2 : read_bound_texture s2.resource_pool t = .ok ⟨id, tcp.num_mips - 1⟩ := by
    rw [← hread]
    unfold read_bound_texture
    rw [hkeep]
  obtain ⟨s3, fc, hr, hissued, -, hlevel, hpool⟩ := renderer_set_texture_ok k s2 t sampler_index
    resource_slot shader_type _ scp hread2 hs
  have hfc : List.filterMap max_level_parameter fc = [] := hlevel
  have h1 : GL_TEXTURE_WRAP_S ≠ GL_TEXTURE_MAX_LEVEL := by decide
  have h2 : GL_TEXTURE_WRAP_T ≠ GL_TEXTURE_MAX_LEVEL := by decide
  have h3 : GL_TEXTURE_WRAP_R ≠ GL_TEXTURE_MAX_LEVEL := by decide
  refine ⟨id, s3, fc ++
    ([.glTexParameteri GL_TEXTURE_2D GL_TEXTURE_WRAP_S scp.address_u,
      .glTexParameteri GL_TEXTURE_2D GL_TEXTURE_WRAP_T scp.address_v,
      .glTexParameteri GL_TEXTURE_2D GL_TEXTURE_WRAP_R scp.address_w,
      .glTexParameterf GL_TEXTURE_2D GL_TEXTURE_LOD_BIAS scp.mip_lod_bias] ++
     (if scp.max_lod > -1 then
        [.glTexParameterf GL_TEXTURE_2D GL_TEXTURE_MAX_LOD scp.max_lod] else []) ++
     (if scp.min_lod > -1 then
        [.glTexParameterf GL_TEXTURE_2D GL_TEXTURE_MIN_LOD scp.min_lod] else [])),
    hgen, hr, ?_, ?_, hpool⟩
  · rw [hissued]
    simp only [List.cons_append, List.nil_append, List.append_assoc]
  · rw [hissued]
    unfold max_level_parameters
    by_cases hmax : scp.max_lod > -1 <;> by_cases hmin : scp.min_lod > -1 <;>
      simp [List.filterMap_append, List.filterMap_cons, hfc, max_level_parameter, hmax, hmin,
        h1, h2, h3]

theorem set_texture_binds_created_texture_witness :
    ∃ id s3 rest,
      .glGenTextures 1 id ∈ issued (initial_renderer 4) (state_created
        (renderer_create_render_target sample_definitions (initial_renderer 4) sample_texture)
        (initial_renderer 4)) ∧
      renderer_set_texture sample_definitions (state_created (renderer_create_sampler
        (state_created (renderer_create_render_target sample_definitions (initial_renderer 4)
          sample_texture) (initial_renderer 4)) ⟨0, 1, 2, 3, 0, 4, -1⟩) (initial_renderer 4))
        1 2 0 GL_FRAGMENT_SHADER = .ok s3 ∧
      issued (state_created (renderer_create_sampler
        (state_created (renderer_create_render_target sample_definitions (initial_renderer 4)
          sample_texture) (initial_renderer 4)) ⟨0, 1, 2, 3, 0, 4, -1⟩) (initial_renderer 4))
        s3 =
        .glActiveTexture ((GL_TEXTURE0 + 0) % 2 ^ 32) :: .glBindTexture GL_TEXTURE_2D id ::
        .glTexParameteri GL_TEXTURE_2D GL_TEXTURE_MAX_LEVEL (sample_texture.num_mips - 1) ::
          rest ∧
      max_level_parameters (issued (state_created (renderer_create_sampler
        (state_created (renderer_create_render_target sample_definitions (initial_renderer 4)
          sample_texture) (initial_renderer 4)) ⟨0, 1, 2, 3, 0, 4, -1⟩) (initial_renderer 4))
        s3) = [sample_texture.num_mips - 1] ∧
      s3.resource_pool = (state_created (renderer_create_sampler
        (state_created (renderer_create_render_target sample_definitions (initial_renderer 4)
          sample_texture) (initial_renderer 4)) ⟨0, 1, 2, 3, 0, 4, -1⟩)
        (initial_renderer 4)).resource_pool :=
  set_texture_binds_created_texture sample_definitions (initial_renderer 4) _ _ sample_texture
    1 2 0 GL_FRAGMENT_SHADER ⟨0, 1, 2, 3, 0, 4, -1⟩ (by decide) (by decide) (Or.inr rfl) rfl rfl

/-! ## The reserved slot -/

theorem bind_input_layout_settled_state (s : renderer) (il : input_layout)
    (hr : read_input_layout s.resource_pool s.g_current_state.input_layout = .ok il)
    (hvb : il.vb_handle = s.g_bound_state.vertex_buffer)
    (hvao : il.vb_handle = 0 → il.vertex_array_handle ≠ 0)
    (hil : s.g_current_state.input_layout = s.g_bound_state.input_layout)
    (hstride : s.g_current_state.vertex_buffer_stride = s.g_bound_state.vertex_buffer_stride) :
    ∃ s1, bind_input_layout s = .ok s1 ∧ s1.resource_pool = s.resource_pool ∧
      s1.g_bound_state = s.g_bound_state ∧ s1.shader_programs = s.shader_programs ∧
      s1.g_current_state = s.g_current_state ∧ s1.gl_names = s.gl_names := by
  unfold bind_input_layout
  simp only [hr]
  by_cases h0 : il.vb_handle = 0
  · have hinner : ¬ (il.vertex_array_handle = 0 ∨ il.vb_handle ≠ s.g_bound_state.vertex_buffer) := by
      rintro (h | h)
      · exact hvao h0 h
      · exact h hvb
    rw [if_pos (Or.inl (Or.inl h0))]
    rw [if_neg hinner]
    refine ⟨_, rfl, rfl, ?_, rfl, rfl, rfl⟩
    simp only [gl]
    rw [hil, hstride]
  · have hinv : ¬ ((il.vb_handle = 0 ∨ il.vb_handle ≠ s.g_bound_state.vertex_buffer) ∨
        s.g_current_state.input_layout ≠ s.g_bound_state.input_layout ∨
        s.g_current_state.vertex_buffer_stride ≠ s.g_bound_state.vertex_buffer_stride) := by
      rintro ((h | h) | h | h)
      · exact h0 h
      · exact h hvb
      · exact h hil
      · exact h hstride
    rw [if_neg hinv]
    exact ⟨_, rfl, rfl, rfl, rfl, rfl, rfl⟩

/-- C21: for every state on which `bind_state` returns, a second `bind_state` run right
after returns too and leaves the applied snapshot (with `enabled_vertex_attributes`), the
resource pool and with it the `vertex_array_handle` and `vb_handle` of every input layout,
the shader-program cache, the requested snapshot and the generated names as the first run
left them; after the first run, and so after the second, the `vb_handle` of the requested
layout equals the applied `vertex_buffer`. -/
theorem bind_state_idempotent (drv : gl_driver) (s s1 : renderer)
    (h1 : bind_state drv s = .ok s1) :
    ∃ s2, bind_state drv s1 = .ok s2 ∧ s2.g_bound_state = s1.g_bound_state ∧
      s2.resource_pool = s1.resource_pool ∧
      (∀ j, read_input_layout s2.resource_pool j = read_input_layout s1.resource_pool j) ∧
      s2.shader_programs = s1.shader_programs ∧ s2.g_current_state = s1.g_current_state ∧
      s2.gl_names = s1.gl_names ∧
      ∃ il, read_input_layout s1.resource_pool s1.g_current_state.input_layout = .ok il ∧
        read_input_layout s2.resource_pool s2.g_current_state.input_layout = .ok il ∧
        il.vb_handle = s1.g_bound_state.vertex_buffer ∧
        il.vb_handle = s2.g_bound_state.vertex_buffer := by
  obtain ⟨p1, p2, p3, p4, p5, p6, p7, -, -, il, hil, hvb, hvao⟩ := bind_state_post drv s s1 h1
  have k1 := bind_shaders_same drv s1 (by rw [p2, p1]) (by rw [p3, p1])
  obtain ⟨res, hres⟩ : ∃ res,
      read_handle s1.resource_pool s1.g_current_state.vertex_buffer = .ok res := by
    obtain ⟨t1, t2, t3, a1, a2, a3, a4⟩ := bind_state_ok drv s s1 h1
    obtain ⟨-, apool, -⟩ := bind_shaders_ok drv s t1 a1
    obtain ⟨res, hres, -⟩ := bind_vertex_buffer_ok t1 t2 a2
    obtain ⟨-, -, -, -, -, -, -, p8, -⟩ := bind_state_post drv s s1 h1
    obtain ⟨b1, -⟩ := bind_shaders_ok drv s t1 a1
    refine ⟨res, ?_⟩
    rw [p8, p1, ← apool, ← b1]
    exact hres
  have hbound : { s1.g_bound_state with vertex_buffer := s1.g_current_state.vertex_buffer } =
      s1.g_bound_state := by
    rw [p1, ← p4]
  have k2 : bind_vertex_buffer s1 = .ok (gl (.glBindBuffer GL_ARRAY_BUFFER res) s1) := by
    unfold bind_vertex_buffer
    simp only [hres]
    rw [hbound]
  obtain ⟨t3, k3, hpool, hb, hsp, hcur, hnames⟩ := bind_input_layout_settled_state
    (gl (.glBindBuffer GL_ARRAY_BUFFER res) s1) il
    (by show read_input_layout s1.resource_pool s1.g_current_state.input_layout = _
        rw [p1]; exact hil)
    (by show il.vb_handle = s1.g_bound_state.vertex_buffer
        rw [p4]; exact hvb)
    hvao
    (by show s1.g_current_state.input_layout = s1.g_bound_state.input_layout
        rw [p6, p1])
    (by show s1.g_current_state.vertex_buffer_stride = s1.g_bound_state.vertex_buffer_stride
        rw [p5, p1])
  have k4 := bind_raster_state_same t3 (by
    rw [hb, hcur]
    show s1.g_bound_state.raster_state = s1.g_current_state.raster_state
    rw [p7, p1])
  have hrun : bind_state drv s1 = .ok t3 := by
    unfold bind_state
    simp only [k1, k2, k3, k4]
  have hil1 : read_input_layout s1.resource_pool s1.g_current_state.input_layout = .ok il := by
    rw [p1]
    exact hil
  have hvb1 : il.vb_handle = s1.g_bound_state.vertex_buffer := by
    rw [p4]
    exact hvb
  refine ⟨t3, hrun, hb, hpool, fun j => by rw [hpool]; rfl, hsp, hcur, hnames, il, hil1, ?_,
    hvb1, ?_⟩
  · rw [hpool, hcur]
    exact hil1
  · rw [hb]
    exact hvb1

theorem bind_state_idempotent_witness :
    bind_state quiet_driver sample_renderer = .ok (reconciled quiet_driver sample_renderer) ∧
      ∃ s2, bind_state quiet_driver (reconciled quiet_driver sample_renderer) = .ok s2 ∧
        s2.g_bound_state = (reconciled quiet_driver sample_renderer).g_bound_state ∧
        s2.resource_pool = (reconciled quiet_driver sample_renderer).resource_pool ∧
        s2.shader_programs = (reconciled quiet_driver sample_renderer).shader_programs :=
  have h1 : bind_state quiet_driver sample_renderer =
      .ok (reconciled quiet_driver sample_renderer) := rfl
  match bind_state_idempotent quiet_driver sample_renderer _ h1 with
  | ⟨s2, hrun, hb, hpool, _, hsp, _⟩ => ⟨h1, s2, hrun, hb, hpool, hsp⟩

/-! ## The volume tree -/

theorem and_two_pow_ne_zero (mask i : Nat) : mask &&& 2 ^ i ≠ 0 ↔ mask.testBit i = true := by
  rw [Nat.and_two_pow]
  cases mask.testBit i <;> simp

theorem next_bit (i : Nat) (h : i + 1 ≤ 31) : 2 ^ i * 2 % 2 ^ 32 = 2 ^ (i + 1) := by
  rw [← pow_succ]
  exact Nat.mod_eq_of_lt (Nat.pow_lt_pow_right (by decide) (by omega))

theorem count_used_drives_eq (mask remaining i n : Nat) (hi : i + remaining ≤ 31)
    (hn : n + remaining < 2 ^ 32) :
    count_used_drives mask remaining (2 ^ i) n =
      n + ((List.range' i remaining).filter (fun j => mask.testBit j)).length := by
  induction remaining generalizing i n with
  | zero => simp [count_used_drives]
  | succ remaining ih =>
    unfold count_used_drives
    simp only
    rw [next_bit i (by omega), List.range'_succ]
    by_cases hbit : mask.testBit i = true
    · rw [if_pos ((and_two_pow_ne_zero mask i).mpr hbit),
        Nat.mod_eq_of_lt (by omega), ih (i + 1) (n + 1) (by omega) (by omega),
        List.filter_cons_of_pos (by simpa using hbit)]
      simp only [List.length_cons]
      omega
    · rw [if_neg (fun h => hbit ((and_two_pow_ne_zero mask i).mp h)),
        ih (i + 1) n (by omega) (by omega), List.filter_cons_of_neg (by simpa using hbit)]

theorem drive_name_eq (fresh : fresh_memory) (letter : Nat) :
    drive_name fresh letter = .ok [letter, (':').toNat, 0] := rfl

theorem write_at_append (done rest : List fs_tree_node) (r node : fs_tree_node) :
    write_at (done ++ r :: rest) done.length node = .ok (done ++ node :: rest) := by
  unfold write_at
  rw [if_pos (by simp)]
  simp

theorem fill_children_eq (mask : Nat) (letters : List Nat) (fresh : fresh_memory)
    (hletters : ∀ i, i < 26 → letters[i]? = some (('A').toNat + i))
    (remaining i child : Nat) (done rest : List fs_tree_node) (hi : i + remaining ≤ 26)
    (hd : done.length = child) (hchild : child + remaining < 2 ^ 32)
    (hrest : ((List.range' i remaining).filter (fun j => mask.testBit j)).length ≤
      rest.length) :
    fill_children mask letters fresh remaining i (2 ^ i) child (done ++ rest) =
      .ok (done ++ ((List.range' i remaining).filter (fun j => mask.testBit j)).map volume_node
        ++ rest.drop ((List.range' i remaining).filter (fun j => mask.testBit j)).length) := by
  induction remaining generalizing i child done rest with
  | zero => simp [fill_children]
  | succ remaining ih =>
    unfold fill_children
    rw [next_bit i (by omega)]
    rw [List.range'_succ] at hrest ⊢
    by_cases hbit : mask.testBit i = true
    · rw [if_pos ((and_two_pow_ne_zero mask i).mpr hbit)]
      rw [List.filter_cons_of_pos (by simpa using hbit)] at hrest ⊢
      simp only [hletters i (by omega), drive_name_eq]
      cases rest with
      | nil => simp at hrest
      | cons r rest =>
        subst hd
        rw [write_at_append]
        simp only
        rw [Nat.mod_eq_of_lt (by omega)]
        have hstep := ih (i + 1) (done.length + 1)
          (done ++ [.mk [('A').toNat + i, (':').toNat, 0] [] 0]) rest (by omega) (by simp)
          (by omega) (by simpa using hrest)
        rw [List.append_assoc, List.singleton_append] at hstep
        rw [hstep]
        simp [volume_node]
    · rw [if_neg (fun h => hbit ((and_two_pow_ne_zero mask i).mp h))]
      rw [List.filter_cons_of_neg (by simpa using hbit)] at hrest ⊢
      exact ih (i + 1) child done rest (by omega) hd (by omega) hrest

theorem drive_bits_eq (mask : Nat) :
    (List.range' 0 26).filter (fun j => mask.testBit j) = drive_bits mask := by
  unfold drive_bits
  rw [List.range_eq_range']

/-- C22: for every drive mask, `filesystem_enum_volumes` returns; it returns
`PEN_ERR_FAILED` iff the mask is 0, and then leaves the tree as it was; otherwise it
returns `PEN_ERR_OK` and the tree is the node named `Volumes` whose `num_children` is the
number of bits set among the bits 0..25 of the mask and whose k-th child, in increasing
bit order, is named by the letter `'A' + i` of the k-th set bit `i` followed by `':'`, with
`num_children` 0 and no children. -/
theorem filesystem_enum_volumes_tree (e : pen_error_values) (fresh : fresh_memory)
    (mask : Nat) (tree : fs_tree_node) (hcodes : e.PEN_ERR_OK ≠ e.PEN_ERR_FAILED) :
    ∃ result tree1, filesystem_enum_volumes e fresh mask tree = .ok (result, tree1) ∧
      (result = e.PEN_ERR_FAILED ↔ mask = 0) ∧ (mask = 0 → tree1 = tree) ∧
      (mask ≠ 0 → result = e.PEN_ERR_OK ∧ tree1 = volume_tree mask) := by
  by_cases hm : mask = 0
  · refine ⟨e.PEN_ERR_FAILED, tree, ?_, ?_, fun _ => rfl, fun h => absurd hm h⟩
    · unfold filesystem_enum_volumes
      rw [if_pos hm]
    · exact ⟨fun _ => hm, fun _ => rfl⟩
  · have hlen : string_length (string_literal ['V', 'o', 'l', 'u', 'm', 'e', 's']) = .ok 7 := rfl
    have hname : write_at (memory_cpy (memory_alloc fresh ((7 + 1) % 2 ^ 32))
        (string_literal ['V', 'o', 'l', 'u', 'm', 'e', 's']) 7) 7 0 =
        .ok (string_literal ['V', 'o', 'l', 'u', 'm', 'e', 's']) := rfl
    have hnum : string_length (string_literal
        ['A', 'B', 'C', 'D', 'E', 'F', 'G', 'H', 'I', 'J', 'K', 'L', 'M', 'N', 'O', 'P', 'Q',
        'R', 'S', 'T', 'U', 'V', 'W', 'X', 'Y', 'Z']) = .ok 26 := rfl
    have hcount := count_used_drives_eq mask 26 0 0 (by omega) (by omega)
    rw [drive_bits_eq, Nat.zero_add, pow_zero] at hcount
    have hfill := fill_children_eq mask (string_literal
        ['A', 'B', 'C', 'D', 'E', 'F', 'G', 'H', 'I', 'J', 'K', 'L', 'M', 'N', 'O', 'P', 'Q',
        'R', 'S', 'T', 'U', 'V', 'W', 'X', 'Y', 'Z']) fresh (by decide) 26 0 0 []
      (List.replicate (drive_bits mask).length fresh.node) (by omega) rfl (by omega)
      (by rw [drive_bits_eq, List.length_replicate])
    rw [drive_bits_eq, pow_zero, List.nil_append, List.nil_append,
      List.drop_of_length_le (by rw [List.length_replicate]), List.append_nil] at hfill
    refine ⟨e.PEN_ERR_OK, volume_tree mask, ?_, ?_, fun h => absurd h hm, fun _ => ⟨rfl, rfl⟩⟩
    · unfold filesystem_enum_volumes
      rw [if_neg hm]
      simp only [hlen, hname, hnum, hcount, hfill]
      rfl
    · exact ⟨fun h => absurd h hcodes, fun h => absurd h hm⟩

theorem filesystem_enum_volumes_tree_witness :
    filesystem_enum_volumes ⟨0, 3⟩ ⟨fun _ => 0xcd, .mk [] [] 7⟩ 13 (.mk [] [] 7) =
      .ok (0, .mk (string_literal ['V', 'o', 'l', 'u', 'm', 'e', 's'])
        [.mk [('A').toNat, (':').toNat, 0] [] 0, .mk [('C').toNat, (':').toNat, 0] [] 0,
         .mk [('D').toNat, (':').toNat, 0] [] 0] 3) := by
  obtain ⟨result, tree1, hrun, -, -, hok⟩ := filesystem_enum_volumes_tree ⟨0, 3⟩
    ⟨fun _ => 0xcd, .mk [] [] 7⟩ 13 (.mk [] [] 7) (by decide)
  obtain ⟨hresult, htree⟩ := hok (by decide)
  subst hresult
  subst htree
  exact hrun

end pen
